import Mathlib

/-!
# Marvell Armada DRM display back end

A shallow embedding of `src/armada_drm.c`, the mode-setting back end of the
Armada X video driver, together with theorems about it.

The driver is a sequence of calls into the X server, libdrm, libdrm_armada and
libudev.  The embedding keeps the data the driver owns (its private
`armada_drm_info`, the per-CRTC `armada_crtc_info`, and the fields of the
server records it reads and writes) in an explicit state, and records every
call that leaves the driver as an `Event` appended to a trace, together with
the result the callee gave.  What a callee answers is supplied by a `Host`:
each field maps the trace so far to the answer, so a theorem quantified over
all hosts holds for every behaviour of the kernel and of the server.

Conventions:
* C `int` values are `Int`; unsigned values are `Nat`; a conversion to an
  unsigned type of width `w` is an explicit `% 2 ^ w`.
* A pointer that may be NULL is an `Option`; `Bool` results of the X server
  (`TRUE`/`FALSE`) are `Bool`.
* A `xf86CrtcPtr` is the index of the CRTC in `xf86_config->crtc[]`, and a
  `xf86OutputPtr` the index in `xf86_config->output[]`.
* C strings are lists of byte values without the terminating NUL.
* The build is the one with `HAVE_UDEV` defined.
-/

namespace Armada

/-! ## Records of the X server and of libdrm that the driver touches -/

/-- The fields of the server's `DisplayModeRec` that the driver reads. -/
structure DisplayModeRec where
  name : Option (List Nat)
  Clock : Int
  HDisplay : Int
  HSyncStart : Int
  HSyncEnd : Int
  HTotal : Int
  HSkew : Int
  VDisplay : Int
  VSyncStart : Int
  VSyncEnd : Int
  VTotal : Int
  VScan : Int
  Flags : Int
  deriving DecidableEq, Inhabited

/-- The kernel's `drmModeModeInfo`: `clock`, `vrefresh`, `flags` and `type`
are 32-bit unsigned, the timing fields 16-bit unsigned, `name` is
`char[DRM_DISPLAY_MODE_LEN]`. -/
structure drmModeModeInfo where
  clock : Nat
  hdisplay : Nat
  hsync_start : Nat
  hsync_end : Nat
  htotal : Nat
  hskew : Nat
  vdisplay : Nat
  vsync_start : Nat
  vsync_end : Nat
  vtotal : Nat
  vscan : Nat
  vrefresh : Nat
  flags : Nat
  type : Nat
  name : List Nat
  deriving DecidableEq, Inhabited

/-- A libdrm_armada buffer object, as far as the driver looks into it. -/
structure drm_armada_bo where
  handle : Nat
  pitch : Nat
  deriving DecidableEq, Inhabited

/-- The driver's per-CRTC private record `struct armada_crtc_info`;
`mode_crtc` holds `mode_crtc->crtc_id`. -/
structure armada_crtc_info where
  drm_fd : Int
  num : Nat
  cursor_max_width : Nat
  cursor_max_height : Nat
  mode_crtc : Nat
  cursor_bo : Option drm_armada_bo
  rotate_fb_id : Nat
  kmode : drmModeModeInfo
  deriving DecidableEq, Inhabited

/-- The fields of the server's `xf86CrtcRec` that the driver uses. -/
structure xf86CrtcRec where
  enabled : Bool
  mode : DisplayModeRec
  rotation : Nat
  x : Int
  y : Int
  gamma_size : Int
  driver_private : armada_crtc_info
  deriving DecidableEq, Inhabited

/-- The fields of the server's `xf86OutputRec` that the driver uses:
`crtc` is `output->crtc`, `connector_id` is
`output->driver_private->mode_output->connector_id`. -/
structure xf86OutputRec where
  crtc : Option Nat
  connector_id : Nat
  deriving DecidableEq, Inhabited

/-- Message classes of `xf86DrvMsg`. -/
inductive MessageType where
  | X_PROBED
  | X_CONFIG
  | X_DEFAULT
  | X_INFO
  | X_WARNING
  | X_ERROR
  deriving DecidableEq

/-- One `xf86DrvMsg` call: its class and its format string. -/
structure Msg where
  type : MessageType
  text : String

/-- Result codes of `ValidMode`. -/
inductive ModeStatus where
  | MODE_OK
  | MODE_BAD
  deriving DecidableEq

/-- Tokens of the driver's option table. -/
inductive OptionToken where
  | OPTION_HW_CURSOR
  | OPTION_XV_ACCEL
  | OPTION_USE_GPU
  | OPTION_HOTPLUG
  deriving DecidableEq

/-- An entry of an option table (`OptionInfoRec`; every option of this
driver is `OPTV_BOOLEAN`). -/
structure OptionInfoRec where
  token : OptionToken
  name : String
  value : Bool
  found : Bool

/-- Values a `ScreenRec` procedure slot can hold. -/
inductive ScreenProc where
  | null
  | server (id : Nat)
  | xf86SaveScreen
  | armada_drm_CloseScreen
  | armada_drm_CreateScreenResources
  deriving DecidableEq

/-- A visual of the screen, as touched by the RGB fix-up of `ScreenInit`. -/
structure VisualRec where
  cls : Int
  offsetRed : Int
  offsetGreen : Int
  offsetBlue : Int
  redMask : Nat
  greenMask : Nat
  blueMask : Nat
  deriving DecidableEq

/-- The fields of the server's `ScreenRec` that the driver uses. -/
structure ScreenRec where
  SaveScreen : ScreenProc
  CloseScreen : ScreenProc
  CreateScreenResources : ScreenProc
  visuals : List VisualRec

/-- The fields of the server's `ScrnInfoRec` that the driver uses, apart from
`driverPrivate`; `pScreen` tells whether `pScrn->pScreen` is non-NULL and
`modes` whether `pScrn->modes` is. -/
structure ScrnInfoRec where
  numEntities : Int
  pScreen : Bool
  depth : Int
  bitsPerPixel : Int
  defaultVisual : Int
  rgbBits : Int
  progClock : Bool
  virtualX : Int
  virtualY : Int
  displayWidth : Int
  xDpi : Int
  yDpi : Int
  videoRam : Int
  vtSema : Bool
  modes : Bool
  currentMode : Bool
  offsetRed : Int
  offsetGreen : Int
  offsetBlue : Int
  maskRed : Nat
  maskGreen : Nat
  maskBlue : Nat

/-- Kernel mode resources (`drmModeRes`). -/
structure drmModeRes where
  crtcs : List Nat
  connectors : List Nat
  min_width : Nat
  max_width : Nat
  min_height : Nat
  max_height : Nat

/-- A device received from the udev monitor: its device number and its
`HOTPLUG` property, if it has one. -/
structure udev_device where
  devnum : Nat
  HOTPLUG : Option (List Nat)

/-- The result of `fstat`. -/
structure stat where
  is_chr : Bool
  st_rdev : Nat

/-- The driver's private record `struct armada_drm_info`. -/
structure armada_drm_info where
  fd : Int
  bufmgr : Nat
  Options : List OptionInfoRec
  cpp : Nat
  mode_res : Option drmModeRes
  fb_id : Nat
  front_bo : Option drm_armada_bo
  accel : Bool
  has_hw_cursor : Bool
  hw_cursor : Bool
  CloseScreen : ScreenProc
  CreateScreenResources : ScreenProc
  udev_drm_dev : Nat
  udev_monitor : Option Nat
  udev_handler : Option Nat
  event_context_version : Int

/-! ## Calls that leave the driver -/

/-- A call out of the driver, with its arguments and the callee's result.
The offsets `x`, `y` of `drmModeSetCrtc` are recorded as the callee receives
them, converted to its `uint32_t` parameters. -/
inductive Event where
  | GetScreenPixmap (ret : Nat)
  | ModifyPixmapHeader (pixmap : Nat) (width height depth bpp : Int)
      (pitch : Nat) (bo : drm_armada_bo)
  | vivante_set_pixmap_bo (pixmap : Nat) (bo : drm_armada_bo)
  | vivante_free_pixmap (pixmap : Nat)
  | drm_armada_bo_dumb_create (width height bpp : Int) (ret : Option drm_armada_bo)
  | drm_armada_bo_map (bo : drm_armada_bo) (ret : Int)
  | drm_armada_bo_put (bo : Option drm_armada_bo)
  | calloc (nmemb : Nat) (ok : Bool)
  | malloc (ok : Bool)
  | xf86CrtcRotate (crtc : Nat) (ret : Bool)
  | drmModeCrtcSetGamma (fd : Int) (crtc_id : Nat) (size : Int)
  | drmModeSetCrtc (fd : Int) (crtc_id fb_id x y : Nat)
      (outputs : List Nat) (mode : Option drmModeModeInfo) (ret : Int)
  | output_dpms (output : Nat) (mode : Int)
  | xf86_reload_cursors
  | drmModeAddFB (fd : Int) (width height depth bpp : Int) (pitch handle : Nat)
      (ret : Int) (buf_id : Option Nat)
  | drmModeRmFB (fd : Int) (fb_id : Nat)
  | GetScratchPixmapHeader (width height depth bpp : Int) (pitch : Nat)
      (ret : Option Nat)
  | FreeScratchPixmapHeader (pixmap : Nat)
  | drmModeSetCursor (fd : Int) (crtc_id handle width height : Nat) (ret : Int)
  | xf86CrtcCreate (ok : Bool)
  | xnfcalloc
  | drmModeGetCrtc (fd : Int) (id : Nat) (crtc_id : Nat)
  | udev_monitor_receive_device (monitor : Option Nat) (ret : Option udev_device)
  | RRGetInfo (force : Bool)
  | udev_device_unref
  | fstat (fd : Int) (ret : Option stat)
  | udev_new (ret : Option Nat)
  | udev_unref (udev : Nat)
  | udev_monitor_new_from_netlink (udev : Nat) (ret : Option Nat)
  | udev_monitor_filter_add_match_subsystem_devtype (monitor : Nat) (ret : Int)
  | udev_monitor_enable_receiving (monitor : Nat) (ret : Int)
  | udev_monitor_unref (monitor : Nat)
  | udev_monitor_get_fd (monitor : Nat) (ret : Int)
  | udev_monitor_get_udev (monitor : Nat) (ret : Nat)
  | xf86AddGeneralHandler (fd : Int) (ret : Option Nat)
  | xf86RemoveGeneralHandler (handler : Option Nat)
  | drmSetMaster (fd : Int) (ret : Int)
  | drmDropMaster (fd : Int)
  | xf86SetDesiredModes (ret : Bool)
  | xf86RotateFreeShadow
  | xf86_hide_cursors
  | xf86_cursors_fini
  | CloseScreen (proc : ScreenProc) (ret : Bool)
  | miClearVisualTypes
  | miGetDefaultVisualMask (depth : Int) (ret : Int)
  | miSetVisualTypes (depth visuals rgbBits preferredCVC : Int) (ret : Bool)
  | miSetPixmapDepths (ret : Bool)
  | fbScreenInit (xsize ysize dpix dpiy width bpp : Int) (ret : Bool)
  | fbPictureInit (ret : Bool)
  | xf86SetBlackWhitePixels
  | vivante_ScreenInit (bufmgr : Nat) (ret : Bool)
  | xf86SetBackingStore
  | xf86SetSilkenMouse
  | miDCInitialize
  | xf86_cursors_init (max_width max_height : Nat) (ret : Bool)
  | xf86CrtcScreenInit (ret : Bool)
  | miCreateDefColormap (ret : Bool)
  | xf86HandleColormaps (ret : Bool)
  | xf86DPMSInit
  | armada_drm_XvInit
  | AddGeneralSocket (fd : Int)
  | RegisterBlockAndWakeupHandlers
  | xf86CollectOptions
  | xf86ProcessOptions
  | drmGetVersion (fd : Int) (ret : Bool)
  | drmFreeVersion
  | xf86CrtcConfigInit
  | drmModeGetResources (fd : Int) (ret : Bool)
  | xf86CrtcSetSizeRange (minWidth minHeight maxWidth maxHeight : Nat)
  | common_drm_conn_init (fd : Int) (id : Nat)
  | xf86InitialConfiguration (canGrow : Bool)
  | xf86SetGamma (ret : Bool)
  | xf86SetDpi
  | xf86LoadSubModule (ret : Bool)
  | xf86GetEntityInfo
  | drmOpen (busid : Option (List Nat)) (ret : Int)
  | drmSetInterfaceVersion (fd : Int) (ret : Int)
  | drmGetCap (fd : Int) (cap : Nat) (ret : Int) (val : Nat)
  | drm_armada_init (fd : Int) (ret : Int)
  | drm_armada_fini (bufmgr : Nat)
  | drmClose (fd : Int)
  | xf86SetDepthBpp (ret : Bool) (depth bpp : Int)
  | xf86PrintDepthBpp
  | xf86SetWeight (ret : Bool)
  | xf86SetDefaultVisual (ret : Bool) (visual : Int)

/-- The environment of the driver: what each callee answers, given the trace
of calls made so far.  Callees that re-enter the driver or own server records
are also handed the current value of what they may rewrite and answer with
the value they leave behind. -/
structure Host where
  GetScreenPixmap : List Event → Nat
  drm_armada_bo_dumb_create : List Event → Option drm_armada_bo
  drm_armada_bo_map : List Event → Int
  calloc : List Event → Bool
  malloc : List Event → Bool
  /-- The result of `xf86CrtcRotate` and the value its shadow callbacks leave
  in `drmc->rotate_fb_id`. -/
  xf86CrtcRotate : List Event → Nat → Bool × Nat
  drmModeSetCrtc : List Event → Int
  /-- The result of `drmModeAddFB` and what it stores through `buf_id`
  (`none`: nothing is stored). -/
  drmModeAddFB : List Event → Int × Option Nat
  GetScratchPixmapHeader : List Event → Option Nat
  drmModeSetCursor : List Event → Int
  xf86CrtcCreate : List Event → Bool
  drmModeGetCrtc : List Event → Nat
  udev_monitor_receive_device : List Event → Option udev_device
  fstat : List Event → Option stat
  udev_new : List Event → Option Nat
  udev_monitor_new_from_netlink : List Event → Option Nat
  udev_monitor_filter_add_match_subsystem_devtype : List Event → Int
  udev_monitor_enable_receiving : List Event → Int
  udev_monitor_get_fd : List Event → Int
  udev_monitor_get_udev : List Event → Nat
  /-- The handler pointer `xf86AddGeneralHandler` returns, `none` for NULL. -/
  xf86AddGeneralHandler : List Event → Option Nat
  drmSetMaster : List Event → Int
  /-- The result of `xf86SetDesiredModes`, the CRTC records it leaves (it sets
  modes through `set_mode_major` and recomputes `enabled`) and the value left
  in `drm->fb_id`. -/
  xf86SetDesiredModes : List Event → List xf86CrtcRec → Nat → Bool × List xf86CrtcRec × Nat
  xf86RotateFreeShadow : List Event → List xf86CrtcRec → List xf86CrtcRec
  /-- The result of the wrapped `CloseScreen` and the value it leaves in
  `pScrn->vtSema`. -/
  CloseScreen : List Event → Bool → Bool × Bool
  /-- What a server call that is handed `pScreen` leaves in the `ScreenRec`. -/
  pScreen : List Event → ScreenRec → ScreenRec
  miGetDefaultVisualMask : List Event → Int
  miSetVisualTypes : List Event → Bool
  miSetPixmapDepths : List Event → Bool
  fbScreenInit : List Event → Bool
  fbPictureInit : List Event → Bool
  vivante_ScreenInit : List Event → Bool
  xf86_cursors_init : List Event → Bool
  xf86CrtcScreenInit : List Event → Bool
  miCreateDefColormap : List Event → Bool
  xf86HandleColormaps : List Event → Bool
  xf86ProcessOptions : List Event → List OptionInfoRec → List OptionInfoRec
  drmGetVersion : List Event → Bool
  drmModeGetResources : List Event → Option drmModeRes
  common_drm_conn_init : List Event → Option xf86OutputRec
  /-- The CRTC and output records, the virtual size and whether
  `pScrn->modes` is non-NULL after `xf86InitialConfiguration`. -/
  xf86InitialConfiguration : List Event → List xf86CrtcRec → List xf86OutputRec →
    List xf86CrtcRec × List xf86OutputRec × Int × Int × Bool
  xf86SetGamma : List Event → Bool
  xf86LoadSubModule : List Event → Bool
  /-- The result of `xf86GetEntityInfo`: `none` for NULL, else
  `pEnt->device->busID`. -/
  xf86GetEntityInfo : List Event → Option (Option (List Nat))
  drmOpen : List Event → Int
  drmSetInterfaceVersion : List Event → Int
  drmGetCap : List Event → Int × Nat
  drm_armada_init : List Event → Int × Nat
  /-- The result of `xf86SetDepthBpp` and the depth and bits per pixel it
  leaves in `pScrn`. -/
  xf86SetDepthBpp : List Event → Bool × Int × Int
  xf86SetWeight : List Event → Bool
  /-- The result of `xf86SetDefaultVisual` and the visual it leaves in
  `pScrn->defaultVisual`. -/
  xf86SetDefaultVisual : List Event → Bool × Int

/-! ## State -/

/-- The server side of a screen: its records, the trace of calls made and the
messages logged. -/
structure Server where
  pScrn : ScrnInfoRec
  screen : ScreenRec
  crtc : List xf86CrtcRec
  output : List xf86OutputRec
  trace : List Event
  log : List Msg

/-- The screen as the entry points other than `PreInit` and `FreeScreen` see
it: `GET_DRM_INFO(pScrn)` points at `drm`. -/
structure State extends Server where
  drm : armada_drm_info

/-- The screen as `PreInit` and `FreeScreen` see it: `driverPrivate` is
`GET_DRM_INFO(pScrn)`, possibly NULL. -/
structure Scrn extends Server where
  driverPrivate : Option armada_drm_info

/-- Record a call. -/
def State.call (s : State) (e : Event) : State :=
  { s with trace := s.trace ++ [e] }

/-- Log a message (`xf86DrvMsg`). -/
def State.xf86DrvMsg (s : State) (t : MessageType) (text : String) : State :=
  { s with log := s.log ++ [⟨t, text⟩] }

/-- Record a call. -/
def Scrn.call (s : Scrn) (e : Event) : Scrn :=
  { s with trace := s.trace ++ [e] }

/-- Log a message (`xf86DrvMsg`). -/
def Scrn.xf86DrvMsg (s : Scrn) (t : MessageType) (text : String) : Scrn :=
  { s with log := s.log ++ [⟨t, text⟩] }

/-- The record behind a `xf86CrtcPtr`. -/
def State.crtcAt (s : State) (c : Nat) : xf86CrtcRec :=
  s.crtc.getD c default

/-- Assign through a `xf86CrtcPtr`. -/
def State.setCrtc (s : State) (c : Nat) (v : xf86CrtcRec) : State :=
  { s with crtc := s.crtc.set c v }

/-- Store what `drmModeAddFB` wrote through `&drm->fb_id`. -/
def State.store_fb_id (s : State) (buf_id : Option Nat) : State :=
  match buf_id with
  | some id => { s with drm := { s.drm with fb_id := id } }
  | none => s

/-- Store what `drmModeAddFB` wrote through `&drmc->rotate_fb_id` of the
CRTC `c`. -/
def State.store_rotate_fb_id (s : State) (c : Nat) (buf_id : Option Nat) : State :=
  match buf_id with
  | some id =>
    s.setCrtc c { s.crtcAt c with
      driver_private := { (s.crtcAt c).driver_private with rotate_fb_id := id } }
  | none => s

/-- The events a call appended: the trace of `s1` beyond that of `s`. -/
def issued (s s1 : Server) : List Event :=
  s1.trace.drop s.trace.length

/-! ## Constants of the headers -/

def CURSOR_MAX_WIDTH : Nat := 64
def CURSOR_MAX_HEIGHT : Nat := 32
def DRM_DISPLAY_MODE_LEN : Nat := 32
def DPMSModeOn : Int := 0
def V_DBLSCAN : Int := 0x0020
def PROBE_DETECT : Int := 0x01
def TrueColor : Int := 4
def DRM_CAP_DUMB_BUFFER : Nat := 0x1
def DRM_CAP_PRIME : Nat := 0x5
def DRM_PRIME_CAP_EXPORT : Nat := 0x2
def DRM_EVENT_CONTEXT_VERSION : Int := 2

/-- The driver's option table `armada_drm_options`. -/
def armada_drm_options : List OptionInfoRec :=
  [ ⟨.OPTION_HW_CURSOR, "HWcursor", false, false⟩,
    ⟨.OPTION_XV_ACCEL, "XvAccel", false, false⟩,
    ⟨.OPTION_USE_GPU, "UseGPU", false, false⟩,
    ⟨.OPTION_HOTPLUG, "HotPlug", false, true⟩ ]

/-- The server's `xf86GetOptValBool`: the value of the option when its entry
is marked found, `none` (the C function returns FALSE) otherwise. -/
def xf86GetOptValBool (table : List OptionInfoRec) (token : OptionToken) : Option Bool :=
  match table.find? (fun p => p.token = token) with
  | some p => if p.found then some p.value else none
  | none => none

/-- Conversion of a C `int` to `uint16_t`. -/
def u16 (v : Int) : Nat := (v % 2 ^ 16).toNat

/-- Conversion of a C `int` to `uint32_t`. -/
def u32 (v : Int) : Nat := (v % 2 ^ 32).toNat

/-- Conversion of a `uint32_t` value to C `int`: values from 2^31 on wrap to
the negative range. -/
def i32 (v : Nat) : Int := ((v : Int) + 2 ^ 31) % 2 ^ 32 - 2 ^ 31

/-- C `strncpy(dst, src, n)` followed by reading `dst`: the first `n` bytes
of `src`, padded with NULs up to `n`, then the rest of `dst`. -/
def strncpy (dst src : List Nat) (n : Nat) : List Nat :=
  src.take n ++ List.replicate (n - src.length) 0 ++ dst.drop n

def drmmode_ConvertToKMode (mode : DisplayModeRec) : drmModeModeInfo :=
  let zeros := List.replicate DRM_DISPLAY_MODE_LEN 0
  let name := match mode.name with
    | some n => strncpy zeros n DRM_DISPLAY_MODE_LEN
    | none => zeros
  { clock := u32 mode.Clock
    hdisplay := u16 mode.HDisplay
    hsync_start := u16 mode.HSyncStart
    hsync_end := u16 mode.HSyncEnd
    htotal := u16 mode.HTotal
    hskew := u16 mode.HSkew
    vdisplay := u16 mode.VDisplay
    vsync_start := u16 mode.VSyncStart
    vsync_end := u16 mode.VSyncEnd
    vtotal := u16 mode.VTotal
    vscan := u16 mode.VScan
    vrefresh := 0
    flags := u32 mode.Flags
    type := 0
    name := name.set (DRM_DISPLAY_MODE_LEN - 1) 0 }

def armada_drm_ModifyScreenPixmap (h : Host) (s : State) (width height depth bpp : Int)
    (bo : drm_armada_bo) : State :=
  let pixmap := h.GetScreenPixmap s.trace
  let s := s.call (.GetScreenPixmap pixmap)
  let s := s.call (.ModifyPixmapHeader pixmap width height depth bpp bo.pitch bo)
  if s.drm.accel then s.call (.vivante_set_pixmap_bo pixmap bo) else s

def armada_bo_alloc_framebuffer (h : Host) (s : State) (width height bpp : Int) :
    Option drm_armada_bo × State :=
  let bo := h.drm_armada_bo_dumb_create s.trace
  let s := s.call (.drm_armada_bo_dumb_create width height bpp bo)
  match bo with
  | none => (none, s.xf86DrvMsg .X_ERROR "[drm] failed to allocate new bo: %s\n")
  | some bo =>
    let ret := h.drm_armada_bo_map s.trace
    let s := s.call (.drm_armada_bo_map bo ret)
    if ret ≠ 0 then
      (none, (s.xf86DrvMsg .X_ERROR "[drm] failed to map fb bo: %s\n").call
        (.drm_armada_bo_put (some bo)))
    else
      (some bo, s)

def armada_drm_crtc_gamma_set (s : State) (c : Nat) (size : Int) : State :=
  let drmc := (s.crtcAt c).driver_private
  s.call (.drmModeCrtcSetGamma drmc.drm_fd drmc.mode_crtc size)

/-- The calls `output->funcs->dpms(output, DPMSModeOn)` of the second loop of
`armada_drm_crtc_apply`: one for each output whose `crtc` is `c`. -/
def dpms_on_events (output : List xf86OutputRec) (c : Nat) : List Event :=
  (output.enum.filter (fun p => p.2.crtc = some c)).map
    (fun p => Event.output_dpms p.1 DPMSModeOn)

def armada_drm_crtc_apply (h : Host) (s : State) (c : Nat)
    (kmode : Option drmModeModeInfo) : Bool × State :=
  let kmode := match kmode with
    | some k => k
    | none => (s.crtcAt c).driver_private.kmode
  let ok := h.calloc s.trace
  let s := s.call (.calloc s.output.length ok)
  if !ok then (false, s) else
  let output_ids := (s.output.filter (fun o => o.crtc = some c)).map (fun o => o.connector_id)
  let rot := h.xf86CrtcRotate s.trace (s.crtcAt c).driver_private.rotate_fb_id
  let s := (s.call (.xf86CrtcRotate c rot.1)).setCrtc c
    { s.crtcAt c with driver_private :=
        { (s.crtcAt c).driver_private with rotate_fb_id := rot.2 } }
  if !rot.1 then (false, s) else
  let s := armada_drm_crtc_gamma_set s c (s.crtcAt c).gamma_size
  let drmc := (s.crtcAt c).driver_private
  let fb_id := if drmc.rotate_fb_id ≠ 0 then drmc.rotate_fb_id else s.drm.fb_id
  let x : Int := if drmc.rotate_fb_id ≠ 0 then 0 else (s.crtcAt c).x
  let y : Int := if drmc.rotate_fb_id ≠ 0 then 0 else (s.crtcAt c).y
  let ret := h.drmModeSetCrtc s.trace
  let s := s.call (.drmModeSetCrtc drmc.drm_fd drmc.mode_crtc fb_id (u32 x) (u32 y) output_ids
    (some kmode) ret)
  let s := if ret ≠ 0 then
      s.xf86DrvMsg .X_ERROR "[drm] failed to set mode on crtc %u: %s\n"
    else
      { s with trace := s.trace ++ dpms_on_events s.output c }
  let s := if s.pScrn.pScreen && s.drm.hw_cursor then s.call .xf86_reload_cursors else s
  (ret == 0, s)

/-- The part of `armada_drm_crtc_set_mode_major` from the saving of the CRTC
fields to the end. -/
def set_mode_major_apply (h : Host) (s : State) (c : Nat)
    (mode : DisplayModeRec) (rotation : Nat) (x y : Int) : Bool × State :=
  let saved := s.crtcAt c
  let s2 := s.setCrtc c { saved with mode := mode, x := x, y := y, rotation := rotation }
  let kmode := drmmode_ConvertToKMode mode
  let r := armada_drm_crtc_apply h s2 c (some kmode)
  if !r.1 then
    (false, r.2.setCrtc c { r.2.crtcAt c with
      mode := saved.mode, x := saved.x, y := saved.y, rotation := saved.rotation })
  else
    (true, r.2.setCrtc c { r.2.crtcAt c with
      driver_private := { (r.2.crtcAt c).driver_private with kmode := kmode } })

/-- The branch of `armada_drm_crtc_set_mode_major` taken when `drm->fb_id` is 0,
with `drm->front_bo` pointing at `front_bo`. -/
def set_mode_major_add_fb (h : Host) (s : State) (c : Nat) (front_bo : drm_armada_bo)
    (mode : DisplayModeRec) (rotation : Nat) (x y : Int) : Bool × State :=
  let drmc := (s.crtcAt c).driver_private
  let add := h.drmModeAddFB s.trace
  let s1 := (s.call (.drmModeAddFB drmc.drm_fd s.pScrn.virtualX s.pScrn.virtualY s.pScrn.depth
    s.pScrn.bitsPerPixel front_bo.pitch front_bo.handle add.1 add.2)).store_fb_id add.2
  if add.1 < 0 then
    (false, s1.xf86DrvMsg .X_ERROR "[drm] failed to add fb: %s\n")
  else
    set_mode_major_apply h s1 c mode rotation x y

/-- The result is `none` when the call dereferences a NULL `drm->front_bo`. -/
def armada_drm_crtc_set_mode_major (h : Host) (s : State) (c : Nat)
    (mode : DisplayModeRec) (rotation : Nat) (x y : Int) : Option (Bool × State) :=
  if s.drm.fb_id = 0 then
    match s.drm.front_bo with
    | none => none
    | some front_bo => some (set_mode_major_add_fb h s c front_bo mode rotation x y)
  else
    some (set_mode_major_apply h s c mode rotation x y)

/-- The part of `armada_drm_crtc_shadow_allocate` that follows a successful
`armada_bo_alloc_framebuffer`, which returned `bo`. -/
def shadow_allocate_add_fb (h : Host) (s : State) (c : Nat) (width height : Int)
    (bo : drm_armada_bo) : Option drm_armada_bo × State :=
  let drmc := (s.crtcAt c).driver_private
  let add := h.drmModeAddFB s.trace
  let s := (s.call (.drmModeAddFB drmc.drm_fd width height s.pScrn.depth s.pScrn.bitsPerPixel
    bo.pitch bo.handle add.1 add.2)).store_rotate_fb_id c add.2
  if add.1 ≠ 0 then
    (none, (s.xf86DrvMsg .X_ERROR "Failed to add rotate fb: %s\n").call
      (.drm_armada_bo_put (some bo)))
  else
    (some bo, s)

def armada_drm_crtc_shadow_allocate (h : Host) (s : State) (c : Nat) (width height : Int) :
    Option drm_armada_bo × State :=
  let r := armada_bo_alloc_framebuffer h s width height s.pScrn.bitsPerPixel
  match r.1 with
  | none =>
    (none, r.2.xf86DrvMsg .X_ERROR "Failed to allocate shadow memory for rotated CRTC\n")
  | some bo => shadow_allocate_add_fb h r.2 c width height bo

/-- The part of `armada_drm_crtc_shadow_create` that follows the check of
`data`, which points at `bo`. -/
def shadow_create_pixmap (h : Host) (s : State) (width height : Int) (bo : drm_armada_bo) :
    Option Nat × State :=
  let rotate_pixmap := h.GetScratchPixmapHeader s.trace
  let s := s.call (.GetScratchPixmapHeader width height s.pScrn.depth s.pScrn.bitsPerPixel
    bo.pitch rotate_pixmap)
  match rotate_pixmap with
  | none =>
    (none, s.xf86DrvMsg .X_ERROR "Failed to allocate shadow pixmap for rotated CRTC\n")
  | some pixmap =>
    (some pixmap, if s.drm.accel then s.call (.vivante_set_pixmap_bo pixmap bo) else s)

def armada_drm_crtc_shadow_create (h : Host) (s : State) (c : Nat)
    (data : Option drm_armada_bo) (width height : Int) : Option Nat × State :=
  let a := match data with
    | none => armada_drm_crtc_shadow_allocate h s c width height
    | some bo => (some bo, s)
  match a.1 with
  | none =>
    (none, a.2.xf86DrvMsg .X_ERROR
      "Failed to allocate shadow pixmap data for rotated CRTC\n")
  | some bo => shadow_create_pixmap h a.2 width height bo

def armada_drm_crtc_init (h : Host) (s : State) (num : Nat) : Bool × State :=
  let id := ((s.drm.mode_res.map (fun r => r.crtcs)).getD []).getD num 0
  let ok := h.xf86CrtcCreate s.trace
  let s := s.call (.xf86CrtcCreate ok)
  if !ok then (false, s) else
  let s := s.call .xnfcalloc
  let crtc_id := h.drmModeGetCrtc s.trace
  let s := s.call (.drmModeGetCrtc s.drm.fd id crtc_id)
  let probe := h.drmModeSetCursor s.trace
  let s := s.call (.drmModeSetCursor s.drm.fd id 0 0 0 probe)
  let s := if probe ≠ 0 then { s with drm := { s.drm with has_hw_cursor := false } } else s
  let bo := h.drm_armada_bo_dumb_create s.trace
  let s := s.call (.drm_armada_bo_dumb_create CURSOR_MAX_WIDTH CURSOR_MAX_HEIGHT 32 bo)
  let drmc : armada_crtc_info :=
    { (default : armada_crtc_info) with
      drm_fd := s.drm.fd, num := num,
      cursor_max_width := CURSOR_MAX_WIDTH, cursor_max_height := CURSOR_MAX_HEIGHT,
      mode_crtc := crtc_id, cursor_bo := bo }
  (true, { s with crtc := s.crtc ++ [{ (default : xf86CrtcRec) with driver_private := drmc }] })

/-- The loop of `armada_drm_xf86crtc_resize` over `xf86_config->crtc[]`. -/
def resize_apply_loop (h : Host) (s : State) : State :=
  (List.range s.crtc.length).foldl
    (fun st i => if (st.crtcAt i).enabled then (armada_drm_crtc_apply h st i none).2 else st) s

/-- The part of `armada_drm_xf86crtc_resize` below the comment "Okay, now
switch everything", entered with the new framebuffer added; `old_fb_id` is the
framebuffer id saved before `drmModeAddFB`, and `drm->cpp` is not 0. -/
def resize_switch (h : Host) (s1 : State) (width height : Int) (bo : drm_armada_bo)
    (old_fb_id : Nat) : State :=
  let s2 := { s1 with pScrn := { s1.pScrn with
    virtualX := width, virtualY := height,
    displayWidth := i32 (bo.pitch / s1.drm.cpp) } }
  let old_bo := s2.drm.front_bo
  let s3 := { s2 with drm := { s2.drm with front_bo := some bo } }
  let s4 := armada_drm_ModifyScreenPixmap h s3 width height (-1) (-1) bo
  let s5 := resize_apply_loop h s4
  let s6 := s5.call (.drmModeRmFB s5.drm.fd old_fb_id)
  s6.call (.drm_armada_bo_put old_bo)

/-- The part of `armada_drm_xf86crtc_resize` that runs once the new buffer
`bo` is allocated and mapped: the framebuffer is added and, if that worked,
everything is switched over.  The result is `none` when the division
`bo->pitch / drm->cpp` is a division by zero. -/
def resize_with_bo (h : Host) (s : State) (width height : Int) (bo : drm_armada_bo) :
    Option (Bool × State) :=
  let old_fb_id := s.drm.fb_id
  let add := h.drmModeAddFB s.trace
  let s1 := (s.call (.drmModeAddFB s.drm.fd width height s.pScrn.depth s.pScrn.bitsPerPixel
    bo.pitch bo.handle add.1 add.2)).store_fb_id add.2
  if add.1 ≠ 0 then
    some (false, (s1.xf86DrvMsg .X_ERROR "[drm] failed to add fb: %s\n").call
      (.drm_armada_bo_put (some bo)))
  else if s1.drm.cpp = 0 then none
  else some (true, resize_switch h s1 width height bo old_fb_id)

def armada_drm_xf86crtc_resize (h : Host) (s : State) (width height : Int) :
    Option (Bool × State) :=
  if s.pScrn.virtualX = width ∧ s.pScrn.virtualY = height then some (true, s) else
  match armada_bo_alloc_framebuffer h s width height s.pScrn.bitsPerPixel with
  | (none, s) => some (false, s)
  | (some bo, s) => resize_with_bo h s width height bo

/-! ### Hot-plug notification -/

/-- C `isspace` in the C locale. -/
def isspace (b : Nat) : Bool := b == 32 || (decide (9 ≤ b) && decide (b ≤ 13))

/-- C `isdigit`. -/
def isdigit (b : Nat) : Bool := decide (48 ≤ b) && decide (b ≤ 57)

def LONG_MAX : Int := 2147483647
def LONG_MIN : Int := -2147483648

/-- C `strtol(nptr, NULL, 10)`: leading white space is skipped, an optional
sign is read, then the longest run of decimal digits; the value is clamped to
the range of `long`. -/
def strtol (nptr : List Nat) : Int :=
  let p := nptr.dropWhile isspace
  let neg := p.head? == some 45
  let q := if p.head? == some 45 || p.head? == some 43 then p.tail else p
  let v : Int := ((q.takeWhile isdigit).foldl (fun a d => 10 * a + (d - 48)) 0 : Nat)
  if neg then max (-v) LONG_MIN else min v LONG_MAX

def armada_drm_handle_uevent (h : Host) (s : State) : State :=
  let ud := h.udev_monitor_receive_device s.trace
  let s := s.call (.udev_monitor_receive_device s.drm.udev_monitor ud)
  match ud with
  | none => s
  | some d =>
    let hp1 := match d.HOTPLUG with
      | some hp => decide (strtol hp = 1)
      | none => false
    let s := if d.devnum = s.drm.udev_drm_dev ∧ hp1 = true then s.call (.RRGetInfo true) else s
    s.call .udev_device_unref

/-- The part of `armada_drm_udev_init` that runs with the monitor `mon` of
the udev context `udev` created: the monitor is filtered, enabled and
installed, and the handler registered. -/
def udev_init_monitor (h : Host) (s : State) (udev mon : Nat) : Bool × State :=
  let r1 := h.udev_monitor_filter_add_match_subsystem_devtype s.trace
  let s1 := s.call (.udev_monitor_filter_add_match_subsystem_devtype mon r1)
  if r1 ≠ 0 then
    (false, (s1.call (.udev_monitor_unref mon)).call (.udev_unref udev))
  else
  let r2 := h.udev_monitor_enable_receiving s1.trace
  let s2 := s1.call (.udev_monitor_enable_receiving mon r2)
  if r2 ≠ 0 then
    (false, (s2.call (.udev_monitor_unref mon)).call (.udev_unref udev))
  else
  let s3 := { s2 with drm := { s2.drm with udev_monitor := some mon } }
  let fd := h.udev_monitor_get_fd s3.trace
  let s4 := s3.call (.udev_monitor_get_fd mon fd)
  let handler := h.xf86AddGeneralHandler s4.trace
  let s5 := s4.call (.xf86AddGeneralHandler fd handler)
  (true, { s5 with drm := { s5.drm with udev_handler := handler } })

/-- The part of `armada_drm_udev_init` after the device number is recorded:
the udev context and its monitor are created. -/
def udev_init_connect (h : Host) (s : State) : Bool × State :=
  match h.udev_new s.trace with
  | none => (false, s.call (.udev_new none))
  | some udev =>
    match h.udev_monitor_new_from_netlink (s.call (.udev_new (some udev))).trace with
    | none =>
      (false, ((s.call (.udev_new (some udev))).call
        (.udev_monitor_new_from_netlink udev none)).call (.udev_unref udev))
    | some mon =>
      udev_init_monitor h ((s.call (.udev_new (some udev))).call
        (.udev_monitor_new_from_netlink udev (some mon))) udev mon

def armada_drm_udev_init (h : Host) (s : State) : Bool × State :=
  let opt := xf86GetOptValBool s.drm.Options .OPTION_HOTPLUG
  let src := if opt.isSome then MessageType.X_CONFIG else MessageType.X_DEFAULT
  let hotplug := match opt with
    | some v => v
    | none => true
  let s := s.xf86DrvMsg src "hotplug detection %sabled\n"
  if !hotplug then (true, s) else
  match h.fstat s.trace with
  | none => (false, s.call (.fstat s.drm.fd none))
  | some st =>
    if !st.is_chr then (false, s.call (.fstat s.drm.fd (some st))) else
    udev_init_connect h
      { s.call (.fstat s.drm.fd (some st)) with
        drm := { s.drm with udev_drm_dev := st.st_rdev } }

def armada_drm_udev_fini (h : Host) (s : State) : State :=
  match s.drm.udev_monitor with
  | some mon =>
    let udev := h.udev_monitor_get_udev s.trace
    let s := s.call (.udev_monitor_get_udev mon udev)
    let s := s.call (.xf86RemoveGeneralHandler s.drm.udev_handler)
    let s := s.call (.udev_monitor_unref mon)
    s.call (.udev_unref udev)
  | none => s

/-! ### Screen entry points -/

def armada_drm_LeaveVT (h : Host) (s : State) : State :=
  let s := { s.call .xf86RotateFreeShadow with crtc := h.xf86RotateFreeShadow s.trace s.crtc }
  let s := s.call .xf86_hide_cursors
  s.call (.drmDropMaster s.drm.fd)

set_option linter.unusedVariables false in
def armada_drm_ValidMode (s : State) (mode : DisplayModeRec) (verbose : Bool)
    (flags : Int) : ModeStatus × State :=
  if Int.land mode.Flags V_DBLSCAN ≠ 0 then
    (.MODE_BAD,
      if verbose then s.xf86DrvMsg .X_PROBED "Removing double-scanned mode \"%s\"\n" else s)
  else
    (.MODE_OK, s)

/-- Record a server call that is handed `pScreen`; the callee may rewrite the
`ScreenRec`. -/
def State.callScreen (h : Host) (s : State) (e : Event) : State :=
  { s with trace := s.trace ++ [e], screen := h.pScreen s.trace s.screen }

/-- The release part of `armada_drm_CloseScreen`: from the `GetScreenPixmap`
call to the end of the `xf86_cursors_fini` conditional. -/
def CloseScreen_release (h : Host) (s : State) : State :=
  let pixmap := h.GetScreenPixmap s.trace
  let s := s.call (.GetScreenPixmap pixmap)
  let s := armada_drm_udev_fini h s
  let s := if s.drm.fb_id ≠ 0 then
      { s.call (.drmModeRmFB s.drm.fd s.drm.fb_id) with drm := { s.drm with fb_id := 0 } }
    else s
  let s := match s.drm.front_bo with
    | some bo =>
      { s.call (.drm_armada_bo_put (some bo)) with drm := { s.drm with front_bo := none } }
    | none => s
  let s := if s.drm.accel then s.call (.vivante_free_pixmap pixmap) else s
  if s.drm.hw_cursor then s.callScreen h .xf86_cursors_fini else s

def armada_drm_CloseScreen (h : Host) (s : State) : Bool × State :=
  let s := CloseScreen_release h s
  let s := { s with screen := { s.screen with CloseScreen := s.drm.CloseScreen } }
  let r := h.CloseScreen s.trace s.pScrn.vtSema
  let s := { s.callScreen h (.CloseScreen s.screen.CloseScreen r.1) with
    pScrn := { s.pScrn with vtSema := r.2 } }
  let s := if s.pScrn.vtSema then armada_drm_LeaveVT h s else s
  (r.1, { s with pScrn := { s.pScrn with vtSema := false } })

/-- The wrapping step of `armada_drm_ScreenInit`: the `ScreenRec` procedures
are saved in the private record and replaced by the driver's. -/
def ScreenInit_wrap (s : State) : State :=
  let s := { s with screen := { s.screen with SaveScreen := .xf86SaveScreen } }
  let s := { s with drm := { s.drm with CloseScreen := s.screen.CloseScreen } }
  let s := { s with screen := { s.screen with CloseScreen := .armada_drm_CloseScreen } }
  let s := { s with drm := { s.drm with
    CreateScreenResources := s.screen.CreateScreenResources } }
  { s with screen := { s.screen with
    CreateScreenResources := .armada_drm_CreateScreenResources } }

/-- The CRTC loop of `armada_drm_pre_init`, over the indices still to do. -/
def pre_init_crtcs (h : Host) : List Nat → State → Bool × State
  | [], s => (true, s)
  | i :: rest, s =>
    let r := armada_drm_crtc_init h s i
    if !r.1 then (false, r.2) else pre_init_crtcs h rest r.2

/-- The connector loop of `armada_drm_pre_init`; `common_drm_conn_init` may
add an output to the configuration. -/
def pre_init_connectors (h : Host) (s : State) (connectors : List Nat) : State :=
  connectors.foldl
    (fun st id =>
      { st.call (.common_drm_conn_init st.drm.fd id) with
        output := st.output ++ (h.common_drm_conn_init st.trace).toList }) s

/-- The first part of `armada_drm_pre_init`: options, version, `cpp` and the
kernel mode resources. -/
def pre_init_resources (h : Host) (s : State) : Bool × State :=
  let s := s.call .xf86CollectOptions
  let ok := h.malloc s.trace
  let s := s.call (.malloc ok)
  if !ok then (false, { s with drm := { s.drm with Options := [] } }) else
  let s := { s with drm := { s.drm with Options := armada_drm_options } }
  let s := { s.call .xf86ProcessOptions with
    drm := { s.drm with Options := h.xf86ProcessOptions s.trace s.drm.Options } }
  let ver := h.drmGetVersion s.trace
  let s := s.call (.drmGetVersion s.drm.fd ver)
  let s := if ver then (s.xf86DrvMsg .X_INFO "hardware: %s\n").call .drmFreeVersion else s
  let s := { s with drm := { s.drm with cpp := u32 (Int.tdiv (s.pScrn.bitsPerPixel + 7) 8) } }
  let s := s.call .xf86CrtcConfigInit
  let res := h.drmModeGetResources s.trace
  let s := { s.call (.drmModeGetResources s.drm.fd res.isSome) with
    drm := { s.drm with mode_res := res } }
  match res with
  | none => (false, s.xf86DrvMsg .X_ERROR "failed to get resources: %s\n")
  | some res =>
    (true, s.call (.xf86CrtcSetSizeRange res.min_width res.min_height res.max_width
      res.max_height))

/-- The last part of `armada_drm_pre_init`: from `xf86InitialConfiguration`
to the end. -/
def pre_init_finish (h : Host) (s : State) : Bool × State :=
  let c := h.xf86InitialConfiguration s.trace s.crtc s.output
  let s := { s.call (.xf86InitialConfiguration true) with
    crtc := c.1, output := c.2.1,
    pScrn := { s.pScrn with virtualX := c.2.2.1, virtualY := c.2.2.2.1, modes := c.2.2.2.2 } }
  let s := { s with pScrn := { s.pScrn with videoRam := 16 * 1048576 } }
  let s := { s with drm := { s.drm with event_context_version := DRM_EVENT_CONTEXT_VERSION } }
  let ok := h.xf86SetGamma s.trace
  let s := s.call (.xf86SetGamma ok)
  if !ok then (false, s) else
  if !s.pScrn.modes then (false, s.xf86DrvMsg .X_ERROR "No modes.\n") else
  let s := { s with pScrn := { s.pScrn with currentMode := s.pScrn.modes } }
  let s := s.call .xf86SetDpi
  let ok := h.xf86LoadSubModule s.trace
  let s := s.call (.xf86LoadSubModule ok)
  (ok, s)

def armada_drm_pre_init (h : Host) (s : State) : Bool × State :=
  let r := pre_init_resources h s
  if !r.1 then (false, r.2) else
  let s := { r.2 with drm := { r.2.drm with has_hw_cursor := true } }
  let count_crtcs := ((s.drm.mode_res.map (fun m => m.crtcs)).getD []).length
  let l := pre_init_crtcs h (List.range count_crtcs) s
  if !l.1 then (false, l.2) else
  let s := pre_init_connectors h l.2 ((l.2.drm.mode_res.map (fun m => m.connectors)).getD [])
  pre_init_finish h s

def armada_get_cap (h : Host) (s : Scrn) (fd : Int) (cap : Nat) : (Int × Nat) × Scrn :=
  let r := h.drmGetCap s.trace
  let s := s.call (.drmGetCap fd cap r.1 r.2)
  (r, if r.1 ≠ 0 then s.xf86DrvMsg .X_ERROR "[drm] failed to get %s capability: %s\n" else s)

/-- A `struct armada_drm_info` as `calloc` returns it. -/
def zero_drm_info : armada_drm_info :=
  { fd := 0, bufmgr := 0, Options := [], cpp := 0, mode_res := none, fb_id := 0,
    front_bo := none, accel := false, has_hw_cursor := false, hw_cursor := false,
    CloseScreen := .null, CreateScreenResources := .null, udev_drm_dev := 0,
    udev_monitor := none, udev_handler := none, event_context_version := 0 }

/-- The part of `armada_drm_open_master` that runs with the descriptor open:
every failure leaves through `err_drm_close`. -/
def open_master_checks (h : Host) (s : Scrn) (fd : Int) : Bool × Scrn :=
  let err := h.drmSetInterfaceVersion s.trace
  let s := s.call (.drmSetInterfaceVersion fd err)
  if err ≠ 0 then
    (false, (s.xf86DrvMsg .X_ERROR "[drm] failed to set DRM interface version: %s\n").call
      (.drmClose fd))
  else
  let c := armada_get_cap h s fd DRM_CAP_PRIME
  if c.1.1 ≠ 0 then (false, c.2.call (.drmClose fd)) else
  if c.1.2 &&& DRM_PRIME_CAP_EXPORT = 0 then
    (false, (c.2.xf86DrvMsg .X_ERROR "[drm] kernel doesn't support prime export.\n").call
      (.drmClose fd))
  else
  let c := armada_get_cap h c.2 fd DRM_CAP_DUMB_BUFFER
  if c.1.1 ≠ 0 then (false, c.2.call (.drmClose fd)) else
  if c.1.2 = 0 then
    (false, (c.2.xf86DrvMsg .X_ERROR "[drm] kernel doesn't support dumb buffer.\n").call
      (.drmClose fd))
  else
  let init := h.drm_armada_init c.2.trace
  let s := c.2.call (.drm_armada_init fd init.1)
  if init.1 ≠ 0 then
    (false, (s.xf86DrvMsg .X_ERROR "[drm] failed to initialize Armada DRM manager.\n").call
      (.drmClose fd))
  else
    (true, { s with driverPrivate := some { zero_drm_info with fd := fd, bufmgr := init.2 } })

def armada_drm_open_master (h : Host) (s : Scrn) : Bool × Scrn :=
  let pEnt := h.xf86GetEntityInfo s.trace
  let s := s.call .xf86GetEntityInfo
  let busid : Option (List Nat) := match pEnt with
    | some (some b) => some b
    | _ => none
  let s := if busid.isSome then s.xf86DrvMsg .X_INFO "Using BusID \"%s\"\n" else s
  let ok := h.calloc s.trace
  let s := s.call (.calloc 1 ok)
  if !ok then (false, s) else
  let fd := h.drmOpen s.trace
  let s := s.call (.drmOpen busid fd)
  if fd < 0 then
    (false, s.xf86DrvMsg .X_ERROR "[drm] Failed to open DRM device for %s: %s\n")
  else
    open_master_checks h s fd

def armada_drm_close_master (s : Scrn) : Scrn :=
  match s.driverPrivate with
  | some drm =>
    { (s.call (.drm_armada_fini drm.bufmgr)).call (.drmClose drm.fd) with
      driverPrivate := none }
  | none => s

def armada_drm_FreeScreen (s : Scrn) : Scrn :=
  armada_drm_close_master s

/-- The call of `armada_drm_pre_init` at the end of `armada_drm_PreInit`, with
the `fail` exit behind it.  `armada_drm_pre_init` starts by dereferencing
`GET_DRM_INFO(pScrn)`: the result is `none` when that pointer is NULL. -/
def PreInit_pre_init (h : Host) (s : Scrn) : Option (Bool × Scrn) :=
  match s.driverPrivate with
  | none => none
  | some drm =>
    let r := armada_drm_pre_init h { toServer := s.toServer, drm := drm }
    let s1 : Scrn := { toServer := r.2.toServer, driverPrivate := some r.2.drm }
    if !r.1 then some (false, armada_drm_FreeScreen s1) else some (true, s1)

/-- The part of `armada_drm_PreInit` that runs as DRM master: every failure
leaves through `fail`, that is through `armada_drm_FreeScreen`. -/
def PreInit_master (h : Host) (s : Scrn) : Option (Bool × Scrn) :=
  let s := { s with pScrn := { s.pScrn with progClock := true, rgbBits := 8, displayWidth := 640 } }
  let d := h.xf86SetDepthBpp s.trace
  let s := { s.call (.xf86SetDepthBpp d.1 d.2.1 d.2.2) with
    pScrn := { s.pScrn with depth := d.2.1, bitsPerPixel := d.2.2 } }
  if !d.1 then some (false, armada_drm_FreeScreen s) else
  if ¬ (s.pScrn.depth = 8 ∨ s.pScrn.depth = 15 ∨ s.pScrn.depth = 16 ∨ s.pScrn.depth = 24) then
    some (false, armada_drm_FreeScreen
      (s.xf86DrvMsg .X_ERROR "Given depth (%d) is not supported.\n"))
  else
  let s := s.call .xf86PrintDepthBpp
  let w := h.xf86SetWeight s.trace
  let s := s.call (.xf86SetWeight w)
  if !w then some (false, armada_drm_FreeScreen s) else
  let v := h.xf86SetDefaultVisual s.trace
  let s := { s.call (.xf86SetDefaultVisual v.1 v.2) with
    pScrn := { s.pScrn with defaultVisual := v.2 } }
  if !v.1 then some (false, armada_drm_FreeScreen s) else
  if s.pScrn.depth > 8 ∧ s.pScrn.defaultVisual ≠ TrueColor then
    some (false, armada_drm_FreeScreen (s.xf86DrvMsg .X_ERROR
      "Requested default visual  (%s) is not supported at depth %d\n"))
  else
  PreInit_pre_init h s

def armada_drm_PreInit (h : Host) (s : Scrn) (flags : Int) : Option (Bool × Scrn) :=
  if s.pScrn.numEntities ≠ 1 then some (false, s) else
  if Int.land flags PROBE_DETECT ≠ 0 then some (false, s) else
  let r := armada_drm_open_master h s
  if !r.1 then some (false, r.2.xf86DrvMsg .X_ERROR "Failed to become DRM master.\n") else
  PreInit_master h r.2

/-! ## Vocabulary of the statements -/

/-- Two CRTC records agree except possibly in `drmc->rotate_fb_id`. -/
def same_but_rotate (a b : xf86CrtcRec) : Prop :=
  a = { b with driver_private :=
    { b.driver_private with rotate_fb_id := a.driver_private.rotate_fb_id } }

/-- The calls `armada_drm_crtc_apply` can make for the CRTC with index `c`,
descriptor `fd` and kernel id `crtc_id`: the allocation of the output-id
array, `xf86CrtcRotate` on `c`, the gamma and mode calls on `crtc_id` (the
mode call always with a mode), DPMS calls and the cursor reload. -/
def Event.fromApply (c : Nat) (fd : Int) (crtc_id : Nat) : Event → Bool
  | .calloc _ _ => true
  | .xf86CrtcRotate c1 _ => c1 == c
  | .drmModeCrtcSetGamma fd1 id1 _ => fd1 == fd && id1 == crtc_id
  | .drmModeSetCrtc fd1 id1 _ _ _ _ (some _) _ => fd1 == fd && id1 == crtc_id
  | .output_dpms _ _ => true
  | .xf86_reload_cursors => true
  | _ => false

/-- The event is one `armada_drm_crtc_apply` can issue for CRTC `c` of `s`. -/
def applyP (s : State) (c : Nat) (e : Event) : Prop :=
  e.fromApply c (s.crtcAt c).driver_private.drm_fd (s.crtcAt c).driver_private.mode_crtc = true

/-- Between `s` and `t` the driver's private record, the screen records and
the outputs are untouched, the CRTC records differ at most in
`rotate_fb_id`, and the trace grew by events that satisfy `P`. -/
structure Frame (P : Event → Prop) (s t : State) : Prop where
  drm : t.drm = s.drm
  pScrn : t.pScrn = s.pScrn
  output : t.output = s.output
  screen : t.screen = s.screen
  length : t.crtc.length = s.crtc.length
  crtc : ∀ i, same_but_rotate (t.crtcAt i) (s.crtcAt i)
  trace : ∃ evs, t.trace = s.trace ++ evs ∧ ∀ e ∈ evs, P e

/-- The event is a `drmModeAddFB` call that stored an id through `buf_id`. -/
def Event.storesFbId : Event → Bool
  | .drmModeAddFB _ _ _ _ _ _ _ _ (some _) => true
  | _ => false

/-- The event belongs to the DRM master lifecycle or to the depth and visual
negotiation of `PreInit`: `drmOpen`, `drmClose`, `drm_armada_fini`,
`xf86SetDepthBpp` or `xf86SetDefaultVisual`. -/
def Event.isLifecycle : Event → Bool
  | .drmOpen _ _ => true
  | .drmClose _ => true
  | .drm_armada_fini _ => true
  | .xf86SetDepthBpp _ _ _ => true
  | .xf86SetDefaultVisual _ _ => true
  | _ => false

/-- Between `s` and `t` the descriptor and buffer manager of the private
record and the negotiated depth and visual are untouched, and the trace grew
by events outside the master lifecycle. -/
structure InitFrame (s t : State) : Prop where
  fd : t.drm.fd = s.drm.fd
  bufmgr : t.drm.bufmgr = s.drm.bufmgr
  depth : t.pScrn.depth = s.pScrn.depth
  defaultVisual : t.pScrn.defaultVisual = s.pScrn.defaultVisual
  trace : ∃ evs, t.trace = s.trace ++ evs ∧ ∀ e ∈ evs, e.isLifecycle = false

/-- The trace of `t` extends that of `s`, and the lifecycle events among the
new ones are exactly `L`, in this order. -/
def Life (L : List Event) (s t : Server) : Prop :=
  ∃ evs, t.trace = s.trace ++ evs ∧ evs.filter Event.isLifecycle = L

/-- The event is `xf86SetDepthBpp` or `xf86SetDefaultVisual`. -/
def Event.isNegotiation : Event → Bool
  | .xf86SetDepthBpp _ _ _ => true
  | .xf86SetDefaultVisual _ _ => true
  | _ => false

/-- The depths `armada_drm_PreInit` accepts. -/
def supported_depth (d : Int) : Prop := d = 8 ∨ d = 15 ∨ d = 16 ∨ d = 24

/-- The descriptors that successful `drmOpen` calls among `evs` returned. -/
def opened_fds (evs : List Event) : List Int :=
  evs.filterMap (fun e => match e with
    | .drmOpen _ fd => if 0 ≤ fd then some fd else none
    | _ => none)

/-- The descriptors that `drmClose` calls among `evs` were given. -/
def closed_fds (evs : List Event) : List Int :=
  evs.filterMap (fun e => match e with
    | .drmClose fd => some fd
    | _ => none)

/-- What `open_master_checks` can leave behind: the screen record is
untouched; on failure the private pointer is as before and the descriptor was
closed; on success the fresh private record is installed. -/
def CheckOutcome (s : Scrn) (fd : Int) (r : Bool × Scrn) : Prop :=
  r.2.pScrn = s.pScrn ∧
  ((r.1 = false ∧ r.2.driverPrivate = s.driverPrivate ∧
      Life [.drmClose fd] s.toServer r.2.toServer) ∨
   (r.1 = true ∧ (∃ bm, r.2.driverPrivate = some { zero_drm_info with fd := fd, bufmgr := bm }) ∧
      Life [] s.toServer r.2.toServer))

/-- What `armada_drm_open_master` can leave behind. -/
def OpenOutcome (s : Scrn) (r : Bool × Scrn) : Prop :=
  r.2.pScrn = s.pScrn ∧
  ((r.1 = false ∧ r.2.driverPrivate = s.driverPrivate ∧
      (Life [] s.toServer r.2.toServer ∨
       (∃ busid fd, fd < 0 ∧ Life [.drmOpen busid fd] s.toServer r.2.toServer) ∨
       (∃ busid fd, 0 ≤ fd ∧ Life [.drmOpen busid fd, .drmClose fd] s.toServer r.2.toServer))) ∨
   (r.1 = true ∧ ∃ busid fd bm, 0 ≤ fd ∧
      r.2.driverPrivate = some { zero_drm_info with fd := fd, bufmgr := bm } ∧
      Life [.drmOpen busid fd] s.toServer r.2.toServer))

/-- What `PreInit_master` can leave behind when entered with the private record
`drm` installed: on failure the pointer is cleared and the lifecycle events are
the negotiation calls made so far followed by the release of the master; on
success the depth and visual are accepted ones and the record is still
installed. -/
def MasterOutcome (s : Scrn) (drm : armada_drm_info) (r : Bool × Scrn) : Prop :=
  (r.1 = false ∧ r.2.driverPrivate = none ∧
    ∃ L, (∀ e ∈ L, e.isNegotiation = true) ∧
      Life (L ++ [.drm_armada_fini drm.bufmgr, .drmClose drm.fd]) s.toServer r.2.toServer) ∨
  (r.1 = true ∧ ∃ d b v drm1, supported_depth d ∧ (d ≤ 8 ∨ v = TrueColor) ∧
      r.2.pScrn.depth = d ∧ r.2.pScrn.defaultVisual = v ∧
      r.2.driverPrivate = some drm1 ∧ drm1.fd = drm.fd ∧ drm1.bufmgr = drm.bufmgr ∧
      Life [.xf86SetDepthBpp true d b, .xf86SetDefaultVisual true v] s.toServer r.2.toServer)

/-- What `armada_drm_PreInit` can leave behind. -/
def PreInitOutcome (s : Scrn) (flags : Int) (r : Bool × Scrn) : Prop :=
  (r.1 = false ∧
    ((r.2.driverPrivate = s.driverPrivate ∧
        (Life [] s.toServer r.2.toServer ∨
         (∃ busid fd, fd < 0 ∧ Life [.drmOpen busid fd] s.toServer r.2.toServer) ∨
         (∃ busid fd, 0 ≤ fd ∧
           Life [.drmOpen busid fd, .drmClose fd] s.toServer r.2.toServer))) ∨
     (r.2.driverPrivate = none ∧ ∃ busid fd bm L, 0 ≤ fd ∧ (∀ e ∈ L, e.isNegotiation = true) ∧
        Life (.drmOpen busid fd :: (L ++ [.drm_armada_fini bm, .drmClose fd])) s.toServer
          r.2.toServer))) ∨
  (r.1 = true ∧ s.pScrn.numEntities = 1 ∧ Int.land flags PROBE_DETECT = 0 ∧
    ∃ busid fd d b v drm1, 0 ≤ fd ∧ supported_depth d ∧ (d ≤ 8 ∨ v = TrueColor) ∧
      r.2.pScrn.depth = d ∧ r.2.pScrn.defaultVisual = v ∧
      r.2.driverPrivate = some drm1 ∧ drm1.fd = fd ∧
      Life [.drmOpen busid fd, .xf86SetDepthBpp true d b, .xf86SetDefaultVisual true v]
        s.toServer r.2.toServer)

/-- The event opens or releases the DRM master: `drmOpen`, `drm_armada_fini`
or `drmClose`. -/
def Event.isRelease : Event → Bool
  | .drmOpen _ _ => true
  | .drm_armada_fini _ => true
  | .drmClose _ => true
  | _ => false

/-- The event is a `RRGetInfo` call. -/
def Event.isRRGetInfo : Event → Bool
  | .RRGetInfo _ => true
  | _ => false

/-- The received uevent is a hot-plug event of the DRM device: a device was
received, its device number is the one recorded in `drm->udev.drm_dev`, and
it has a `HOTPLUG` property that `strtol` reads, in base 10, as 1. -/
def uevent_is_hotplug (drm : armada_drm_info) (ud : Option udev_device) : Prop :=
  ∃ d hp, ud = some d ∧ d.devnum = drm.udev_drm_dev ∧ d.HOTPLUG = some hp ∧ strtol hp = 1

/-- The event is a `drmModeRmFB` call. -/
def Event.isRmFB : Event → Bool
  | .drmModeRmFB _ _ => true
  | _ => false

/-- The event is a `drm_armada_bo_put` call. -/
def Event.isBoPut : Event → Bool
  | .drm_armada_bo_put _ => true
  | _ => false

/-- The event is a `drmModeSetCrtc` call, of whatever arguments. -/
def Event.isSetCrtc : Event → Bool
  | .drmModeSetCrtc _ _ _ _ _ _ _ _ => true
  | _ => false

/-- The event is a call through `pScreen->CloseScreen`. -/
def Event.isCloseScreen : Event → Bool
  | .CloseScreen _ _ => true
  | _ => false

/-- The calls `armada_drm_LeaveVT` makes on descriptor `fd`, in order. -/
def LeaveVT_calls (fd : Int) : List Event :=
  [.xf86RotateFreeShadow, .xf86_hide_cursors, .drmDropMaster fd]

/-- The event is one of the calls of `armada_drm_LeaveVT`. -/
def Event.isLeaveVT : Event → Bool
  | .xf86RotateFreeShadow => true
  | .xf86_hide_cursors => true
  | .drmDropMaster _ => true
  | _ => false

/-- Progress of the release part: `t` follows `s` by calls of which the
`drmModeRmFB` ones are `rm` and the buffer releases are `bo`, none of them a
`CloseScreen` or `armada_drm_LeaveVT` call; `pScrn`, `drm->fd` and the saved
`CloseScreen` are as in `s`. -/
def Releasing (s t : State) (rm bo : List Event) : Prop :=
  t.pScrn = s.pScrn ∧ t.drm.fd = s.drm.fd ∧ t.drm.CloseScreen = s.drm.CloseScreen ∧
  t.drm.accel = s.drm.accel ∧ t.drm.hw_cursor = s.drm.hw_cursor ∧
  ∃ evs, t.trace = s.trace ++ evs ∧
    evs.filter Event.isRmFB = rm ∧ evs.filter Event.isBoPut = bo ∧
    evs.filter Event.isCloseScreen = [] ∧ evs.filter Event.isLeaveVT = []

/-- What the wrapped `CloseScreen` returns when `armada_drm_CloseScreen` calls
it (first component), and the `pScrn->vtSema` it leaves (second component). -/
def wrapped_CloseScreen (h : Host) (s : State) : Bool × Bool :=
  h.CloseScreen (CloseScreen_release h s).trace (CloseScreen_release h s).pScrn.vtSema

/-- The event is a `dpms(output, DPMSModeOn)` call. -/
def Event.isDpmsOn : Event → Bool
  | .output_dpms _ m => m == DPMSModeOn
  | _ => false

/-- The event is a `drmModeAddFB` call. -/
def Event.isAddFB : Event → Bool
  | .drmModeAddFB _ _ _ _ _ _ _ _ _ => true
  | _ => false

/-- What `armada_drm_crtc_set_mode_major`, called in `s` for CRTC `c` with the
request (`mode`, `rotation`, `x`, `y`), left when it returned `r`: the record
follows the result, and the result follows the calls issued. -/
def SetModeOutcome (h : Host) (s : State) (c : Nat) (mode : DisplayModeRec) (rotation : Nat)
    (x y : Int) (r : Bool × State) : Prop :=
  (r.1 = false →
    (r.2.crtcAt c).mode = (s.crtcAt c).mode ∧ (r.2.crtcAt c).x = (s.crtcAt c).x ∧
    (r.2.crtcAt c).y = (s.crtcAt c).y ∧ (r.2.crtcAt c).rotation = (s.crtcAt c).rotation ∧
    (r.2.crtcAt c).driver_private.kmode = (s.crtcAt c).driver_private.kmode) ∧
  (r.1 = true →
    (r.2.crtcAt c).mode = mode ∧ (r.2.crtcAt c).x = x ∧ (r.2.crtcAt c).y = y ∧
    (r.2.crtcAt c).rotation = rotation ∧
    (r.2.crtcAt c).driver_private.kmode = drmmode_ConvertToKMode mode) ∧
  (s.drm.fb_id = 0 ∧ (h.drmModeAddFB s.trace).1 < 0 →
    r.1 = false ∧ (issued s.toServer r.2.toServer).filter Event.isSetCrtc = []) ∧
  (r.1 = true ↔
    ∃ fb x1 y1, Event.drmModeSetCrtc (s.crtcAt c).driver_private.drm_fd
      (s.crtcAt c).driver_private.mode_crtc fb x1 y1
      ((s.output.filter (fun o => o.crtc = some c)).map (fun o => o.connector_id))
      (some (drmmode_ConvertToKMode mode)) 0 ∈ issued s.toServer r.2.toServer) ∧
  (r.1 = false ↔
    ((∃ fd w1 h1 d1 b1 p1 hd ret st, ret < 0 ∧
        Event.drmModeAddFB fd w1 h1 d1 b1 p1 hd ret st ∈ issued s.toServer r.2.toServer) ∨
      Event.calloc s.output.length false ∈ issued s.toServer r.2.toServer ∨
      Event.xf86CrtcRotate c false ∈ issued s.toServer r.2.toServer ∨
      ∃ fb x1 y1 ret, ret ≠ 0 ∧ Event.drmModeSetCrtc (s.crtcAt c).driver_private.drm_fd
        (s.crtcAt c).driver_private.mode_crtc fb x1 y1
        ((s.output.filter (fun o => o.crtc = some c)).map (fun o => o.connector_id))
        (some (drmmode_ConvertToKMode mode)) ret ∈ issued s.toServer r.2.toServer)) ∧
  ((issued s.toServer r.2.toServer).filter Event.isSetCrtc).length ≤ 1 ∧
  (∀ fd id fb x1 y1 ids m ret,
    Event.drmModeSetCrtc fd id fb x1 y1 ids m ret ∈ issued s.toServer r.2.toServer →
    fd = (s.crtcAt c).driver_private.drm_fd ∧ id = (s.crtcAt c).driver_private.mode_crtc ∧
    ids = (s.output.filter (fun o => o.crtc = some c)).map (fun o => o.connector_id) ∧
    m = some (drmmode_ConvertToKMode mode) ∧
    ((r.2.crtcAt c).driver_private.rotate_fb_id ≠ 0 →
      fb = (r.2.crtcAt c).driver_private.rotate_fb_id ∧ x1 = 0 ∧ y1 = 0) ∧
    ((r.2.crtcAt c).driver_private.rotate_fb_id = 0 →
      fb = r.2.drm.fb_id ∧ x1 = u32 x ∧ y1 = u32 y))

/-- The event records a step of `armada_drm_udev_init` that makes it return
FALSE: `fstat` failed or found no character device, `udev_new` or
`udev_monitor_new_from_netlink` returned NULL, or the subsystem filter or the
enabling of the monitor returned non-zero. -/
def Event.isUdevFailure : Event → Bool
  | .fstat _ none => true
  | .fstat _ (some st) => !st.is_chr
  | .udev_new none => true
  | .udev_monitor_new_from_netlink _ none => true
  | .udev_monitor_filter_add_match_subsystem_devtype _ r => decide (r ≠ 0)
  | .udev_monitor_enable_receiving _ r => decide (r ≠ 0)
  | _ => false

/-- The event is an `xf86AddGeneralHandler` call. -/
def Event.isAddGeneralHandler : Event → Bool
  | .xf86AddGeneralHandler _ _ => true
  | _ => false

/-- The calls of a run of `armada_drm_udev_init` that goes all the way: the
device `st` is examined, the context `u` and its monitor `m` are created, the
monitor is filtered and enabled, and the handler `hd` is registered on the
monitor's descriptor `mfd`. -/
def udev_init_calls (fd : Int) (st : stat) (u m : Nat) (mfd : Int) (hd : Option Nat) :
    List Event :=
  [.fstat fd (some st), .udev_new (some u), .udev_monitor_new_from_netlink u (some m),
    .udev_monitor_filter_add_match_subsystem_devtype m 0,
    .udev_monitor_enable_receiving m 0, .udev_monitor_get_fd m mfd,
    .xf86AddGeneralHandler mfd hd]

/-! ## Sample hosts and states -/

/-- A host on which every call succeeds: buffers have handle 7 and pitch
4096, `drmModeAddFB` hands out framebuffer 42, the DRM descriptor is 3, the
negotiated depth is 24 at 32 bits per pixel with a TrueColor visual, and the
calls that may rewrite server records leave them as they are. -/
def okHost : Host :=
  { GetScreenPixmap := fun _ => 1
    drm_armada_bo_dumb_create := fun _ => some ⟨7, 4096⟩
    drm_armada_bo_map := fun _ => 0
    calloc := fun _ => true
    malloc := fun _ => true
    xf86CrtcRotate := fun _ r => (true, r)
    drmModeSetCrtc := fun _ => 0
    drmModeAddFB := fun _ => (0, some 42)
    GetScratchPixmapHeader := fun _ => some 2
    drmModeSetCursor := fun _ => 0
    xf86CrtcCreate := fun _ => true
    drmModeGetCrtc := fun _ => 10
    udev_monitor_receive_device := fun _ => some ⟨57856, some [49]⟩
    fstat := fun _ => some ⟨true, 57856⟩
    udev_new := fun _ => some 1
    udev_monitor_new_from_netlink := fun _ => some 2
    udev_monitor_filter_add_match_subsystem_devtype := fun _ => 0
    udev_monitor_enable_receiving := fun _ => 0
    udev_monitor_get_fd := fun _ => 5
    udev_monitor_get_udev := fun _ => 1
    xf86AddGeneralHandler := fun _ => some 9
    drmSetMaster := fun _ => 0
    xf86SetDesiredModes := fun _ crtcs fb => (true, crtcs, fb)
    xf86RotateFreeShadow := fun _ crtcs => crtcs
    CloseScreen := fun _ vt => (true, vt)
    pScreen := fun _ scr => scr
    miGetDefaultVisualMask := fun _ => 0
    miSetVisualTypes := fun _ => true
    miSetPixmapDepths := fun _ => true
    fbScreenInit := fun _ => true
    fbPictureInit := fun _ => true
    vivante_ScreenInit := fun _ => true
    xf86_cursors_init := fun _ => true
    xf86CrtcScreenInit := fun _ => true
    miCreateDefColormap := fun _ => true
    xf86HandleColormaps := fun _ => true
    xf86ProcessOptions := fun _ t => t.map (fun p => { p with found := false })
    drmGetVersion := fun _ => true
    drmModeGetResources := fun _ => some ⟨[10], [20], 0, 2048, 0, 2048⟩
    common_drm_conn_init := fun _ => some ⟨none, 20⟩
    xf86InitialConfiguration := fun _ crtcs outputs =>
      (crtcs.map (fun c => { c with enabled := true }),
        outputs.map (fun o => { o with crtc := some 0 }), 1024, 768, true)
    xf86SetGamma := fun _ => true
    xf86LoadSubModule := fun _ => true
    xf86GetEntityInfo := fun _ => some none
    drmOpen := fun _ => 3
    drmSetInterfaceVersion := fun _ => 0
    drmGetCap := fun _ => (0, 3)
    drm_armada_init := fun _ => (0, 1)
    xf86SetDepthBpp := fun _ => (true, 24, 32)
    xf86SetWeight := fun _ => true
    xf86SetDefaultVisual := fun _ => (true, 4) }

/-- A mode of 1024 by 768 named "m". -/
def sampleMode : DisplayModeRec :=
  { name := some [109], Clock := 65000, HDisplay := 1024, HSyncStart := 1048,
    HSyncEnd := 1184, HTotal := 1344, HSkew := 0, VDisplay := 768, VSyncStart := 771,
    VSyncEnd := 777, VTotal := 806, VScan := 0, Flags := 0 }

/-- A screen record before any server initialisation. -/
def sampleScrnInfo : ScrnInfoRec :=
  { numEntities := 1, pScreen := true, depth := 24, bitsPerPixel := 32, defaultVisual := 4,
    rgbBits := 8, progClock := true, virtualX := 1024, virtualY := 768, displayWidth := 1024,
    xDpi := 96, yDpi := 96, videoRam := 16777216, vtSema := true, modes := true,
    currentMode := true, offsetRed := 16, offsetGreen := 8, offsetBlue := 0,
    maskRed := 16711680, maskGreen := 65280, maskBlue := 255 }

/-- A running screen with two CRTCs, the first enabled and driving the one
output, the second disabled; framebuffer 41 on buffer 6 is being scanned out. -/
def sampleState : State :=
  { pScrn := sampleScrnInfo
    screen := { SaveScreen := .xf86SaveScreen, CloseScreen := .armada_drm_CloseScreen,
                CreateScreenResources := .armada_drm_CreateScreenResources, visuals := [] }
    crtc := [ { (default : xf86CrtcRec) with
                enabled := true
                driver_private := { (default : armada_crtc_info) with drm_fd := 3, mode_crtc := 10 } },
              { (default : xf86CrtcRec) with
                enabled := false
                driver_private := { (default : armada_crtc_info) with
                  drm_fd := 3, num := 1, mode_crtc := 11 } } ]
    output := [⟨some 0, 20⟩]
    trace := []
    log := []
    drm := { zero_drm_info with
      fd := 3, bufmgr := 1, Options := armada_drm_options.map (fun p => { p with found := false }),
      cpp := 4, fb_id := 41, front_bo := some ⟨6, 4096⟩, has_hw_cursor := true,
      CloseScreen := .server 1, CreateScreenResources := .server 2, udev_drm_dev := 57856 } }

/-- The sample screen with the option table as the driver declares it, before
any processing: `HotPlug` is marked found with value false. -/
def rawOptionsState : State :=
  { sampleState with drm := { sampleState.drm with Options := armada_drm_options } }

/-- A screen as the server hands it to `PreInit`: one entity, no private
record yet. -/
def sampleScrn : Scrn :=
  { pScrn := { sampleScrnInfo with
      pScreen := false, vtSema := false, modes := false, currentMode := false }
    screen := { SaveScreen := .null, CloseScreen := .null, CreateScreenResources := .null,
                visuals := [] }
    crtc := []
    output := []
    trace := []
    log := []
    driverPrivate := none }

/-- A host on which everything succeeds except `GetScratchPixmapHeader`, which
returns NULL. -/
def noPixmapHost : Host :=
  { okHost with GetScratchPixmapHeader := fun _ => none }

/-- The sample screen before the screen framebuffer was added: `drm->fb_id`
is 0. -/
def noFbState : State :=
  { sampleState with drm := { sampleState.drm with fb_id := 0 } }

/-! ## Basic facts about the state helpers -/

section Helpers

@[simp] theorem State.call_trace (s : State) (e : Event) :
    (s.call e).trace = s.trace ++ [e] := rfl
@[simp] theorem State.call_crtc (s : State) (e : Event) : (s.call e).crtc = s.crtc := rfl
@[simp] theorem State.call_output (s : State) (e : Event) : (s.call e).output = s.output := rfl
@[simp] theorem State.call_pScrn (s : State) (e : Event) : (s.call e).pScrn = s.pScrn := rfl
@[simp] theorem State.call_screen (s : State) (e : Event) : (s.call e).screen = s.screen := rfl
@[simp] theorem State.call_log (s : State) (e : Event) : (s.call e).log = s.log := rfl
@[simp] theorem State.call_drm (s : State) (e : Event) : (s.call e).drm = s.drm := rfl

@[simp] theorem State.msg_trace (s : State) (t : MessageType) (m : String) :
    (s.xf86DrvMsg t m).trace = s.trace := rfl
@[simp] theorem State.msg_crtc (s : State) (t : MessageType) (m : String) :
    (s.xf86DrvMsg t m).crtc = s.crtc := rfl
@[simp] theorem State.msg_output (s : State) (t : MessageType) (m : String) :
    (s.xf86DrvMsg t m).output = s.output := rfl
@[simp] theorem State.msg_pScrn (s : State) (t : MessageType) (m : String) :
    (s.xf86DrvMsg t m).pScrn = s.pScrn := rfl
@[simp] theorem State.msg_screen (s : State) (t : MessageType) (m : String) :
    (s.xf86DrvMsg t m).screen = s.screen := rfl
@[simp] theorem State.msg_log (s : State) (t : MessageType) (m : String) :
    (s.xf86DrvMsg t m).log = s.log ++ [⟨t, m⟩] := rfl
@[simp] theorem State.msg_drm (s : State) (t : MessageType) (m : String) :
    (s.xf86DrvMsg t m).drm = s.drm := rfl

@[simp] theorem State.setCrtc_trace (s : State) (c : Nat) (v : xf86CrtcRec) :
    (s.setCrtc c v).trace = s.trace := rfl
@[simp] theorem State.setCrtc_crtc (s : State) (c : Nat) (v : xf86CrtcRec) :
    (s.setCrtc c v).crtc = s.crtc.set c v := rfl
@[simp] theorem State.setCrtc_output (s : State) (c : Nat) (v : xf86CrtcRec) :
    (s.setCrtc c v).output = s.output := rfl
@[simp] theorem State.setCrtc_pScrn (s : State) (c : Nat) (v : xf86CrtcRec) :
    (s.setCrtc c v).pScrn = s.pScrn := rfl
@[simp] theorem State.setCrtc_screen (s : State) (c : Nat) (v : xf86CrtcRec) :
    (s.setCrtc c v).screen = s.screen := rfl
@[simp] theorem State.setCrtc_log (s : State) (c : Nat) (v : xf86CrtcRec) :
    (s.setCrtc c v).log = s.log := rfl
@[simp] theorem State.setCrtc_drm (s : State) (c : Nat) (v : xf86CrtcRec) :
    (s.setCrtc c v).drm = s.drm := rfl

@[simp] theorem State.store_fb_id_trace (s : State) (b : Option Nat) :
    (s.store_fb_id b).trace = s.trace := by cases b <;> rfl
@[simp] theorem State.store_fb_id_crtc (s : State) (b : Option Nat) :
    (s.store_fb_id b).crtc = s.crtc := by cases b <;> rfl
@[simp] theorem State.store_fb_id_output (s : State) (b : Option Nat) :
    (s.store_fb_id b).output = s.output := by cases b <;> rfl
@[simp] theorem State.store_fb_id_pScrn (s : State) (b : Option Nat) :
    (s.store_fb_id b).pScrn = s.pScrn := by cases b <;> rfl
@[simp] theorem State.store_fb_id_screen (s : State) (b : Option Nat) :
    (s.store_fb_id b).screen = s.screen := by cases b <;> rfl
@[simp] theorem State.store_fb_id_log (s : State) (b : Option Nat) :
    (s.store_fb_id b).log = s.log := by cases b <;> rfl

theorem crtcAt_set_self (s : State) (c : Nat) (v : xf86CrtcRec) (hc : c < s.crtc.length) :
    (s.setCrtc c v).crtcAt c = v := by
  simp [State.crtcAt, State.setCrtc, List.getD_eq_getElem?_getD, hc]

theorem crtcAt_congr {s t : State} (hst : t.crtc = s.crtc) (c : Nat) :
    t.crtcAt c = s.crtcAt c := by
  simp [State.crtcAt, hst]

theorem same_but_rotate_refl (a : xf86CrtcRec) : same_but_rotate a a := by
  unfold same_but_rotate; rfl

theorem same_but_rotate_trans {a b d : xf86CrtcRec} (h1 : same_but_rotate a b)
    (h2 : same_but_rotate b d) : same_but_rotate a d := by
  unfold same_but_rotate at *
  rw [h1, h2]

theorem same_but_rotate_fields {a b : xf86CrtcRec} (h1 : same_but_rotate a b) :
    a.enabled = b.enabled ∧ a.mode = b.mode ∧ a.rotation = b.rotation ∧ a.x = b.x ∧
    a.y = b.y ∧ a.gamma_size = b.gamma_size ∧
    a.driver_private.kmode = b.driver_private.kmode ∧
    a.driver_private.drm_fd = b.driver_private.drm_fd ∧
    a.driver_private.mode_crtc = b.driver_private.mode_crtc := by
  unfold same_but_rotate at h1
  rw [h1]
  exact ⟨rfl, rfl, rfl, rfl, rfl, rfl, rfl, rfl, rfl⟩

theorem crtcAt_set (s : State) (c i : Nat) (v : xf86CrtcRec) :
    (s.setCrtc c v).crtcAt i = if c = i ∧ c < s.crtc.length then v else s.crtcAt i := by
  simp only [State.crtcAt, State.setCrtc, List.getD_eq_getElem?_getD, List.getElem?_set]
  by_cases hci : c = i
  · subst hci
    by_cases hc : c < s.crtc.length
    · simp [hc]
    · simp [hc, List.getElem?_eq_none (not_lt.mp hc)]
  · simp [hci]

theorem issued_append (s t : Server) (evs : List Event) (ht : t.trace = s.trace ++ evs) :
    issued s t = evs := by
  simp [issued, ht]

theorem Frame.frame_refl (P : Event → Prop) (s : State) : Frame P s s :=
  ⟨rfl, rfl, rfl, rfl, rfl, fun _ => same_but_rotate_refl _, [], by simp, by simp⟩

theorem Frame.frame_trans {P : Event → Prop} {s t u : State} (h1 : Frame P s t) (h2 : Frame P t u) :
    Frame P s u := by
  obtain ⟨e1, ht1, hp1⟩ := h1.trace
  obtain ⟨e2, ht2, hp2⟩ := h2.trace
  refine ⟨h2.drm.trans h1.drm, h2.pScrn.trans h1.pScrn, h2.output.trans h1.output,
    h2.screen.trans h1.screen, h2.length.trans h1.length,
    fun i => same_but_rotate_trans (h2.crtc i) (h1.crtc i), e1 ++ e2, ?_, ?_⟩
  · rw [ht2, ht1, List.append_assoc]
  · intro e he
    rcases List.mem_append.1 he with he | he
    · exact hp1 e he
    · exact hp2 e he

theorem Frame.frame_call {P : Event → Prop} {s t : State} (h1 : Frame P s t) (e : Event)
    (he : P e) : Frame P s (t.call e) :=
  h1.frame_trans ⟨rfl, rfl, rfl, rfl, rfl, fun _ => same_but_rotate_refl _, [e], rfl,
    by simpa using he⟩

theorem Frame.events {P : Event → Prop} {s t : State} (h1 : Frame P s t) (evs : List Event)
    (he : ∀ e ∈ evs, P e) : Frame P s { t with trace := t.trace ++ evs } :=
  h1.frame_trans ⟨rfl, rfl, rfl, rfl, rfl, fun _ => same_but_rotate_refl _, evs, rfl, he⟩

theorem Frame.frame_msg {P : Event → Prop} {s t : State} (h1 : Frame P s t) (ty : MessageType)
    (m : String) : Frame P s (t.xf86DrvMsg ty m) :=
  h1.frame_trans ⟨rfl, rfl, rfl, rfl, rfl, fun _ => same_but_rotate_refl _, [], by simp, by simp⟩

theorem Frame.set_rotate {P : Event → Prop} {s t : State} (h1 : Frame P s t) (c v : Nat) :
    Frame P s (t.setCrtc c { t.crtcAt c with driver_private :=
      { (t.crtcAt c).driver_private with rotate_fb_id := v } }) := by
  refine h1.frame_trans ⟨rfl, rfl, rfl, rfl, by simp, fun i => ?_, [], by simp, by simp⟩
  rw [crtcAt_set]
  split
  · next hci => rw [← hci.1]; unfold same_but_rotate; rfl
  · exact same_but_rotate_refl _

theorem Frame.fd {P : Event → Prop} {s t : State} (h1 : Frame P s t) (c : Nat) :
    (t.crtcAt c).driver_private.drm_fd = (s.crtcAt c).driver_private.drm_fd ∧
    (t.crtcAt c).driver_private.mode_crtc = (s.crtcAt c).driver_private.mode_crtc :=
  ⟨(same_but_rotate_fields (h1.crtc c)).2.2.2.2.2.2.2.1,
    (same_but_rotate_fields (h1.crtc c)).2.2.2.2.2.2.2.2⟩

theorem Frame.issued_eq {P : Event → Prop} {s t : State} (h1 : Frame P s t) :
    t.trace = s.trace ++ issued s.toServer t.toServer ∧
      ∀ e ∈ issued s.toServer t.toServer, P e := by
  obtain ⟨evs, ht, hp⟩ := h1.trace
  rw [issued_append s.toServer t.toServer evs ht]
  exact ⟨ht, hp⟩

theorem dpms_on_events_fromApply (output : List xf86OutputRec) (c : Nat) (fd : Int) (id : Nat) :
    ∀ e ∈ dpms_on_events output c, e.fromApply c fd id = true := by
  intro e he
  simp only [dpms_on_events, List.mem_map] at he
  obtain ⟨p, _, rfl⟩ := he
  rfl

theorem Frame.gamma {s t : State} {c : Nat} (h1 : Frame (applyP s c) s t) (size : Int) :
    Frame (applyP s c) s (armada_drm_crtc_gamma_set t c size) := by
  unfold armada_drm_crtc_gamma_set
  apply h1.frame_call
  simp [applyP, Event.fromApply, h1.fd c]

theorem Frame.setcrtc {s t u : State} {c : Nat} (h1 : Frame (applyP s c) s t)
    (h2 : Frame (applyP s c) s u)
    (fb x y : Nat) (ids : List Nat) (k : drmModeModeInfo) (ret : Int) :
    Frame (applyP s c) s (t.call (.drmModeSetCrtc (u.crtcAt c).driver_private.drm_fd
      (u.crtcAt c).driver_private.mode_crtc fb x y ids (some k) ret)) := by
  apply h1.frame_call
  simp [applyP, Event.fromApply, h2.fd c]

/-- `armada_drm_crtc_apply` touches nothing but the trace, the log and the
CRTC's `rotate_fb_id`, and issues only its own calls. -/
theorem crtc_apply_frame (h : Host) (s : State) (c : Nat) (k : Option drmModeModeInfo) :
    Frame (applyP s c) s (armada_drm_crtc_apply h s c k).2 := by
  unfold armada_drm_crtc_apply
  lift_lets
  extract_lets kmode ok s1 ids rot src1 src2 s2 s3 drmc fb x y ret s4 s5 s6
  have h1 : Frame (applyP s c) s s1 := (Frame.frame_refl _ _).frame_call _ rfl
  have h2 : Frame (applyP s c) s s2 :=
    (h1.frame_call (.xf86CrtcRotate c rot.1) (by simp [applyP, Event.fromApply])).set_rotate c rot.2
  have h3 : Frame (applyP s c) s s3 := h2.gamma _
  have h4 : Frame (applyP s c) s s4 := h3.setcrtc h3 _ _ _ _ _ _
  have h5 : Frame (applyP s c) s s5 := by
    show Frame (applyP s c) s (if ret ≠ 0 then _ else _)
    split_ifs
    · exact h4.frame_msg _ _
    · exact h4.events _ (dpms_on_events_fromApply _ _ _ _)
  have h6 : Frame (applyP s c) s s6 := by
    show Frame (applyP s c) s (if _ then _ else _)
    split_ifs
    · exact h5.frame_call _ rfl
    · exact h5
  split_ifs
  · exact h1
  · exact h2
  · exact h6

/-- The three outcomes of `armada_bo_alloc_framebuffer`. -/
theorem alloc_cases (h : Host) (s : State) (w hh b : Int) :
    (h.drm_armada_bo_dumb_create s.trace = none ∧
      armada_bo_alloc_framebuffer h s w hh b =
        (none, (s.call (.drm_armada_bo_dumb_create w hh b none)).xf86DrvMsg .X_ERROR
          "[drm] failed to allocate new bo: %s\n")) ∨
    (∃ bo ret, h.drm_armada_bo_dumb_create s.trace = some bo ∧ ret ≠ 0 ∧
      armada_bo_alloc_framebuffer h s w hh b =
        (none, (((s.call (.drm_armada_bo_dumb_create w hh b (some bo))).call
          (.drm_armada_bo_map bo ret)).xf86DrvMsg .X_ERROR
            "[drm] failed to map fb bo: %s\n").call (.drm_armada_bo_put (some bo)))) ∨
    (∃ bo, h.drm_armada_bo_dumb_create s.trace = some bo ∧
      armada_bo_alloc_framebuffer h s w hh b =
        (some bo, (s.call (.drm_armada_bo_dumb_create w hh b (some bo))).call
          (.drm_armada_bo_map bo 0))) := by
  unfold armada_bo_alloc_framebuffer
  cases hc : h.drm_armada_bo_dumb_create s.trace with
  | none => left; simp
  | some bo =>
    right
    by_cases hm : h.drm_armada_bo_map (s.trace ++ [.drm_armada_bo_dumb_create w hh b (some bo)]) = 0
    · right; exact ⟨bo, rfl, by simp [hm]⟩
    · left; exact ⟨bo, _, rfl, hm, by simp [hm]⟩

theorem InitFrame.init_refl (s : State) : InitFrame s s :=
  ⟨rfl, rfl, rfl, rfl, [], by simp, by simp⟩

theorem InitFrame.init_trans {s t u : State} (h1 : InitFrame s t) (h2 : InitFrame t u) :
    InitFrame s u := by
  obtain ⟨e1, ht1, hp1⟩ := h1.trace
  obtain ⟨e2, ht2, hp2⟩ := h2.trace
  refine ⟨h2.fd.trans h1.fd, h2.bufmgr.trans h1.bufmgr, h2.depth.trans h1.depth,
    h2.defaultVisual.trans h1.defaultVisual, e1 ++ e2, ?_, ?_⟩
  · rw [ht2, ht1, List.append_assoc]
  · intro e he
    rcases List.mem_append.1 he with he | he
    · exact hp1 e he
    · exact hp2 e he

theorem InitFrame.init_call {s t : State} (h1 : InitFrame s t) (e : Event)
    (he : e.isLifecycle = false) : InitFrame s (t.call e) :=
  h1.init_trans ⟨rfl, rfl, rfl, rfl, [e], rfl, by simpa using he⟩

theorem InitFrame.init_msg {s t : State} (h1 : InitFrame s t) (ty : MessageType) (m : String) :
    InitFrame s (t.xf86DrvMsg ty m) :=
  h1.init_trans ⟨rfl, rfl, rfl, rfl, [], by simp, by simp⟩

theorem InitFrame.upd {s t u : State} (h1 : InitFrame s t) (hfd : u.drm.fd = t.drm.fd)
    (hb : u.drm.bufmgr = t.drm.bufmgr) (hd : u.pScrn.depth = t.pScrn.depth)
    (hv : u.pScrn.defaultVisual = t.pScrn.defaultVisual) (ht : u.trace = t.trace) :
    InitFrame s u :=
  h1.init_trans ⟨hfd, hb, hd, hv, [], by simp [ht], by simp⟩

theorem crtc_init_frame (h : Host) (s : State) (num : Nat) :
    InitFrame s (armada_drm_crtc_init h s num).2 := by
  unfold armada_drm_crtc_init
  lift_lets
  extract_lets id' ok s1 s2 crtc_id s3 probe s4 src s5 bo s6 drmc
  have h1 : InitFrame s s1 := (InitFrame.init_refl s).init_call _ rfl
  have h4 : InitFrame s s4 := (((h1.init_call _ (by rfl)).init_call _ (by rfl)).init_call _ (by rfl))
  have h5 : InitFrame s s5 := by
    show InitFrame s (if _ then _ else _)
    split_ifs
    · exact h4.upd rfl rfl rfl rfl rfl
    · exact h4
  have h6 : InitFrame s s6 := h5.init_call _ (by rfl)
  split_ifs
  · exact h1
  · exact h6.upd rfl rfl rfl rfl rfl

theorem pre_init_crtcs_frame (h : Host) (l : List Nat) :
    ∀ s, InitFrame s (pre_init_crtcs h l s).2 := by
  induction l with
  | nil => intro s; exact InitFrame.init_refl s
  | cons i l ih =>
    intro s
    unfold pre_init_crtcs
    lift_lets
    extract_lets r
    have hr : InitFrame s r.2 := crtc_init_frame h s i
    split_ifs
    · exact hr
    · exact hr.init_trans (ih r.2)

theorem pre_init_connectors_frame (h : Host) (l : List Nat) :
    ∀ s, InitFrame s (pre_init_connectors h s l) := by
  induction l with
  | nil => intro s; exact InitFrame.init_refl s
  | cons i l ih =>
    intro s
    unfold pre_init_connectors
    rw [List.foldl_cons]
    refine InitFrame.init_trans ?_ (ih _)
    exact ((InitFrame.init_refl s).init_call (.common_drm_conn_init s.drm.fd i) rfl).upd rfl rfl rfl rfl rfl

theorem pre_init_resources_frame (h : Host) (s : State) :
    InitFrame s (pre_init_resources h s).2 := by
  unfold pre_init_resources
  lift_lets
  extract_lets s1 ok s2 src1 s3 src2 src3 s4 ver s5 s6 src4 s7 s8 res src5 src6 s9
  have h2 : InitFrame s s2 := ((InitFrame.init_refl s).init_call _ (by rfl)).init_call _ (by rfl)
  have h3 : InitFrame s s3 := h2.upd rfl rfl rfl rfl rfl
  have h4 : InitFrame s s4 := (h3.init_call .xf86ProcessOptions rfl).upd rfl rfl rfl rfl rfl
  have h5 : InitFrame s s5 := h4.init_call _ (by rfl)
  have h6 : InitFrame s s6 := by
    show InitFrame s (if _ then _ else _)
    split_ifs
    · exact (h5.init_msg _ _).init_call _ (by rfl)
    · exact h5
  have h7 : InitFrame s s7 := h6.upd rfl rfl rfl rfl rfl
  have h8 : InitFrame s s8 := h7.init_call _ (by rfl)
  have h9 : InitFrame s s9 :=
    (h8.init_call (.drmModeGetResources s8.drm.fd res.isSome) rfl).upd rfl rfl rfl rfl rfl
  split_ifs
  · exact h2.upd rfl rfl rfl rfl rfl
  · clear_value res
    cases res with
    | none => exact h9.init_msg _ _
    | some r => exact h9.init_call _ (by rfl)

theorem pre_init_finish_frame (h : Host) (s : State) :
    InitFrame s (pre_init_finish h s).2 := by
  unfold pre_init_finish
  lift_lets
  extract_lets c src1 src2 s1 src3 s2 src4 s3 ok s4 src5 s5 s6 ok2 s7
  have h1 : InitFrame s s1 :=
    ((InitFrame.init_refl s).init_call (.xf86InitialConfiguration true) rfl).upd rfl rfl rfl rfl rfl
  have h2 : InitFrame s s2 := h1.upd rfl rfl rfl rfl rfl
  have h3 : InitFrame s s3 := h2.upd rfl rfl rfl rfl rfl
  have h4 : InitFrame s s4 := h3.init_call _ (by rfl)
  have h5 : InitFrame s s5 := h4.upd rfl rfl rfl rfl rfl
  have h7 : InitFrame s s7 := (h5.init_call _ (by rfl)).init_call _ (by rfl)
  split_ifs
  · exact h4
  · exact h4.init_msg _ _
  · exact h7

theorem pre_init_frame (h : Host) (s : State) :
    InitFrame s (armada_drm_pre_init h s).2 := by
  unfold armada_drm_pre_init
  lift_lets
  extract_lets r srcA srcB s1 n l s2
  have hr : InitFrame s r.2 := pre_init_resources_frame h s
  have h1 : InitFrame s s1 := hr.upd rfl rfl rfl rfl rfl
  have hl : InitFrame s l.2 := h1.init_trans (pre_init_crtcs_frame h _ s1)
  have h2 : InitFrame s s2 := hl.init_trans (pre_init_connectors_frame h _ l.2)
  split_ifs
  · exact hr
  · exact hl
  · exact h2.init_trans (pre_init_finish_frame h s2)

@[simp] theorem Scrn.scrn_call_trace (s : Scrn) (e : Event) :
    (s.call e).trace = s.trace ++ [e] := rfl
@[simp] theorem Scrn.scrn_call_pScrn (s : Scrn) (e : Event) : (s.call e).pScrn = s.pScrn := rfl
@[simp] theorem Scrn.scrn_call_driverPrivate (s : Scrn) (e : Event) :
    (s.call e).driverPrivate = s.driverPrivate := rfl
@[simp] theorem Scrn.scrn_msg_trace (s : Scrn) (t : MessageType) (m : String) :
    (s.xf86DrvMsg t m).trace = s.trace := rfl
@[simp] theorem Scrn.scrn_msg_pScrn (s : Scrn) (t : MessageType) (m : String) :
    (s.xf86DrvMsg t m).pScrn = s.pScrn := rfl
@[simp] theorem Scrn.scrn_msg_driverPrivate (s : Scrn) (t : MessageType) (m : String) :
    (s.xf86DrvMsg t m).driverPrivate = s.driverPrivate := rfl

theorem Life.life_refl (s : Server) : Life [] s s := ⟨[], by simp, rfl⟩

theorem Life.life_trans {L1 L2 : List Event} {s t u : Server} (h1 : Life L1 s t) (h2 : Life L2 t u) :
    Life (L1 ++ L2) s u := by
  obtain ⟨e1, ht1, hp1⟩ := h1
  obtain ⟨e2, ht2, hp2⟩ := h2
  exact ⟨e1 ++ e2, by rw [ht2, ht1, List.append_assoc], by rw [List.filter_append, hp1, hp2]⟩

theorem Life.filter_issued {L : List Event} {s t : Server} (h1 : Life L s t) :
    (issued s t).filter Event.isLifecycle = L := by
  obtain ⟨e1, ht1, hp1⟩ := h1
  rw [issued_append s t e1 ht1, hp1]

theorem Life.of_trace {L : List Event} {s t u : Server} (h1 : Life L s t)
    (ht : u.trace = t.trace) : Life L s u := by
  obtain ⟨e1, ht1, hp1⟩ := h1
  exact ⟨e1, by rw [ht, ht1], hp1⟩

theorem Life.skip {L : List Event} {s t u : Server} (h1 : Life L s t) (e : Event)
    (he : e.isLifecycle = false) (ht : u.trace = t.trace ++ [e]) : Life L s u := by
  obtain ⟨e1, ht1, hp1⟩ := h1
  exact ⟨e1 ++ [e], by rw [ht, ht1, List.append_assoc],
    by rw [List.filter_append, hp1]; simp [he]⟩

theorem Life.push {L : List Event} {s t u : Server} (h1 : Life L s t) (e : Event)
    (he : e.isLifecycle = true) (ht : u.trace = t.trace ++ [e]) : Life (L ++ [e]) s u := by
  obtain ⟨e1, ht1, hp1⟩ := h1
  exact ⟨e1 ++ [e], by rw [ht, ht1, List.append_assoc],
    by rw [List.filter_append, hp1]; simp [he]⟩

theorem InitFrame.life {s t : State} (h1 : InitFrame s t) : Life [] s.toServer t.toServer := by
  obtain ⟨e1, ht1, hp1⟩ := h1.trace
  refine ⟨e1, ht1, ?_⟩
  rw [List.filter_eq_nil_iff]
  intro e he
  simp [hp1 e he]

theorem armada_get_cap_spec (h : Host) (s : Scrn) (fd : Int) (cap : Nat) :
    (armada_get_cap h s fd cap).1 = h.drmGetCap s.trace ∧
    (armada_get_cap h s fd cap).2.pScrn = s.pScrn ∧
    (armada_get_cap h s fd cap).2.driverPrivate = s.driverPrivate ∧
    (armada_get_cap h s fd cap).2.trace
      = s.trace ++ [.drmGetCap fd cap (h.drmGetCap s.trace).1 (h.drmGetCap s.trace).2] := by
  unfold armada_get_cap
  simp only []
  split_ifs <;> simp

theorem CheckOutcome.check_fail {s t : Scrn} {fd : Int} (hp : t.pScrn = s.pScrn)
    (hd : t.driverPrivate = s.driverPrivate) (hl : Life [] s.toServer t.toServer) :
    CheckOutcome s fd (false, t.call (.drmClose fd)) :=
  ⟨hp, Or.inl ⟨rfl, hd, hl.push (.drmClose fd) rfl rfl⟩⟩

theorem open_master_checks_outcome (h : Host) (s : Scrn) (fd : Int) :
    CheckOutcome s fd (open_master_checks h s fd) := by
  unfold open_master_checks
  lift_lets
  extract_lets err s1 c1 c2 init s2 src
  have l1 : Life [] s.toServer s1.toServer := (Life.life_refl _).skip _ (by rfl) rfl
  have g1 := armada_get_cap_spec h s1 fd DRM_CAP_PRIME
  have lc1 : Life [] s.toServer c1.2.toServer := l1.skip _ (by rfl) g1.2.2.2
  have g2 := armada_get_cap_spec h c1.2 fd DRM_CAP_DUMB_BUFFER
  have lc2 : Life [] s.toServer c2.2.toServer := lc1.skip _ (by rfl) g2.2.2.2
  have l2 : Life [] s.toServer s2.toServer := lc2.skip _ (by rfl) rfl
  have p1 : c1.2.pScrn = s.pScrn := g1.2.1
  have p2 : c2.2.pScrn = s.pScrn := g2.2.1.trans p1
  have d1 : c1.2.driverPrivate = s.driverPrivate := g1.2.2.1
  have d2 : c2.2.driverPrivate = s.driverPrivate := g2.2.2.1.trans d1
  split_ifs
  · exact CheckOutcome.check_fail (t := s1.xf86DrvMsg _ _) rfl rfl (l1.of_trace rfl)
  · exact CheckOutcome.check_fail p1 d1 lc1
  · exact CheckOutcome.check_fail (t := c1.2.xf86DrvMsg _ _) p1 d1 (lc1.of_trace rfl)
  · exact CheckOutcome.check_fail p2 d2 lc2
  · exact CheckOutcome.check_fail (t := c2.2.xf86DrvMsg _ _) p2 d2 (lc2.of_trace rfl)
  · exact CheckOutcome.check_fail (t := s2.xf86DrvMsg _ _) p2 d2 (l2.of_trace rfl)
  · exact ⟨p2, Or.inr ⟨rfl, ⟨init.2, rfl⟩, l2.of_trace rfl⟩⟩

theorem open_master_outcome (h : Host) (s : Scrn) :
    OpenOutcome s (armada_drm_open_master h s) := by
  unfold armada_drm_open_master
  lift_lets
  extract_lets pEnt s1 busid s2 ok s3 fd s4
  have l1 : Life [] s.toServer s1.toServer := (Life.life_refl _).skip _ (by rfl) rfl
  have p2 : s2.pScrn = s.pScrn := by
    show (if _ then _ else _ : Scrn).pScrn = _
    split_ifs <;> rfl
  have d2 : s2.driverPrivate = s.driverPrivate := by
    show (if _ then _ else _ : Scrn).driverPrivate = _
    split_ifs <;> rfl
  have l2 : Life [] s.toServer s2.toServer := by
    show Life [] s.toServer (if _ then _ else _ : Scrn).toServer
    split_ifs
    · exact l1.of_trace rfl
    · exact l1
  have l3 : Life [] s.toServer s3.toServer := l2.skip _ (by rfl) rfl
  have l4 : Life [.drmOpen busid fd] s.toServer s4.toServer := l3.push _ (by rfl) rfl
  split_ifs with hok hfd
  · exact ⟨p2, Or.inl ⟨rfl, d2, Or.inl l3⟩⟩
  · exact ⟨p2, Or.inl ⟨rfl, d2, Or.inr (Or.inl ⟨busid, fd, hfd, l4.of_trace rfl⟩)⟩⟩
  · obtain ⟨hp, hcase⟩ := open_master_checks_outcome h s4 fd
    refine ⟨hp.trans p2, ?_⟩
    rcases hcase with ⟨hf, hd, hl⟩ | ⟨ht, ⟨bm, hd⟩, hl⟩
    · exact Or.inl ⟨hf, hd.trans d2, Or.inr (Or.inr ⟨busid, fd, not_lt.1 hfd, l4.life_trans hl⟩)⟩
    · exact Or.inr ⟨ht, busid, fd, bm, not_lt.1 hfd, hd, by simpa using l4.life_trans hl⟩

theorem FreeScreen_spec (s : Scrn) (drm : armada_drm_info) (hd : s.driverPrivate = some drm) :
    (armada_drm_FreeScreen s).driverPrivate = none ∧
    (armada_drm_FreeScreen s).pScrn = s.pScrn ∧
    Life [.drm_armada_fini drm.bufmgr, .drmClose drm.fd] s.toServer
      (armada_drm_FreeScreen s).toServer := by
  unfold armada_drm_FreeScreen armada_drm_close_master
  rw [hd]
  refine ⟨rfl, rfl, ?_⟩
  exact ((Life.life_refl s.toServer).push (.drm_armada_fini drm.bufmgr) rfl
    (u := (s.call (.drm_armada_fini drm.bufmgr)).toServer) rfl).push (.drmClose drm.fd) rfl rfl

theorem MasterOutcome.master_fail {s t : Scrn} {drm : armada_drm_info} (L : List Event)
    (hL : ∀ e ∈ L, e.isNegotiation = true) (hd : t.driverPrivate = some drm)
    (hl : Life L s.toServer t.toServer) :
    MasterOutcome s drm (false, armada_drm_FreeScreen t) := by
  obtain ⟨h1, _, h3⟩ := FreeScreen_spec t drm hd
  exact Or.inl ⟨rfl, h1, L, hL, hl.life_trans h3⟩

theorem PreInit_pre_init_spec (h : Host) (s : Scrn) (drm : armada_drm_info)
    (hd : s.driverPrivate = some drm) :
    ∃ r, PreInit_pre_init h s = some r ∧
      ((r.1 = false ∧ r.2.driverPrivate = none ∧
          Life [.drm_armada_fini drm.bufmgr, .drmClose drm.fd] s.toServer r.2.toServer) ∨
       (r.1 = true ∧ r.2.pScrn.depth = s.pScrn.depth ∧
          r.2.pScrn.defaultVisual = s.pScrn.defaultVisual ∧
          (∃ drm1, r.2.driverPrivate = some drm1 ∧ drm1.fd = drm.fd ∧
            drm1.bufmgr = drm.bufmgr) ∧
          Life [] s.toServer r.2.toServer)) := by
  unfold PreInit_pre_init
  rw [hd]
  dsimp only
  have hf := pre_init_frame h { toServer := s.toServer, drm := drm }
  generalize armada_drm_pre_init h { toServer := s.toServer, drm := drm } = r at hf
  have hlife : Life [] s.toServer r.2.toServer := hf.life
  by_cases hr : (!r.1) = true
  · rw [if_pos hr]
    refine ⟨_, rfl, Or.inl ⟨rfl, ?_⟩⟩
    obtain ⟨h1, _, h3⟩ := FreeScreen_spec
      ({ toServer := r.2.toServer, driverPrivate := some r.2.drm } : Scrn) r.2.drm rfl
    refine ⟨h1, ?_⟩
    have := hlife.life_trans h3
    rw [hf.fd, hf.bufmgr] at this
    simp at this
    exact this
  · rw [if_neg hr]
    exact ⟨_, rfl, Or.inr ⟨rfl, hf.depth, hf.defaultVisual,
      ⟨r.2.drm, rfl, hf.fd, hf.bufmgr⟩, hlife⟩⟩

theorem PreInit_master_outcome (h : Host) (s : Scrn) (drm : armada_drm_info)
    (hd : s.driverPrivate = some drm) :
    ∃ r, PreInit_master h s = some r ∧ MasterOutcome s drm r := by
  unfold PreInit_master
  lift_lets
  extract_lets src0 s1 d src1 src2 s2 s3 w s4 v src3 src4 s5
  have l1 : Life [] s.toServer s1.toServer := (Life.life_refl _).of_trace rfl
  have l2 : Life [.xf86SetDepthBpp d.1 d.2.1 d.2.2] s.toServer s2.toServer :=
    l1.push (.xf86SetDepthBpp d.1 d.2.1 d.2.2) rfl rfl
  have l4 : Life [.xf86SetDepthBpp d.1 d.2.1 d.2.2] s.toServer s4.toServer :=
    (l2.skip .xf86PrintDepthBpp rfl (u := s3.toServer) rfl).skip (.xf86SetWeight w) rfl rfl
  have l5 : Life [.xf86SetDepthBpp d.1 d.2.1 d.2.2, .xf86SetDefaultVisual v.1 v.2] s.toServer
      s5.toServer := l4.push (.xf86SetDefaultVisual v.1 v.2) rfl rfl
  have hd2 : s2.driverPrivate = some drm := hd
  have hd4 : s4.driverPrivate = some drm := hd
  have hd5 : s5.driverPrivate = some drm := hd
  have n1 : ∀ e ∈ [Event.xf86SetDepthBpp d.1 d.2.1 d.2.2], e.isNegotiation = true := by
    intro e he
    rw [List.mem_singleton] at he
    subst he; rfl
  have n2 : ∀ e ∈ [Event.xf86SetDepthBpp d.1 d.2.1 d.2.2, Event.xf86SetDefaultVisual v.1 v.2],
      e.isNegotiation = true := by
    intro e he
    simp only [List.mem_cons, List.mem_singleton, List.not_mem_nil, or_false] at he
    rcases he with rfl | rfl <;> rfl
  by_cases c1 : (!d.1) = true
  · rw [if_pos c1]
    refine ⟨(false, armada_drm_FreeScreen s2), rfl, ?_⟩
    exact MasterOutcome.master_fail (t := s2) _ n1 hd2 l2
  rw [if_neg c1]
  by_cases c2 : ¬(s2.pScrn.depth = 8 ∨ s2.pScrn.depth = 15 ∨ s2.pScrn.depth = 16 ∨
      s2.pScrn.depth = 24)
  · rw [if_pos c2]
    refine ⟨(false, armada_drm_FreeScreen (s2.xf86DrvMsg _ _)), rfl, ?_⟩
    exact MasterOutcome.master_fail (t := s2.xf86DrvMsg _ _) _ n1 hd2 (l2.of_trace rfl)
  rw [if_neg c2]
  by_cases c3 : (!w) = true
  · rw [if_pos c3]
    refine ⟨(false, armada_drm_FreeScreen s4), rfl, ?_⟩
    exact MasterOutcome.master_fail (t := s4) _ n1 hd4 l4
  rw [if_neg c3]
  by_cases c4 : (!v.1) = true
  · rw [if_pos c4]
    refine ⟨(false, armada_drm_FreeScreen s5), rfl, ?_⟩
    exact MasterOutcome.master_fail (t := s5) _ n2 hd5 l5
  rw [if_neg c4]
  by_cases c5 : s5.pScrn.depth > 8 ∧ s5.pScrn.defaultVisual ≠ TrueColor
  · rw [if_pos c5]
    refine ⟨(false, armada_drm_FreeScreen (s5.xf86DrvMsg _ _)), rfl, ?_⟩
    exact MasterOutcome.master_fail (t := s5.xf86DrvMsg _ _) _ n2 hd5 (l5.of_trace rfl)
  rw [if_neg c5]
  obtain ⟨r, hr, hcase⟩ := PreInit_pre_init_spec h s5 drm hd5
  refine ⟨r, hr, ?_⟩
  rcases hcase with ⟨hf, hnone, hl⟩ | ⟨ht, hdep, hvis, hdrm, hl⟩
  · exact Or.inl ⟨hf, hnone, _, n2, l5.life_trans hl⟩
  · obtain ⟨drm1, h1, h2, h3⟩ := hdrm
    have hd1 : d.1 = true := by simpa using c1
    have hv1 : v.1 = true := by simpa using c4
    have hsup : supported_depth d.2.1 := not_not.1 c2
    have hvis2 : d.2.1 ≤ 8 ∨ v.2 = TrueColor := by
      by_cases hle : d.2.1 ≤ 8
      · exact Or.inl hle
      · right
        by_contra hne
        exact c5 ⟨not_le.1 hle, hne⟩
    refine Or.inr ⟨ht, d.2.1, d.2.2, v.2, drm1, hsup, hvis2, hdep, hvis, h1, h2, h3, ?_⟩
    have := l5.life_trans hl
    rw [hd1, hv1] at this
    simpa using this

theorem PreInit_outcome (h : Host) (s : Scrn) (flags : Int) :
    ∃ r, armada_drm_PreInit h s flags = some r ∧ PreInitOutcome s flags r := by
  unfold armada_drm_PreInit
  lift_lets
  extract_lets r0
  have ho : OpenOutcome s r0 := open_master_outcome h s
  by_cases c1 : s.pScrn.numEntities ≠ 1
  · rw [if_pos c1]
    exact ⟨(false, s), rfl, Or.inl ⟨rfl, Or.inl ⟨rfl, Or.inl (Life.life_refl _)⟩⟩⟩
  rw [if_neg c1]
  by_cases c2 : Int.land flags PROBE_DETECT ≠ 0
  · rw [if_pos c2]
    exact ⟨(false, s), rfl, Or.inl ⟨rfl, Or.inl ⟨rfl, Or.inl (Life.life_refl _)⟩⟩⟩
  rw [if_neg c2]
  by_cases c3 : (!r0.1) = true
  · rw [if_pos c3]
    refine ⟨(false, r0.2.xf86DrvMsg _ _), rfl, Or.inl ⟨rfl, Or.inl ?_⟩⟩
    obtain ⟨_, hcase⟩ := ho
    rcases hcase with ⟨_, hdp, hl⟩ | ⟨ht, _⟩
    · refine ⟨hdp, ?_⟩
      rcases hl with hl | ⟨b, fd, hfd, hl⟩ | ⟨b, fd, hfd, hl⟩
      · exact Or.inl (hl.of_trace rfl)
      · exact Or.inr (Or.inl ⟨b, fd, hfd, hl.of_trace rfl⟩)
      · exact Or.inr (Or.inr ⟨b, fd, hfd, hl.of_trace rfl⟩)
    · rw [ht] at c3; exact absurd c3 (by simp)
  · rw [if_neg c3]
    obtain ⟨_, hcase⟩ := ho
    rcases hcase with ⟨hf, _⟩ | ⟨_, busid, fd, bm, hfd, hdp, hl⟩
    · rw [hf] at c3; exact absurd rfl c3
    · obtain ⟨r, hr, hm⟩ := PreInit_master_outcome h r0.2 _ hdp
      refine ⟨r, hr, ?_⟩
      rcases hm with ⟨hf, hnone, L, hL, hlm⟩ | ⟨ht, d, b, v, drm1, h1, h2, h3, h4, h5, h6, _, hlm⟩
      · exact Or.inl ⟨hf, Or.inr ⟨hnone, busid, fd, bm, L, hfd, hL, by simpa using hl.life_trans hlm⟩⟩
      · exact Or.inr ⟨ht, not_not.1 c1, not_not.1 c2, busid, fd, d, b, v, drm1, hfd, h1, h2, h3, h4,
          h5, h6, by simpa using hl.life_trans hlm⟩

theorem land_two_pow (m : Int) (k : Nat) :
    Int.land m ((2 ^ k : Nat) : Int) ≠ 0 ↔ m.testBit k = true := by
  cases m with
  | ofNat n =>
    show ((n &&& 2 ^ k : Nat) : Int) ≠ 0 ↔ n.testBit k = true
    rw [Nat.and_two_pow]
    cases n.testBit k <;> simp
  | negSucc n =>
    show ((Nat.ldiff (2 ^ k) n : Nat) : Int) ≠ 0 ↔ (!n.testBit k) = true
    have key : Nat.ldiff (2 ^ k) n = if n.testBit k then 0 else 2 ^ k := by
      apply Nat.eq_of_testBit_eq
      intro i
      rw [Nat.testBit_ldiff, Nat.testBit_two_pow]
      by_cases hi : k = i
      · subst hi
        cases hb : n.testBit k <;> simp [Nat.testBit_two_pow]
      · cases hb : n.testBit k <;> simp [Nat.testBit_two_pow, hi]
    rw [key]
    cases n.testBit k <;> simp

theorem land_PROBE_DETECT (m : Int) : Int.land m PROBE_DETECT ≠ 0 ↔ m.testBit 0 = true :=
  land_two_pow m 0

theorem Life.mem {L : List Event} {s t : Server} (h1 : Life L s t) (e : Event)
    (he : e ∈ issued s t) (hl : e.isLifecycle = true) : e ∈ L := by
  rw [← h1.filter_issued]
  exact List.mem_filter.2 ⟨he, hl⟩

theorem filterMap_filter_of {α β : Type} (p : α → Bool) (f : α → Option β)
    (hpf : ∀ a, p a = false → f a = none) (l : List α) :
    (l.filter p).filterMap f = l.filterMap f := by
  induction l with
  | nil => rfl
  | cons a l ih =>
    by_cases hp : p a = true
    · rw [List.filter_cons_of_pos hp, List.filterMap_cons, List.filterMap_cons, ih]
    · have hp' : p a = false := by simpa using hp
      rw [List.filter_cons_of_neg hp, List.filterMap_cons, hpf a hp', ih]

theorem Life.opened {L : List Event} {s t : Server} (h1 : Life L s t) :
    opened_fds (issued s t) = opened_fds L := by
  rw [← h1.filter_issued]
  unfold opened_fds
  rw [filterMap_filter_of]
  intro a ha
  cases a <;> simp_all [Event.isLifecycle]

theorem Life.closed {L : List Event} {s t : Server} (h1 : Life L s t) :
    closed_fds (issued s t) = closed_fds L := by
  rw [← h1.filter_issued]
  unfold closed_fds
  rw [filterMap_filter_of]
  intro a ha
  cases a <;> simp_all [Event.isLifecycle]

theorem Life.release {L : List Event} {s t : Server} (h1 : Life L s t) :
    (issued s t).filter Event.isRelease = L.filter Event.isRelease := by
  rw [← h1.filter_issued, List.filter_filter]
  congr 1
  funext a
  cases a <;> simp [Event.isLifecycle, Event.isRelease]

theorem isNegotiation_cases (a : Event) (ha : a.isNegotiation = true) :
    (∃ ok d b, a = .xf86SetDepthBpp ok d b) ∨ (∃ ok v, a = .xf86SetDefaultVisual ok v) := by
  cases a
  case xf86SetDepthBpp ok d b => exact Or.inl ⟨ok, d, b, rfl⟩
  case xf86SetDefaultVisual ok v => exact Or.inr ⟨ok, v, rfl⟩
  all_goals exact absurd ha (by simp [Event.isNegotiation])

theorem negotiation_fds (L : List Event) (hL : ∀ e ∈ L, e.isNegotiation = true) :
    opened_fds L = [] ∧ closed_fds L = [] ∧ L.filter Event.isRelease = [] := by
  induction L with
  | nil => exact ⟨rfl, rfl, rfl⟩
  | cons a L ih =>
    have ha := hL a (List.mem_cons_self _ _)
    obtain ⟨h1, h2, h3⟩ := ih (fun e he => hL e (List.mem_cons_of_mem _ he))
    unfold opened_fds closed_fds at *
    rcases isNegotiation_cases a ha with ⟨ok, d, b, rfl⟩ | ⟨ok, v, rfl⟩
    · exact ⟨by rw [List.filterMap_cons]; exact h1, by rw [List.filterMap_cons]; exact h2,
        by rw [List.filter_cons_of_neg (by simp [Event.isRelease])]; exact h3⟩
    · exact ⟨by rw [List.filterMap_cons]; exact h1, by rw [List.filterMap_cons]; exact h2,
        by rw [List.filter_cons_of_neg (by simp [Event.isRelease])]; exact h3⟩

theorem opened_append (a b : List Event) : opened_fds (a ++ b) = opened_fds a ++ opened_fds b := by
  unfold opened_fds; rw [List.filterMap_append]

theorem closed_append (a b : List Event) : closed_fds (a ++ b) = closed_fds a ++ closed_fds b := by
  unfold closed_fds; rw [List.filterMap_append]

theorem handle_uevent_issued (h : Host) (s : State) :
    (uevent_is_hotplug s.drm (h.udev_monitor_receive_device s.trace) ∧
      issued s.toServer (armada_drm_handle_uevent h s).toServer =
        [.udev_monitor_receive_device s.drm.udev_monitor (h.udev_monitor_receive_device s.trace),
          .RRGetInfo true, .udev_device_unref]) ∨
    (¬ uevent_is_hotplug s.drm (h.udev_monitor_receive_device s.trace) ∧
      (issued s.toServer (armada_drm_handle_uevent h s).toServer).filter Event.isRRGetInfo = []) := by
  unfold armada_drm_handle_uevent uevent_is_hotplug
  cases hud : h.udev_monitor_receive_device s.trace with
  | none =>
    right
    refine ⟨by simp, ?_⟩
    rw [issued_append s.toServer _ [.udev_monitor_receive_device s.drm.udev_monitor none] rfl]
    rfl
  | some d =>
    cases hhp : d.HOTPLUG with
    | none =>
      right
      refine ⟨by simp [hhp], ?_⟩
      rw [issued_append s.toServer _ [.udev_monitor_receive_device s.drm.udev_monitor (some d),
        .udev_device_unref] (by simp [hhp])]
      rfl
    | some hp =>
      by_cases hc : d.devnum = s.drm.udev_drm_dev ∧ strtol hp = 1
      · left
        refine ⟨⟨d, hp, rfl, hc.1, hhp, hc.2⟩, ?_⟩
        exact issued_append s.toServer _ _ (by simp [hhp, hc.1, hc.2])
      · right
        refine ⟨?_, ?_⟩
        · rintro ⟨d1, hp1, h1, h2, h3, h4⟩
          have hd : d = d1 := by simpa using h1
          subst hd
          have hph : hp = hp1 := by simpa [hhp] using h3
          subst hph
          exact hc ⟨h2, h4⟩
        · rw [issued_append s.toServer _
            [.udev_monitor_receive_device s.drm.udev_monitor (some d), .udev_device_unref]
            (by
              have : ¬ (d.devnum = (s.call (.udev_monitor_receive_device s.drm.udev_monitor
                  (some d))).drm.udev_drm_dev ∧ decide (strtol hp = 1) = true) := by
                simpa using hc
              simp only [hhp]
              rw [if_neg this]
              simp)]
          rfl


theorem udev_init_disabled (h : Host) (s : State)
    (hopt : xf86GetOptValBool s.drm.Options .OPTION_HOTPLUG = some false) :
    armada_drm_udev_init h s = (true, s.xf86DrvMsg .X_CONFIG "hotplug detection %sabled\n") := by
  unfold armada_drm_udev_init
  simp [hopt]

/-- Nothing issued yet. -/
theorem Releasing.start (s : State) : Releasing s s [] [] :=
  ⟨rfl, rfl, rfl, rfl, rfl, [], by simp, rfl, rfl, rfl, rfl⟩

/-- One more call that is neither a `CloseScreen` nor a `LeaveVT` call. -/
theorem Releasing.step {s t u : State} {rm bo : List Event} (e : Event)
    (r : Releasing s t rm bo) (hp : u.pScrn = t.pScrn) (hfd : u.drm.fd = t.drm.fd)
    (hcs : u.drm.CloseScreen = t.drm.CloseScreen) (hac : u.drm.accel = t.drm.accel)
    (hhw : u.drm.hw_cursor = t.drm.hw_cursor) (htr : u.trace = t.trace ++ [e])
    (h1 : e.isCloseScreen = false) (h2 : e.isLeaveVT = false) :
    Releasing s u (rm ++ [e].filter Event.isRmFB) (bo ++ [e].filter Event.isBoPut) := by
  obtain ⟨p, fd, cs, ac, hw, evs, tr, f1, f2, f3, f4⟩ := r
  refine ⟨hp.trans p, hfd.trans fd, hcs.trans cs, hac.trans ac, hhw.trans hw, evs ++ [e], ?_,
    ?_, ?_, ?_, ?_⟩
  · rw [htr, tr, List.append_assoc]
  · rw [List.filter_append, f1]
  · rw [List.filter_append, f2]
  · rw [List.filter_append, f3, List.filter_cons_of_neg (by simp [h1])]; rfl
  · rw [List.filter_append, f4, List.filter_cons_of_neg (by simp [h2])]; rfl

/-- One more call that is none of the four kinds, the private record untouched. -/
theorem Releasing.quiet {s t u : State} {rm bo : List Event} (e : Event)
    (r : Releasing s t rm bo) (hp : u.pScrn = t.pScrn) (hd : u.drm = t.drm)
    (htr : u.trace = t.trace ++ [e])
    (h1 : e.isCloseScreen = false) (h2 : e.isLeaveVT = false)
    (h3 : e.isRmFB = false) (h4 : e.isBoPut = false) :
    Releasing s u rm bo := by
  have := r.step e hp (by rw [hd]) (by rw [hd]) (by rw [hd]) (by rw [hd]) htr h1 h2
  rw [List.filter_cons_of_neg (by simp [h3]), List.filter_cons_of_neg (by simp [h4])] at this
  simpa using this

/-- The calls of `armada_drm_udev_fini` are none of the four kinds and the
private record is left alone. -/
theorem udev_fini_releasing (h : Host) {s t : State} {rm bo : List Event}
    (r : Releasing s t rm bo) :
    Releasing s (armada_drm_udev_fini h t) rm bo ∧ (armada_drm_udev_fini h t).drm = t.drm := by
  unfold armada_drm_udev_fini
  cases hm : t.drm.udev_monitor with
  | none => exact ⟨r, rfl⟩
  | some mon =>
    refine ⟨?_, rfl⟩
    have a := r.quiet (u := t.call (.udev_monitor_get_udev mon (h.udev_monitor_get_udev t.trace)))
      _ rfl rfl rfl rfl rfl rfl rfl
    have b := a.quiet (u := (t.call (.udev_monitor_get_udev mon
      (h.udev_monitor_get_udev t.trace))).call (.xf86RemoveGeneralHandler t.drm.udev_handler))
      _ rfl rfl rfl rfl rfl rfl rfl
    have c := b.quiet (u := ((t.call (.udev_monitor_get_udev mon
      (h.udev_monitor_get_udev t.trace))).call
        (.xf86RemoveGeneralHandler t.drm.udev_handler)).call (.udev_monitor_unref mon))
      _ rfl rfl rfl rfl rfl rfl rfl
    exact c.quiet (u := (((t.call (.udev_monitor_get_udev mon
      (h.udev_monitor_get_udev t.trace))).call
        (.xf86RemoveGeneralHandler t.drm.udev_handler)).call (.udev_monitor_unref mon)).call
          (.udev_unref (h.udev_monitor_get_udev t.trace)))
      _ rfl rfl rfl rfl rfl rfl rfl

/-- The release part issues `drmModeRmFB` iff `drm->fb_id` was non-zero and
releases the front buffer iff it was non-NULL, and clears both fields. -/
theorem CloseScreen_release_spec (h : Host) (s : State) :
    Releasing s (CloseScreen_release h s)
      (if s.drm.fb_id ≠ 0 then [.drmModeRmFB s.drm.fd s.drm.fb_id] else [])
      (s.drm.front_bo.toList.map (fun bo => Event.drm_armada_bo_put (some bo))) ∧
    (CloseScreen_release h s).drm.fb_id = 0 ∧
    (CloseScreen_release h s).drm.front_bo = none := by
  unfold CloseScreen_release
  lift_lets
  extract_lets pixmap s1 s2 s3 d4 s5 d6 s7 s8
  have r1 : Releasing s s1 [] [] :=
    (Releasing.start s).quiet (.GetScreenPixmap pixmap) rfl rfl rfl rfl rfl rfl rfl
  obtain ⟨r2, d2⟩ := udev_fini_releasing h r1
  have d2 : s2.drm = s.drm := d2
  have r5 : Releasing s s5 (if s.drm.fb_id ≠ 0 then [.drmModeRmFB s.drm.fd s.drm.fb_id] else [])
      [] ∧ s5.drm.fb_id = 0 ∧ s5.drm.front_bo = s.drm.front_bo := by
    by_cases c : s2.drm.fb_id ≠ 0
    · have e5 : s5 = { s3 with drm := { d4 with fb_id := 0 } } := if_pos c
      have := r2.step (u := s5) (.drmModeRmFB s2.drm.fd s2.drm.fb_id) (by rw [e5]; rfl)
        (by rw [e5]) (by rw [e5]) (by rw [e5]) (by rw [e5])
        (by rw [e5]; rfl) rfl rfl
      rw [d2] at this c
      rw [if_pos c]
      refine ⟨this, by rw [e5], ?_⟩
      rw [e5]
      show s2.drm.front_bo = s.drm.front_bo
      rw [d2]
    · have e5 : s5 = s2 := if_neg c
      rw [e5]
      rw [d2] at c
      rw [if_neg c, d2]
      exact ⟨r2, not_not.mp c, rfl⟩
  obtain ⟨r5, f5, b5⟩ := r5
  have r7 : Releasing s s7 (if s.drm.fb_id ≠ 0 then [.drmModeRmFB s.drm.fd s.drm.fb_id] else [])
      (s.drm.front_bo.toList.map (fun bo => Event.drm_armada_bo_put (some bo))) ∧ s7.drm.fb_id = 0 ∧ s7.drm.front_bo = none := by
    cases hb : s.drm.front_bo with
    | none =>
      have hb5 : s5.drm.front_bo = none := b5.trans hb
      have e7 : s7 = s5 := by simp only [s7, hb5]
      rw [e7]
      exact ⟨r5, f5, hb5⟩
    | some bo =>
      have hb5 : s5.drm.front_bo = some bo := b5.trans hb
      have e7 : s7 = { s5.call (.drm_armada_bo_put (some bo)) with
          drm := { d6 with front_bo := none } } := by simp only [s7, hb5]
      have := r5.step (u := s7) (.drm_armada_bo_put (some bo)) (by rw [e7]; rfl)
        (by rw [e7]) (by rw [e7]) (by rw [e7]) (by rw [e7])
        (by rw [e7]; rfl) rfl rfl
      refine ⟨?_, by rw [e7]; exact f5, by rw [e7]⟩
      simpa [Event.isRmFB, Event.isBoPut] using this
  obtain ⟨r7, f7, b7⟩ := r7
  have r8 : Releasing s s8 (if s.drm.fb_id ≠ 0 then [.drmModeRmFB s.drm.fd s.drm.fb_id] else [])
      (s.drm.front_bo.toList.map (fun bo => Event.drm_armada_bo_put (some bo))) ∧ s8.drm.fb_id = 0 ∧ s8.drm.front_bo = none := by
    by_cases c : s7.drm.accel = true
    · have e8 : s8 = s7.call (.vivante_free_pixmap pixmap) := if_pos c
      rw [e8]
      exact ⟨r7.quiet (.vivante_free_pixmap pixmap) rfl rfl rfl rfl rfl rfl rfl, f7, b7⟩
    · have e8 : s8 = s7 := if_neg c
      rw [e8]
      exact ⟨r7, f7, b7⟩
  obtain ⟨r8, f8, b8⟩ := r8
  by_cases c : s8.drm.hw_cursor = true
  · rw [if_pos c]
    exact ⟨r8.quiet .xf86_cursors_fini rfl rfl rfl rfl rfl rfl rfl, f8, b8⟩
  · rw [if_neg c]
    exact ⟨r8, f8, b8⟩

/-- The calls of `armada_drm_LeaveVT`. -/
theorem LeaveVT_spec (h : Host) (s : State) :
    (armada_drm_LeaveVT h s).trace = s.trace ++ LeaveVT_calls s.drm.fd ∧
    (armada_drm_LeaveVT h s).drm = s.drm ∧
    (armada_drm_LeaveVT h s).screen = s.screen ∧
    (armada_drm_LeaveVT h s).pScrn = s.pScrn := by
  simp [armada_drm_LeaveVT, State.call, LeaveVT_calls]

/-- The second part of `armada_drm_CloseScreen`, from the state the release
part leaves. -/
theorem CloseScreen_spec (h : Host) (s : State) :
    (armada_drm_CloseScreen h s).1 = (wrapped_CloseScreen h s).1 ∧
    (armada_drm_CloseScreen h s).2.trace
      = (CloseScreen_release h s).trace ++
        .CloseScreen (CloseScreen_release h s).drm.CloseScreen (wrapped_CloseScreen h s).1 ::
          (if (wrapped_CloseScreen h s).2
            then LeaveVT_calls (CloseScreen_release h s).drm.fd else []) ∧
    (armada_drm_CloseScreen h s).2.drm = (CloseScreen_release h s).drm ∧
    (armada_drm_CloseScreen h s).2.pScrn.vtSema = false ∧
    (armada_drm_CloseScreen h s).2.screen
      = h.pScreen (CloseScreen_release h s).trace
          { (CloseScreen_release h s).screen with
            CloseScreen := (CloseScreen_release h s).drm.CloseScreen } := by
  unfold armada_drm_CloseScreen
  lift_lets
  extract_lets t sc u w c1 p1 v x p2
  have hw : wrapped_CloseScreen h s = w := rfl
  rw [hw]
  have hx : x.trace = t.trace ++ .CloseScreen t.drm.CloseScreen w.1 ::
        (if w.2 then LeaveVT_calls t.drm.fd else []) ∧
      x.drm = t.drm ∧ x.screen = h.pScreen t.trace { sc with CloseScreen := t.drm.CloseScreen } := by
    by_cases c : v.pScrn.vtSema = true
    · have ex : x = armada_drm_LeaveVT h v := if_pos c
      have c2 : w.2 = true := c
      obtain ⟨a, b, d, _⟩ := LeaveVT_spec h v
      rw [ex, a, b, d, if_pos c2]
      refine ⟨?_, rfl, rfl⟩
      show (t.trace ++ [Event.CloseScreen t.drm.CloseScreen w.1]) ++ LeaveVT_calls t.drm.fd = _
      rw [List.append_assoc]; rfl
    · have ex : x = v := if_neg c
      have c2 : ¬ w.2 = true := c
      rw [ex, if_neg c2]
      exact ⟨rfl, rfl, rfl⟩
  exact ⟨rfl, hx.1, hx.2.1, rfl, hx.2.2⟩

/-- The wrapping step saves the screen's `CloseScreen` and installs the
driver's. -/
theorem ScreenInit_wrap_spec (s : State) :
    (ScreenInit_wrap s).drm.CloseScreen = s.screen.CloseScreen ∧
    (ScreenInit_wrap s).screen.CloseScreen = .armada_drm_CloseScreen :=
  ⟨rfl, rfl⟩

/-- The three ways `armada_drm_crtc_apply` ends, with the calls issued in each:
the allocation fails, `xf86CrtcRotate` fails, or the mode is set once. -/
theorem crtc_apply_cases (h : Host) (s : State) (c : Nat) (k : Option drmModeModeInfo) :
    ((armada_drm_crtc_apply h s c k).1 = false ∧
      (armada_drm_crtc_apply h s c k).2.trace = s.trace ++ [.calloc s.output.length false]) ∨
    ((armada_drm_crtc_apply h s c k).1 = false ∧
      (armada_drm_crtc_apply h s c k).2.trace
        = s.trace ++ [.calloc s.output.length true, .xf86CrtcRotate c false]) ∨
    (∃ ret fb x y,
      (armada_drm_crtc_apply h s c k).1 = decide (ret = 0) ∧
      (armada_drm_crtc_apply h s c k).2.trace = s.trace ++
        ([.calloc s.output.length true, .xf86CrtcRotate c true,
          .drmModeCrtcSetGamma (s.crtcAt c).driver_private.drm_fd
            (s.crtcAt c).driver_private.mode_crtc (s.crtcAt c).gamma_size,
          .drmModeSetCrtc (s.crtcAt c).driver_private.drm_fd
            (s.crtcAt c).driver_private.mode_crtc fb x y
            ((s.output.filter (fun o => o.crtc = some c)).map (fun o => o.connector_id))
            (some (k.getD (s.crtcAt c).driver_private.kmode)) ret]
          ++ (if ret = 0 then dpms_on_events s.output c else [])
          ++ (if (s.pScrn.pScreen && s.drm.hw_cursor) = true
                then [.xf86_reload_cursors] else [])) ∧
      (((armada_drm_crtc_apply h s c k).2.crtcAt c).driver_private.rotate_fb_id ≠ 0 →
        fb = ((armada_drm_crtc_apply h s c k).2.crtcAt c).driver_private.rotate_fb_id ∧
        x = 0 ∧ y = 0) ∧
      (((armada_drm_crtc_apply h s c k).2.crtcAt c).driver_private.rotate_fb_id = 0 →
        fb = s.drm.fb_id ∧ x = u32 (s.crtcAt c).x ∧ y = u32 (s.crtcAt c).y)) := by
  unfold armada_drm_crtc_apply
  lift_lets
  extract_lets kmode ok s1 ids rot src1 src2 s2 s3 drmc fb x y ret s4 s5 s6
  have hk : kmode = k.getD (s.crtcAt c).driver_private.kmode := by
    cases k <;> rfl
  have f1 : Frame (applyP s c) s s1 := (Frame.frame_refl _ _).frame_call _ rfl
  have f2 : Frame (applyP s c) s s2 :=
    (f1.frame_call (.xf86CrtcRotate c rot.1) (by simp [applyP, Event.fromApply])).set_rotate c rot.2
  have g2 := same_but_rotate_fields (f2.crtc c)
  by_cases hok : (!ok) = true
  · left
    simp only [if_pos hok]
    have : ok = false := by simpa using hok
    refine ⟨trivial, ?_⟩
    show s.trace ++ [.calloc s.output.length ok] = _
    rw [this]
  · right
    simp only [if_neg hok]
    have hokt : ok = true := by simpa using hok
    by_cases hr : (!rot.1) = true
    · left
      simp only [if_pos hr]
      have : rot.1 = false := by simpa using hr
      refine ⟨trivial, ?_⟩
      show (s.trace ++ [.calloc s.output.length ok]) ++ [.xf86CrtcRotate c rot.1] = _
      rw [this, hokt, List.append_assoc]; rfl
    · right
      simp only [if_neg hr]
      have hrt : rot.1 = true := by simpa using hr
      have c3 : s3.crtcAt c = s2.crtcAt c := crtcAt_congr rfl c
      have t3 : s3.trace = s.trace ++ [.calloc s.output.length true, .xf86CrtcRotate c true,
          .drmModeCrtcSetGamma (s.crtcAt c).driver_private.drm_fd
            (s.crtcAt c).driver_private.mode_crtc (s.crtcAt c).gamma_size] := by
        show ((s.trace ++ [.calloc s.output.length ok]) ++ [.xf86CrtcRotate c rot.1]) ++
          [.drmModeCrtcSetGamma (s2.crtcAt c).driver_private.drm_fd
            (s2.crtcAt c).driver_private.mode_crtc (s2.crtcAt c).gamma_size] = _
        rw [hokt, hrt, g2.2.2.2.2.2.2.2.1, g2.2.2.2.2.2.2.2.2, g2.2.2.2.2.2.1]
        simp
      have t4 : s4.trace = s.trace ++ [.calloc s.output.length true, .xf86CrtcRotate c true,
          .drmModeCrtcSetGamma (s.crtcAt c).driver_private.drm_fd
            (s.crtcAt c).driver_private.mode_crtc (s.crtcAt c).gamma_size,
          .drmModeSetCrtc (s.crtcAt c).driver_private.drm_fd
            (s.crtcAt c).driver_private.mode_crtc fb (u32 x) (u32 y)
            ((s.output.filter (fun o => o.crtc = some c)).map (fun o => o.connector_id))
            (some (k.getD (s.crtcAt c).driver_private.kmode)) ret] := by
        show s3.trace ++ [.drmModeSetCrtc (s3.crtcAt c).driver_private.drm_fd
            (s3.crtcAt c).driver_private.mode_crtc fb (u32 x) (u32 y) ids (some kmode) ret] = _
        rw [t3, c3, g2.2.2.2.2.2.2.2.1, g2.2.2.2.2.2.2.2.2, hk]
        simp
        rfl
      have t5 : s5.trace = s4.trace ++ (if ret = 0 then dpms_on_events s.output c else []) ∧
          s5.pScrn = s.pScrn ∧ s5.drm = s.drm ∧ s5.crtc = s2.crtc := by
        by_cases hret : ret ≠ 0
        · have e5 : s5 = s4.xf86DrvMsg .X_ERROR "[drm] failed to set mode on crtc %u: %s\n" :=
            if_pos hret
          rw [e5, if_neg hret]
          exact ⟨by simp, rfl, rfl, rfl⟩
        · have e5 : s5 = { s4 with trace := s4.trace ++ dpms_on_events s4.output c } :=
            if_neg hret
          rw [e5, if_pos (not_not.mp hret)]
          exact ⟨rfl, rfl, rfl, rfl⟩
      have t6 : s6.trace = s5.trace ++ (if (s.pScrn.pScreen && s.drm.hw_cursor) = true
            then [.xf86_reload_cursors] else []) ∧ s6.crtc = s2.crtc := by
        rw [← t5.2.1, ← t5.2.2.1]
        by_cases hc : (s5.pScrn.pScreen && s5.drm.hw_cursor) = true
        · have e6 : s6 = s5.call .xf86_reload_cursors := if_pos hc
          rw [e6, if_pos hc]
          exact ⟨rfl, t5.2.2.2⟩
        · have e6 : s6 = s5 := if_neg hc
          rw [e6, if_neg hc]
          exact ⟨by simp, t5.2.2.2⟩
      have c6 : s6.crtcAt c = s3.crtcAt c := crtcAt_congr t6.2 c
      refine ⟨ret, fb, u32 x, u32 y, ?_, ?_, ?_, ?_⟩
      · show (ret == 0) = decide (ret = 0)
        rfl
      · show s6.trace = _
        rw [t6.1, t5.1, t4]
        simp
      · show (s6.crtcAt c).driver_private.rotate_fb_id ≠ 0 → _
        rw [c6]
        intro hne
        have hx : x = 0 := if_pos hne
        have hy : y = 0 := if_pos hne
        rw [hx, hy]
        exact ⟨if_pos hne, rfl, rfl⟩
      · show (s6.crtcAt c).driver_private.rotate_fb_id = 0 → _
        rw [c6]
        intro he
        have hn : ¬ drmc.rotate_fb_id ≠ 0 := not_not.mpr he
        refine ⟨if_neg hn, ?_, ?_⟩
        · show u32 (if drmc.rotate_fb_id ≠ 0 then 0 else (s3.crtcAt c).x) = _
          rw [if_neg hn, c3, g2.2.2.2.1]
        · show u32 (if drmc.rotate_fb_id ≠ 0 then 0 else (s3.crtcAt c).y) = _
          rw [if_neg hn, c3, g2.2.2.2.2.1]

/-- The DPMS calls hold no `drmModeSetCrtc` and are all DPMS-on calls. -/
theorem dpms_on_events_filters (output : List xf86OutputRec) (c : Nat) :
    (dpms_on_events output c).filter Event.isSetCrtc = [] ∧
    (dpms_on_events output c).filter Event.isDpmsOn = dpms_on_events output c := by
  constructor
  · rw [List.filter_eq_nil_iff]
    intro e he
    simp only [dpms_on_events, List.mem_map] at he
    obtain ⟨p, _, rfl⟩ := he
    simp [Event.isSetCrtc]
  · rw [List.filter_eq_self]
    intro e he
    simp only [dpms_on_events, List.mem_map] at he
    obtain ⟨p, _, rfl⟩ := he
    rfl

/-- The DPMS calls are those for the outputs whose `crtc` is `c`. -/
theorem mem_dpms_on_events (output : List xf86OutputRec) (c : Nat) (e : Event) :
    e ∈ dpms_on_events output c ↔
      ∃ i o, output[i]? = some o ∧ o.crtc = some c ∧ e = .output_dpms i DPMSModeOn := by
  simp only [dpms_on_events, List.mem_map, List.mem_filter]
  constructor
  · rintro ⟨⟨i, o⟩, ⟨hm, hc⟩, rfl⟩
    exact ⟨i, o, List.mk_mem_enum_iff_getElem?.mp hm, by simpa using hc, rfl⟩
  · rintro ⟨i, o, hi, hc, rfl⟩
    exact ⟨(i, o), ⟨List.mk_mem_enum_iff_getElem?.mpr hi, by simpa using hc⟩, rfl⟩

/-- Storing through `&drmc->rotate_fb_id` changes no other field. -/
theorem store_rotate_frame {P : Event → Prop} {s t : State} (f : Frame P s t) (c : Nat)
    (st : Option Nat) : Frame P s (t.store_rotate_fb_id c st) := by
  cases st with
  | none => exact f
  | some id => exact f.set_rotate c id

/-- After an id was stored, `rotate_fb_id` of the CRTC is that id. -/
theorem store_rotate_value (s : State) (c : Nat) (id : Nat) (hc : c < s.crtc.length) :
    ((s.store_rotate_fb_id c (some id)).crtcAt c).driver_private.rotate_fb_id = id := by
  show ((s.setCrtc c _).crtcAt c).driver_private.rotate_fb_id = id
  rw [crtcAt_set_self _ _ _ hc]

/-- Storing through `&drmc->rotate_fb_id` issues no call and logs nothing. -/
theorem store_rotate_trace (s : State) (c : Nat) (st : Option Nat) :
    (s.store_rotate_fb_id c st).trace = s.trace ∧
    (s.store_rotate_fb_id c st).log = s.log := by
  cases st <;> exact ⟨rfl, rfl⟩

/-- The two ways the `drmModeAddFB` part of the shadow allocation ends. -/
theorem add_fb_cases (h : Host) (s : State) (c : Nat) (w hh : Int) (bo : drm_armada_bo) :
    Frame (fun _ => True) s (shadow_allocate_add_fb h s c w hh bo).2 ∧
    ((∃ ret st, ret ≠ 0 ∧ (shadow_allocate_add_fb h s c w hh bo).1 = none ∧
        (shadow_allocate_add_fb h s c w hh bo).2.trace = s.trace ++
          [.drmModeAddFB (s.crtcAt c).driver_private.drm_fd w hh s.pScrn.depth
            s.pScrn.bitsPerPixel bo.pitch bo.handle ret st, .drm_armada_bo_put (some bo)]) ∨
     (∃ st, (shadow_allocate_add_fb h s c w hh bo).1 = some bo ∧
        (shadow_allocate_add_fb h s c w hh bo).2.trace = s.trace ++
          [.drmModeAddFB (s.crtcAt c).driver_private.drm_fd w hh s.pScrn.depth
            s.pScrn.bitsPerPixel bo.pitch bo.handle 0 st] ∧
        (c < s.crtc.length → ∀ id, st = some id →
          ((shadow_allocate_add_fb h s c w hh bo).2.crtcAt c).driver_private.rotate_fb_id
            = id))) := by
  unfold shadow_allocate_add_fb
  lift_lets
  extract_lets drmc add s1
  have f1 : Frame (fun _ => True) s s1 :=
    store_rotate_frame ((Frame.frame_refl _ s).frame_call _ trivial) c add.2
  have t1 : s1.trace = s.trace ++ [.drmModeAddFB drmc.drm_fd w hh s.pScrn.depth
      s.pScrn.bitsPerPixel bo.pitch bo.handle add.1 add.2] :=
    (store_rotate_trace _ c add.2).1
  by_cases hr : add.1 ≠ 0
  · simp only [if_pos hr]
    refine ⟨(f1.frame_msg _ _).frame_call _ trivial, Or.inl ⟨add.1, add.2, hr, trivial, ?_⟩⟩
    show s1.trace ++ [.drm_armada_bo_put (some bo)] = _
    rw [t1, List.append_assoc]; rfl
  · simp only [if_neg hr]
    have h0 : add.1 = 0 := not_not.mp hr
    refine ⟨f1, Or.inr ⟨add.2, trivial, ?_, ?_⟩⟩
    · show s1.trace = _
      rw [t1, h0]
    · intro hc id hid
      show (((s.call _).store_rotate_fb_id c add.2).crtcAt c).driver_private.rotate_fb_id = id
      rw [hid]
      exact store_rotate_value _ c id hc

/-- The four ways `armada_drm_crtc_shadow_allocate` ends, with the calls issued
in each. -/
theorem shadow_allocate_cases (h : Host) (s : State) (c : Nat) (w hh : Int) :
    Frame (fun _ => True) s (armada_drm_crtc_shadow_allocate h s c w hh).2 ∧
    (((armada_drm_crtc_shadow_allocate h s c w hh).1 = none ∧
      (armada_drm_crtc_shadow_allocate h s c w hh).2.trace = s.trace ++
        [.drm_armada_bo_dumb_create w hh s.pScrn.bitsPerPixel none]) ∨
     (∃ bo ret, (armada_drm_crtc_shadow_allocate h s c w hh).1 = none ∧
      (armada_drm_crtc_shadow_allocate h s c w hh).2.trace = s.trace ++
        [.drm_armada_bo_dumb_create w hh s.pScrn.bitsPerPixel (some bo),
          .drm_armada_bo_map bo ret, .drm_armada_bo_put (some bo)]) ∨
     (∃ bo ret st, ret ≠ 0 ∧ (armada_drm_crtc_shadow_allocate h s c w hh).1 = none ∧
      (armada_drm_crtc_shadow_allocate h s c w hh).2.trace = s.trace ++
        [.drm_armada_bo_dumb_create w hh s.pScrn.bitsPerPixel (some bo),
          .drm_armada_bo_map bo 0,
          .drmModeAddFB (s.crtcAt c).driver_private.drm_fd w hh s.pScrn.depth
            s.pScrn.bitsPerPixel bo.pitch bo.handle ret st,
          .drm_armada_bo_put (some bo)]) ∨
     (∃ bo st, (armada_drm_crtc_shadow_allocate h s c w hh).1 = some bo ∧
      (armada_drm_crtc_shadow_allocate h s c w hh).2.trace = s.trace ++
        [.drm_armada_bo_dumb_create w hh s.pScrn.bitsPerPixel (some bo),
          .drm_armada_bo_map bo 0,
          .drmModeAddFB (s.crtcAt c).driver_private.drm_fd w hh s.pScrn.depth
            s.pScrn.bitsPerPixel bo.pitch bo.handle 0 st] ∧
      (c < s.crtc.length → ∀ id, st = some id →
        ((armada_drm_crtc_shadow_allocate h s c w hh).2.crtcAt c).driver_private.rotate_fb_id
          = id))) := by
  unfold armada_drm_crtc_shadow_allocate
  rcases alloc_cases h s w hh s.pScrn.bitsPerPixel with ⟨_, he⟩ | ⟨bo, ret, _, _, he⟩ |
    ⟨bo, _, he⟩
  · rw [he]
    dsimp only
    exact ⟨((Frame.frame_refl _ s).frame_call _ trivial).frame_msg _ _ |>.frame_msg _ _,
      Or.inl ⟨rfl, rfl⟩⟩
  · rw [he]
    dsimp only
    refine ⟨((((Frame.frame_refl _ s).frame_call _ trivial).frame_call _ trivial).frame_msg _ _
      |>.frame_call _ trivial).frame_msg _ _, Or.inr (Or.inl ⟨bo, ret, rfl, ?_⟩)⟩
    simp [State.call, State.xf86DrvMsg]
  · rw [he]
    dsimp only
    have f0 : Frame (fun _ => True) s ((s.call (.drm_armada_bo_dumb_create w hh
        s.pScrn.bitsPerPixel (some bo))).call (.drm_armada_bo_map bo 0)) :=
      ((Frame.frame_refl _ s).frame_call _ trivial).frame_call _ trivial
    obtain ⟨f1, hcases⟩ := add_fb_cases h ((s.call (.drm_armada_bo_dumb_create w hh
        s.pScrn.bitsPerPixel (some bo))).call (.drm_armada_bo_map bo 0)) c w hh bo
    refine ⟨f0.frame_trans f1, Or.inr (Or.inr ?_)⟩
    rcases hcases with ⟨ret, st, hr, h1, ht⟩ | ⟨st, h1, ht, hid⟩
    · refine Or.inl ⟨bo, ret, st, hr, h1, ?_⟩
      rw [ht]
      simp [State.call, State.crtcAt]
    · refine Or.inr ⟨bo, st, h1, ?_, ?_⟩
      · rw [ht]
        simp [State.call, State.crtcAt]
      · intro hc id hst
        exact hid hc id hst

/-- When `armada_drm_crtc_shadow_allocate` returns NULL every buffer created
during the call was released, and no `drmModeAddFB` call succeeded. -/
theorem shadow_allocate_releases (h : Host) (s : State) (c : Nat) (w hh : Int)
    (hn : (armada_drm_crtc_shadow_allocate h s c w hh).1 = none) :
    (∀ w1 h1 b1 bo, Event.drm_armada_bo_dumb_create w1 h1 b1 (some bo)
        ∈ issued s.toServer (armada_drm_crtc_shadow_allocate h s c w hh).2.toServer →
      Event.drm_armada_bo_put (some bo)
        ∈ issued s.toServer (armada_drm_crtc_shadow_allocate h s c w hh).2.toServer) ∧
    (∀ fd w1 h1 d1 b1 p1 hd ret st, Event.drmModeAddFB fd w1 h1 d1 b1 p1 hd ret st
        ∈ issued s.toServer (armada_drm_crtc_shadow_allocate h s c w hh).2.toServer →
      ret ≠ 0) := by
  rcases (shadow_allocate_cases h s c w hh).2 with ⟨_, ht⟩ | ⟨bo, ret, _, ht⟩ |
    ⟨bo, ret, st, hr, _, ht⟩ | ⟨bo, st, h1, _, _⟩
  · rw [issued_append _ _ _ ht]; simp
  · rw [issued_append _ _ _ ht]; simp
  · rw [issued_append _ _ _ ht]
    constructor
    · simp
    · intro fd w1 h1 d1 b1 p1 hd ret1 st1 hm
      simp only [List.mem_cons, List.mem_singleton, Event.drmModeAddFB.injEq, false_or,
        or_false, reduceCtorEq, List.not_mem_nil] at hm
      rw [hm.2.2.2.2.2.2.2.1]; exact hr
  · rw [hn] at h1; exact absurd h1 (by simp)

/-- When `armada_drm_crtc_shadow_create` is given NULL data and returns NULL,
either the internal allocation failed, or it succeeded and the only further
call is the failed `GetScratchPixmapHeader`. -/
theorem shadow_create_null_cases (h : Host) (s : State) (c : Nat) (w hh : Int)
    (hn : (armada_drm_crtc_shadow_create h s c none w hh).1 = none) :
    ((armada_drm_crtc_shadow_allocate h s c w hh).1 = none ∧
      (armada_drm_crtc_shadow_create h s c none w hh).2.trace
        = (armada_drm_crtc_shadow_allocate h s c w hh).2.trace) ∨
    (∃ bo, (armada_drm_crtc_shadow_allocate h s c w hh).1 = some bo ∧
      (armada_drm_crtc_shadow_create h s c none w hh).2.trace
        = (armada_drm_crtc_shadow_allocate h s c w hh).2.trace ++
          [.GetScratchPixmapHeader w hh s.pScrn.depth s.pScrn.bitsPerPixel bo.pitch none] ∧
      (armada_drm_crtc_shadow_create h s c none w hh).2.crtc
        = (armada_drm_crtc_shadow_allocate h s c w hh).2.crtc) := by
  have fa := (shadow_allocate_cases h s c w hh).1
  unfold armada_drm_crtc_shadow_create at hn ⊢
  dsimp only at hn ⊢
  cases ha : (armada_drm_crtc_shadow_allocate h s c w hh).1 with
  | none =>
    left
    simp only [ha]
    exact ⟨trivial, rfl⟩
  | some bo =>
    right
    simp only [ha] at hn ⊢
    unfold shadow_create_pixmap at hn ⊢
    dsimp only at hn ⊢
    cases hp : h.GetScratchPixmapHeader (armada_drm_crtc_shadow_allocate h s c w hh).2.trace with
    | none =>
      simp only [hp]
      refine ⟨bo, rfl, ?_, rfl⟩
      show _ ++ [Event.GetScratchPixmapHeader w hh
        (armada_drm_crtc_shadow_allocate h s c w hh).2.pScrn.depth
        (armada_drm_crtc_shadow_allocate h s c w hh).2.pScrn.bitsPerPixel bo.pitch none] = _
      rw [fa.pScrn]
    | some p =>
      simp only [hp] at hn
      exact absurd hn (by simp)

/-- What `armada_drm_crtc_apply` issued, read off its calls: the result is TRUE
exactly when a `drmModeSetCrtc` that returned 0 is among them, FALSE exactly
when the allocation, the rotation or the `drmModeSetCrtc` is recorded as
failed, and any `drmModeSetCrtc` carries the CRTC's ids, outputs, the mode and
the selected scan-out source. -/
theorem crtc_apply_outcome (h : Host) (s : State) (c : Nat) (k : Option drmModeModeInfo) :
    ∃ evs, (armada_drm_crtc_apply h s c k).2.trace = s.trace ++ evs ∧
      (∀ e ∈ evs, applyP s c e) ∧
      (evs.filter Event.isSetCrtc).length ≤ 1 ∧
      ((armada_drm_crtc_apply h s c k).1 = true ↔
        ∃ fb x y, Event.drmModeSetCrtc (s.crtcAt c).driver_private.drm_fd
          (s.crtcAt c).driver_private.mode_crtc fb x y
          ((s.output.filter (fun o => o.crtc = some c)).map (fun o => o.connector_id))
          (some (k.getD (s.crtcAt c).driver_private.kmode)) 0 ∈ evs) ∧
      ((armada_drm_crtc_apply h s c k).1 = false ↔
        (Event.calloc s.output.length false ∈ evs ∨ Event.xf86CrtcRotate c false ∈ evs ∨
          ∃ fb x y ret, ret ≠ 0 ∧ Event.drmModeSetCrtc (s.crtcAt c).driver_private.drm_fd
            (s.crtcAt c).driver_private.mode_crtc fb x y
            ((s.output.filter (fun o => o.crtc = some c)).map (fun o => o.connector_id))
            (some (k.getD (s.crtcAt c).driver_private.kmode)) ret ∈ evs)) ∧
      (∀ fd id fb x y ids m ret, Event.drmModeSetCrtc fd id fb x y ids m ret ∈ evs →
        fd = (s.crtcAt c).driver_private.drm_fd ∧
        id = (s.crtcAt c).driver_private.mode_crtc ∧
        ids = (s.output.filter (fun o => o.crtc = some c)).map (fun o => o.connector_id) ∧
        m = some (k.getD (s.crtcAt c).driver_private.kmode) ∧
        (((armada_drm_crtc_apply h s c k).2.crtcAt c).driver_private.rotate_fb_id ≠ 0 →
          fb = ((armada_drm_crtc_apply h s c k).2.crtcAt c).driver_private.rotate_fb_id ∧
          x = 0 ∧ y = 0) ∧
        (((armada_drm_crtc_apply h s c k).2.crtcAt c).driver_private.rotate_fb_id = 0 →
          fb = s.drm.fb_id ∧ x = u32 (s.crtcAt c).x ∧ y = u32 (s.crtcAt c).y)) := by
  obtain ⟨fevs, hft, hfp⟩ := (crtc_apply_frame h s c k).trace
  have d := dpms_on_events_filters s.output c
  rcases crtc_apply_cases h s c k with ⟨h1, ht⟩ | ⟨h1, ht⟩ | ⟨ret, fb, x, y, h1, ht, s1, s2⟩
  · have he := List.append_cancel_left (hft.symm.trans ht)
    refine ⟨_, ht, he ▸ hfp, by simp [Event.isSetCrtc], ?_, ?_, ?_⟩
    · rw [h1]; simp
    · rw [h1]; simp
    · intro fd id fb x y ids m ret hm
      simp at hm
  · have he := List.append_cancel_left (hft.symm.trans ht)
    refine ⟨_, ht, he ▸ hfp, by simp [Event.isSetCrtc], ?_, ?_, ?_⟩
    · rw [h1]; simp
    · rw [h1]; simp
    · intro fd id fb x y ids m ret hm
      simp at hm
  · have he := List.append_cancel_left (hft.symm.trans ht)
    have e1 : (if ret = 0 then dpms_on_events s.output c else []).filter Event.isSetCrtc
        = [] := by
      split_ifs
      · exact d.1
      · rfl
    have e2 : (if (s.pScrn.pScreen && s.drm.hw_cursor) = true
        then [Event.xf86_reload_cursors] else []).filter Event.isSetCrtc = [] := by
      split_ifs <;> rfl
    have hfil : ∀ l1 l2 : List Event, l1.filter Event.isSetCrtc = [] →
        l2.filter Event.isSetCrtc = [] →
        ([Event.calloc s.output.length true, Event.xf86CrtcRotate c true,
          Event.drmModeCrtcSetGamma (s.crtcAt c).driver_private.drm_fd
            (s.crtcAt c).driver_private.mode_crtc (s.crtcAt c).gamma_size,
          Event.drmModeSetCrtc (s.crtcAt c).driver_private.drm_fd
            (s.crtcAt c).driver_private.mode_crtc fb x y
            ((s.output.filter (fun o => o.crtc = some c)).map (fun o => o.connector_id))
            (some (k.getD (s.crtcAt c).driver_private.kmode)) ret] ++ l1 ++ l2).filter
          Event.isSetCrtc
        = [Event.drmModeSetCrtc (s.crtcAt c).driver_private.drm_fd
            (s.crtcAt c).driver_private.mode_crtc fb x y
            ((s.output.filter (fun o => o.crtc = some c)).map (fun o => o.connector_id))
            (some (k.getD (s.crtcAt c).driver_private.kmode)) ret] := by
      intro l1 l2 a1 a2
      rw [List.filter_append, List.filter_append, a1, a2]
      rfl
    have hset : ∀ e, e ∈ ([Event.calloc s.output.length true, Event.xf86CrtcRotate c true,
          Event.drmModeCrtcSetGamma (s.crtcAt c).driver_private.drm_fd
            (s.crtcAt c).driver_private.mode_crtc (s.crtcAt c).gamma_size,
          Event.drmModeSetCrtc (s.crtcAt c).driver_private.drm_fd
            (s.crtcAt c).driver_private.mode_crtc fb x y
            ((s.output.filter (fun o => o.crtc = some c)).map (fun o => o.connector_id))
            (some (k.getD (s.crtcAt c).driver_private.kmode)) ret]
          ++ (if ret = 0 then dpms_on_events s.output c else [])
          ++ (if (s.pScrn.pScreen && s.drm.hw_cursor) = true
                then [Event.xf86_reload_cursors] else [])) →
        e.isSetCrtc = true →
        e = Event.drmModeSetCrtc (s.crtcAt c).driver_private.drm_fd
            (s.crtcAt c).driver_private.mode_crtc fb x y
            ((s.output.filter (fun o => o.crtc = some c)).map (fun o => o.connector_id))
            (some (k.getD (s.crtcAt c).driver_private.kmode)) ret := by
      intro e he1 he2
      have hm2 := List.mem_filter.mpr ⟨he1, he2⟩
      rw [hfil _ _ e1 e2] at hm2
      exact List.mem_singleton.mp hm2
    refine ⟨_, ht, he ▸ hfp, by rw [hfil _ _ e1 e2]; simp, ?_, ?_, ?_⟩
    · rw [h1]
      constructor
      · intro hr
        have hr0 : ret = 0 := by simpa using hr
        subst hr0
        exact ⟨fb, x, y, by simp⟩
      · rintro ⟨fb1, x1, y1, hm⟩
        have := hset _ hm (by rfl)
        simp only [Event.drmModeSetCrtc.injEq] at this
        simp [← this.2.2.2.2.2.2.2]
    · rw [h1]
      constructor
      · intro hr
        have hr0 : ret ≠ 0 := by simpa using hr
        exact Or.inr (Or.inr ⟨fb, x, y, ret, hr0, by simp⟩)
      · rintro (hm | hm | ⟨fb1, x1, y1, ret1, hne, hm⟩)
        · split_ifs at hm <;> simp [mem_dpms_on_events] at hm
        · split_ifs at hm <;> simp [mem_dpms_on_events] at hm
        · have := hset _ hm (by rfl)
          simp only [Event.drmModeSetCrtc.injEq] at this
          rw [this.2.2.2.2.2.2.2] at hne
          simpa using hne
    · intro fd1 id1 fb1 x1 y1 ids1 m1 ret1 hm
      have := hset _ hm (by rfl)
      simp only [Event.drmModeSetCrtc.injEq] at this
      obtain ⟨rfl, rfl, rfl, rfl, rfl, rfl, rfl, rfl⟩ := this
      exact ⟨rfl, rfl, rfl, rfl, s1, s2⟩

/-- No call of `armada_drm_crtc_apply` is a `drmModeAddFB`. -/
theorem fromApply_not_addfb (c : Nat) (fd : Int) (id : Nat) (e : Event)
    (he : e.fromApply c fd id = true) : e.isAddFB = false := by
  cases e <;> simp [Event.fromApply, Event.isAddFB] at he ⊢

/-- A `drmModeAddFB` call is no `drmModeSetCrtc`. -/
theorem isAddFB_not_setcrtc (e : Event) (he : e.isAddFB = true) : e.isSetCrtc = false := by
  cases e <;> simp [Event.isSetCrtc, Event.isAddFB] at he ⊢

/-- The second part of `armada_drm_crtc_set_mode_major`, entered in `s1` after
the calls `pre` that hold no CRTC call: the record and the result follow
`armada_drm_crtc_apply` on the CRTC with the requested fields. -/
theorem set_mode_major_apply_spec (h : Host) (s s1 : State) (c : Nat) (mode : DisplayModeRec)
    (rotation : Nat) (x y : Int) (pre : List Event) (hc : c < s.crtc.length)
    (hcrtc : s1.crtc = s.crtc) (hout : s1.output = s.output)
    (htr : s1.trace = s.trace ++ pre)
    (hpre : ∀ e ∈ pre, e.isAddFB = true ∧
      ∀ fd w1 h1 d1 b1 p1 hd ret st, e = .drmModeAddFB fd w1 h1 d1 b1 p1 hd ret st → ¬ ret < 0)
    (hadd : ¬ (s.drm.fb_id = 0 ∧ (h.drmModeAddFB s.trace).1 < 0)) :
    SetModeOutcome h s c mode rotation x y (set_mode_major_apply h s1 c mode rotation x y) := by
  unfold set_mode_major_apply
  lift_lets
  extract_lets saved s2 kmode r
  have hc1 : c < s1.crtc.length := by rw [hcrtc]; exact hc
  have hsaved : saved = s.crtcAt c := crtcAt_congr hcrtc c
  have hs2 : s2.crtcAt c = { saved with mode := mode, x := x, y := y, rotation := rotation } :=
    crtcAt_set_self s1 c _ hc1
  have hf : Frame (applyP s2 c) s2 r.2 := crtc_apply_frame h s2 c (some kmode)
  have hlen : c < r.2.crtc.length := by
    rw [hf.length]
    show c < (s1.crtc.set c _).length
    simpa using hc1
  have hfields := same_but_rotate_fields (hf.crtc c)
  rw [hs2] at hfields
  obtain ⟨_, hmode, hrot, hx, hy, _, hk, _, _⟩ := hfields
  obtain ⟨evs, ht, hP, hcount, htrue, hfalse, hsel⟩ := crtc_apply_outcome h s2 c (some kmode)
  have hfd : (s2.crtcAt c).driver_private.drm_fd = (s.crtcAt c).driver_private.drm_fd := by
    rw [hs2, hsaved]
  have hid : (s2.crtcAt c).driver_private.mode_crtc = (s.crtcAt c).driver_private.mode_crtc := by
    rw [hs2, hsaved]
  have hx2 : (s2.crtcAt c).x = x := by rw [hs2]
  have hy2 : (s2.crtcAt c).y = y := by rw [hs2]
  have ho2 : s2.output = s.output := hout
  have hkm : (some kmode).getD (s2.crtcAt c).driver_private.kmode
      = drmmode_ConvertToKMode mode := rfl
  rw [hfd, hid, ho2, hkm] at htrue hfalse
  have hsel2 : ∀ fd id fb x1 y1 ids m ret, Event.drmModeSetCrtc fd id fb x1 y1 ids m ret ∈ evs →
      fd = (s.crtcAt c).driver_private.drm_fd ∧ id = (s.crtcAt c).driver_private.mode_crtc ∧
      ids = (s.output.filter (fun o => o.crtc = some c)).map (fun o => o.connector_id) ∧
      m = some (drmmode_ConvertToKMode mode) ∧
      ((r.2.crtcAt c).driver_private.rotate_fb_id ≠ 0 →
        fb = (r.2.crtcAt c).driver_private.rotate_fb_id ∧ x1 = 0 ∧ y1 = 0) ∧
      ((r.2.crtcAt c).driver_private.rotate_fb_id = 0 →
        fb = r.2.drm.fb_id ∧ x1 = u32 x ∧ y1 = u32 y) := by
    intro fd id fb x1 y1 ids m ret hm
    have := hsel fd id fb x1 y1 ids m ret hm
    rw [hfd, hid, ho2, hkm, hx2, hy2] at this
    rw [hf.drm]
    exact this
  have httr : r.2.trace = s.trace ++ (pre ++ evs) := by
    rw [ht, show s2.trace = s1.trace from rfl, htr, List.append_assoc]
  have hnoadd : ∀ e ∈ evs, e.isAddFB = false := by
    intro e he
    exact fromApply_not_addfb _ _ _ e (hP e he)
  have hpre1 : pre.filter Event.isSetCrtc = [] := by
    rw [List.filter_eq_nil_iff]
    intro e he
    simp [isAddFB_not_setcrtc e (hpre e he).1]
  have hmem : ∀ e : Event, e.isAddFB = false → (e ∈ pre ++ evs ↔ e ∈ evs) := by
    intro e hne
    rw [List.mem_append]
    constructor
    · rintro (hp | hp)
      · have := (hpre e hp).1
        rw [hne] at this
        exact absurd this (by simp)
      · exact hp
    · exact Or.inr
  have main : ∀ F : State, F.trace = r.2.trace → F.drm = r.2.drm →
      (F.crtcAt c).driver_private.rotate_fb_id = (r.2.crtcAt c).driver_private.rotate_fb_id →
      ∀ b : Bool, b = r.1 →
      (b = false →
        (F.crtcAt c).mode = (s.crtcAt c).mode ∧ (F.crtcAt c).x = (s.crtcAt c).x ∧
        (F.crtcAt c).y = (s.crtcAt c).y ∧ (F.crtcAt c).rotation = (s.crtcAt c).rotation ∧
        (F.crtcAt c).driver_private.kmode = (s.crtcAt c).driver_private.kmode) →
      (b = true →
        (F.crtcAt c).mode = mode ∧ (F.crtcAt c).x = x ∧ (F.crtcAt c).y = y ∧
        (F.crtcAt c).rotation = rotation ∧
        (F.crtcAt c).driver_private.kmode = drmmode_ConvertToKMode mode) →
      SetModeOutcome h s c mode rotation x y (b, F) := by
    intro F hFt hFd hFr b hb h1 h2
    have hiss : issued s.toServer F.toServer = pre ++ evs :=
      issued_append _ _ _ (hFt.trans httr)
    unfold SetModeOutcome
    rw [hiss]
    refine ⟨h1, h2, fun ha => absurd ha hadd, ?_, ?_, ?_, ?_⟩
    · show b = true ↔ _
      rw [hb, htrue]
      constructor
      · rintro ⟨fb, x1, y1, hm⟩
        exact ⟨fb, x1, y1, (hmem _ (by rfl)).mpr hm⟩
      · rintro ⟨fb, x1, y1, hm⟩
        exact ⟨fb, x1, y1, (hmem _ (by rfl)).mp hm⟩
    · show b = false ↔ _
      rw [hb, hfalse]
      constructor
      · rintro (hm | hm | ⟨fb, x1, y1, ret, hne, hm⟩)
        · exact Or.inr (Or.inl ((hmem _ (by rfl)).mpr hm))
        · exact Or.inr (Or.inr (Or.inl ((hmem _ (by rfl)).mpr hm)))
        · exact Or.inr (Or.inr (Or.inr ⟨fb, x1, y1, ret, hne, (hmem _ (by rfl)).mpr hm⟩))
      · rintro (⟨fd, w1, h1', d1, b1, p1, hd, ret, st, hlt, hm⟩ | hm | hm |
          ⟨fb, x1, y1, ret, hne, hm⟩)
        · rcases List.mem_append.mp hm with hp | hp
          · exact absurd hlt ((hpre _ hp).2 _ _ _ _ _ _ _ _ _ rfl)
          · have := hnoadd _ hp
            exact absurd this (by simp [Event.isAddFB])
        · exact Or.inl ((hmem _ (by rfl)).mp hm)
        · exact Or.inr (Or.inl ((hmem _ (by rfl)).mp hm))
        · exact Or.inr (Or.inr ⟨fb, x1, y1, ret, hne, (hmem _ (by rfl)).mp hm⟩)
    · rw [List.filter_append, hpre1]
      exact hcount
    · intro fd id fb x1 y1 ids m ret hm
      have := hsel2 fd id fb x1 y1 ids m ret ((hmem _ (by rfl)).mp hm)
      show _ ∧ _ ∧ _ ∧ _ ∧ ((F.crtcAt c).driver_private.rotate_fb_id ≠ 0 → _) ∧
        ((F.crtcAt c).driver_private.rotate_fb_id = 0 → fb = F.drm.fb_id ∧ _)
      rw [hFr, hFd]
      exact this
  by_cases hr : (!r.1) = true
  · simp only [if_pos hr]
    have hr0 : r.1 = false := by simpa using hr
    refine main _ (by rfl) (by rfl) ?_ false hr0.symm ?_ (fun hb => absurd hb (by simp))
    · rw [crtcAt_set_self _ c _ hlen]
    · intro _
      rw [crtcAt_set_self _ c _ hlen]
      refine ⟨hsaved ▸ rfl, hsaved ▸ rfl, hsaved ▸ rfl, hsaved ▸ rfl, ?_⟩
      show (r.2.crtcAt c).driver_private.kmode = _
      rw [hk, hsaved]
  · simp only [if_neg hr]
    have hr1 : r.1 = true := by simpa using hr
    refine main _ (by rfl) (by rfl) ?_ true hr1.symm (fun hb => absurd hb (by simp)) ?_
    · rw [crtcAt_set_self _ c _ hlen]
    · intro _
      rw [crtcAt_set_self _ c _ hlen]
      exact ⟨hmode, hx, hy, hrot, rfl⟩

/-- Storing through `&drm->fb_id` leaves the CRTC and output records alone. -/
theorem store_fb_id_fields (s : State) (b : Option Nat) :
    (s.store_fb_id b).crtc = s.crtc ∧ (s.store_fb_id b).output = s.output := by
  cases b <;> exact ⟨rfl, rfl⟩

/-- The branch of `armada_drm_crtc_set_mode_major` that first adds the screen
framebuffer. -/
theorem set_mode_major_add_fb_spec (h : Host) (s : State) (c : Nat) (bo : drm_armada_bo)
    (mode : DisplayModeRec) (rotation : Nat) (x y : Int) (hc : c < s.crtc.length) :
    SetModeOutcome h s c mode rotation x y
      (set_mode_major_add_fb h s c bo mode rotation x y) := by
  unfold set_mode_major_add_fb
  lift_lets
  extract_lets drmc add s1
  have hcr : s1.crtc = s.crtc := (store_fb_id_fields _ _).1
  have hout : s1.output = s.output := (store_fb_id_fields _ _).2
  have htr : s1.trace = s.trace ++ [.drmModeAddFB drmc.drm_fd s.pScrn.virtualX s.pScrn.virtualY
      s.pScrn.depth s.pScrn.bitsPerPixel bo.pitch bo.handle add.1 add.2] := by
    show ((s.call _).store_fb_id add.2).trace = _
    rw [State.store_fb_id_trace]; rfl
  by_cases hlt : add.1 < 0
  · simp only [if_pos hlt]
    have hiss : issued s.toServer
        (s1.xf86DrvMsg .X_ERROR "[drm] failed to add fb: %s\n").toServer
        = [.drmModeAddFB drmc.drm_fd s.pScrn.virtualX s.pScrn.virtualY
            s.pScrn.depth s.pScrn.bitsPerPixel bo.pitch bo.handle add.1 add.2] :=
      issued_append _ _ _ htr
    have hat : (s1.xf86DrvMsg .X_ERROR "[drm] failed to add fb: %s\n").crtcAt c = s.crtcAt c :=
      crtcAt_congr hcr c
    unfold SetModeOutcome
    rw [hiss]
    refine ⟨fun _ => ?_, fun hb => absurd hb (by simp), fun _ => ⟨rfl, rfl⟩, ?_, ?_, by simp [Event.isSetCrtc], ?_⟩
    · show (_ : xf86CrtcRec).mode = _ ∧ _
      rw [hat]
      exact ⟨rfl, rfl, rfl, rfl, rfl⟩
    · simp
    · simp only [true_iff]
      exact Or.inl ⟨_, _, _, _, _, _, _, _, _, hlt, List.mem_singleton.mpr rfl⟩
    · intro fd id fb x1 y1 ids m ret hm
      simp at hm
  · simp only [if_neg hlt]
    refine set_mode_major_apply_spec h s s1 c mode rotation x y _ hc hcr hout htr ?_
      (fun ha => hlt ha.2)
    intro e he
    rw [List.mem_singleton] at he
    subst he
    refine ⟨rfl, ?_⟩
    intro fd w1 h1 d1 b1 p1 hd ret st heq
    simp only [Event.drmModeAddFB.injEq] at heq
    rw [← heq.2.2.2.2.2.2.2.1]
    exact hlt

/-- When `drmModeAddFB` returned 0 a result of `resize_with_bo` is TRUE. -/
theorem resize_with_bo_true (h : Host) (s : State) (width height : Int) (bo : drm_armada_bo)
    (hadd : (h.drmModeAddFB s.trace).1 = 0) :
    ∀ r, resize_with_bo h s width height bo = some r → r.1 = true := by
  unfold resize_with_bo
  lift_lets
  intro old add s1 r hr
  have h0 : ¬ add.1 ≠ 0 := not_not.mpr hadd
  rw [if_neg h0] at hr
  by_cases hc : s1.drm.cpp = 0
  · rw [if_pos hc] at hr; exact absurd hr (by simp)
  · rw [if_neg hc] at hr
    rw [← Option.some.inj hr]

/-- The failure path of `resize_with_bo`. -/
theorem resize_with_bo_fail (h : Host) (s : State) (width height : Int) (bo : drm_armada_bo)
    (hadd : (h.drmModeAddFB s.trace).1 ≠ 0) :
    resize_with_bo h s width height bo =
      some (false, (((s.call (.drmModeAddFB s.drm.fd width height s.pScrn.depth
        s.pScrn.bitsPerPixel
        bo.pitch bo.handle (h.drmModeAddFB s.trace).1 (h.drmModeAddFB s.trace).2)).store_fb_id
          (h.drmModeAddFB s.trace).2).xf86DrvMsg .X_ERROR "[drm] failed to add fb: %s\n").call
            (.drm_armada_bo_put (some bo))) := by
  unfold resize_with_bo
  simp [hadd]

/-- The ways `udev_init_monitor` ends: the filter fails, the enabling fails,
or the monitor is installed and the handler registered. -/
theorem udev_init_monitor_cases (h : Host) (s : State) (udev mon : Nat) :
    (∃ r1, r1 ≠ 0 ∧ (udev_init_monitor h s udev mon).1 = false ∧
      (udev_init_monitor h s udev mon).2.trace = s.trace ++
        [.udev_monitor_filter_add_match_subsystem_devtype mon r1, .udev_monitor_unref mon,
          .udev_unref udev] ∧
      (udev_init_monitor h s udev mon).2.drm = s.drm ∧
      (udev_init_monitor h s udev mon).2.log = s.log) ∨
    (∃ r2, r2 ≠ 0 ∧ (udev_init_monitor h s udev mon).1 = false ∧
      (udev_init_monitor h s udev mon).2.trace = s.trace ++
        [.udev_monitor_filter_add_match_subsystem_devtype mon 0,
          .udev_monitor_enable_receiving mon r2, .udev_monitor_unref mon, .udev_unref udev] ∧
      (udev_init_monitor h s udev mon).2.drm = s.drm ∧
      (udev_init_monitor h s udev mon).2.log = s.log) ∨
    (∃ mfd hd, (udev_init_monitor h s udev mon).1 = true ∧
      (udev_init_monitor h s udev mon).2.trace = s.trace ++
        [.udev_monitor_filter_add_match_subsystem_devtype mon 0,
          .udev_monitor_enable_receiving mon 0, .udev_monitor_get_fd mon mfd,
          .xf86AddGeneralHandler mfd hd] ∧
      (udev_init_monitor h s udev mon).2.drm
        = { s.drm with udev_monitor := some mon, udev_handler := hd } ∧
      (udev_init_monitor h s udev mon).2.log = s.log) := by
  unfold udev_init_monitor
  lift_lets
  extract_lets r1 s1 r2 s2 src s3 fd s4 handler
  intro s5 src2 src3
  by_cases h1 : r1 ≠ 0
  · rw [if_pos h1]
    exact Or.inl ⟨r1, h1, rfl, by simp [s1, State.call], rfl, rfl⟩
  · rw [if_neg h1]
    have h1z : r1 = 0 := not_not.1 h1
    by_cases h2 : r2 ≠ 0
    · rw [if_pos h2]
      refine Or.inr (Or.inl ⟨r2, h2, rfl, ?_, rfl, rfl⟩)
      show (s.trace ++ [Event.udev_monitor_filter_add_match_subsystem_devtype mon r1] ++
        [Event.udev_monitor_enable_receiving mon r2] ++ [Event.udev_monitor_unref mon]) ++
        [Event.udev_unref udev] = _
      rw [h1z]; simp
    · rw [if_neg h2]
      have h2z : r2 = 0 := not_not.1 h2
      refine Or.inr (Or.inr ⟨fd, handler, rfl, ?_, rfl, rfl⟩)
      show (s.trace ++ [Event.udev_monitor_filter_add_match_subsystem_devtype mon r1] ++
        [Event.udev_monitor_enable_receiving mon r2] ++ [Event.udev_monitor_get_fd mon fd]) ++
        [Event.xf86AddGeneralHandler fd handler] = _
      rw [h1z, h2z]; simp

/-- The ways `udev_init_connect` ends. -/
theorem udev_init_connect_cases (h : Host) (s : State) :
    ((udev_init_connect h s).1 = false ∧
      (udev_init_connect h s).2.trace = s.trace ++ [.udev_new none] ∧
      (udev_init_connect h s).2.drm = s.drm ∧ (udev_init_connect h s).2.log = s.log) ∨
    (∃ u, (udev_init_connect h s).1 = false ∧
      (udev_init_connect h s).2.trace = s.trace ++
        [.udev_new (some u), .udev_monitor_new_from_netlink u none, .udev_unref u] ∧
      (udev_init_connect h s).2.drm = s.drm ∧ (udev_init_connect h s).2.log = s.log) ∨
    (∃ u m r1, r1 ≠ 0 ∧ (udev_init_connect h s).1 = false ∧
      (udev_init_connect h s).2.trace = s.trace ++
        [.udev_new (some u), .udev_monitor_new_from_netlink u (some m),
          .udev_monitor_filter_add_match_subsystem_devtype m r1, .udev_monitor_unref m,
          .udev_unref u] ∧
      (udev_init_connect h s).2.drm = s.drm ∧ (udev_init_connect h s).2.log = s.log) ∨
    (∃ u m r2, r2 ≠ 0 ∧ (udev_init_connect h s).1 = false ∧
      (udev_init_connect h s).2.trace = s.trace ++
        [.udev_new (some u), .udev_monitor_new_from_netlink u (some m),
          .udev_monitor_filter_add_match_subsystem_devtype m 0,
          .udev_monitor_enable_receiving m r2, .udev_monitor_unref m, .udev_unref u] ∧
      (udev_init_connect h s).2.drm = s.drm ∧ (udev_init_connect h s).2.log = s.log) ∨
    (∃ u m mfd hd, (udev_init_connect h s).1 = true ∧
      (udev_init_connect h s).2.trace = s.trace ++
        [.udev_new (some u), .udev_monitor_new_from_netlink u (some m),
          .udev_monitor_filter_add_match_subsystem_devtype m 0,
          .udev_monitor_enable_receiving m 0, .udev_monitor_get_fd m mfd,
          .xf86AddGeneralHandler mfd hd] ∧
      (udev_init_connect h s).2.drm
        = { s.drm with udev_monitor := some m, udev_handler := hd } ∧
      (udev_init_connect h s).2.log = s.log) := by
  unfold udev_init_connect
  cases h.udev_new s.trace with
  | none => exact Or.inl ⟨rfl, rfl, rfl, rfl⟩
  | some u =>
    dsimp only
    cases h.udev_monitor_new_from_netlink (s.call (.udev_new (some u))).trace with
    | none =>
      exact Or.inr (Or.inl ⟨u, rfl, by simp [State.call], rfl, rfl⟩)
    | some m =>
      dsimp only
      have hpre : ((s.call (.udev_new (some u))).call
          (.udev_monitor_new_from_netlink u (some m))).trace
          = s.trace ++ [.udev_new (some u), .udev_monitor_new_from_netlink u (some m)] := by
        simp [State.call]
      rcases udev_init_monitor_cases h ((s.call (.udev_new (some u))).call
          (.udev_monitor_new_from_netlink u (some m))) u m with
        ⟨r1, hr, hb, ht, hd, hl⟩ | ⟨r2, hr, hb, ht, hd, hl⟩ | ⟨mfd, hdl, hb, ht, hd, hl⟩
      · exact Or.inr (Or.inr (Or.inl ⟨u, m, r1, hr, hb, by rw [ht, hpre]; simp, hd, hl⟩))
      · exact Or.inr (Or.inr (Or.inr (Or.inl
          ⟨u, m, r2, hr, hb, by rw [ht, hpre]; simp, hd, hl⟩)))
      · exact Or.inr (Or.inr (Or.inr (Or.inr
          ⟨u, m, mfd, hdl, hb, by rw [ht, hpre]; simp, hd, hl⟩)))

/-- The ways `armada_drm_udev_init` ends when hot-plug detection is not
switched off: after the log message, either a step fails and the record keeps
its monitor and handler, or the whole sequence of calls is made and the
monitor and handler are stored. -/
theorem udev_init_enabled_cases (h : Host) (s : State)
    (hopt : xf86GetOptValBool s.drm.Options .OPTION_HOTPLUG ≠ some false) :
    (armada_drm_udev_init h s).2.log = s.log ++
      [⟨if (xf86GetOptValBool s.drm.Options .OPTION_HOTPLUG).isSome then MessageType.X_CONFIG
          else MessageType.X_DEFAULT, "hotplug detection %sabled\n"⟩] ∧
    (∃ evs, issued s.toServer (armada_drm_udev_init h s).2.toServer
      = .fstat s.drm.fd (h.fstat s.trace) :: evs) ∧
    (((armada_drm_udev_init h s).1 = false ∧
        issued s.toServer (armada_drm_udev_init h s).2.toServer = [.fstat s.drm.fd none] ∧
        (armada_drm_udev_init h s).2.drm = s.drm) ∨
      (∃ st, st.is_chr = false ∧ (armada_drm_udev_init h s).1 = false ∧
        issued s.toServer (armada_drm_udev_init h s).2.toServer
          = [.fstat s.drm.fd (some st)] ∧
        (armada_drm_udev_init h s).2.drm = s.drm) ∨
      (∃ st, st.is_chr = true ∧ (armada_drm_udev_init h s).1 = false ∧
        issued s.toServer (armada_drm_udev_init h s).2.toServer
          = [.fstat s.drm.fd (some st), .udev_new none] ∧
        (armada_drm_udev_init h s).2.drm = { s.drm with udev_drm_dev := st.st_rdev }) ∨
      (∃ st u, st.is_chr = true ∧ (armada_drm_udev_init h s).1 = false ∧
        issued s.toServer (armada_drm_udev_init h s).2.toServer
          = [.fstat s.drm.fd (some st), .udev_new (some u),
              .udev_monitor_new_from_netlink u none, .udev_unref u] ∧
        (armada_drm_udev_init h s).2.drm = { s.drm with udev_drm_dev := st.st_rdev }) ∨
      (∃ st u m r1, st.is_chr = true ∧ r1 ≠ 0 ∧ (armada_drm_udev_init h s).1 = false ∧
        issued s.toServer (armada_drm_udev_init h s).2.toServer
          = [.fstat s.drm.fd (some st), .udev_new (some u),
              .udev_monitor_new_from_netlink u (some m),
              .udev_monitor_filter_add_match_subsystem_devtype m r1, .udev_monitor_unref m,
              .udev_unref u] ∧
        (armada_drm_udev_init h s).2.drm = { s.drm with udev_drm_dev := st.st_rdev }) ∨
      (∃ st u m r2, st.is_chr = true ∧ r2 ≠ 0 ∧ (armada_drm_udev_init h s).1 = false ∧
        issued s.toServer (armada_drm_udev_init h s).2.toServer
          = [.fstat s.drm.fd (some st), .udev_new (some u),
              .udev_monitor_new_from_netlink u (some m),
              .udev_monitor_filter_add_match_subsystem_devtype m 0,
              .udev_monitor_enable_receiving m r2, .udev_monitor_unref m, .udev_unref u] ∧
        (armada_drm_udev_init h s).2.drm = { s.drm with udev_drm_dev := st.st_rdev }) ∨
      (∃ st u m mfd hd, st.is_chr = true ∧ (armada_drm_udev_init h s).1 = true ∧
        issued s.toServer (armada_drm_udev_init h s).2.toServer
          = udev_init_calls s.drm.fd st u m mfd hd ∧
        (armada_drm_udev_init h s).2.drm
          = { s.drm with udev_drm_dev := st.st_rdev, udev_monitor := some m,
                         udev_handler := hd })) := by
  have hhot : (match xf86GetOptValBool s.drm.Options .OPTION_HOTPLUG with
      | some v => v
      | none => true) = true := by
    cases hv : xf86GetOptValBool s.drm.Options .OPTION_HOTPLUG with
    | none => rfl
    | some v =>
      cases v
      · exact absurd hv hopt
      · rfl
  have key : (armada_drm_udev_init h s).2.log = s.log ++
      [⟨if (xf86GetOptValBool s.drm.Options .OPTION_HOTPLUG).isSome then MessageType.X_CONFIG
          else MessageType.X_DEFAULT, "hotplug detection %sabled\n"⟩] ∧
    ∃ evs, (armada_drm_udev_init h s).2.trace
        = s.trace ++ .fstat s.drm.fd (h.fstat s.trace) :: evs ∧
    (((armada_drm_udev_init h s).1 = false ∧
        .fstat s.drm.fd (h.fstat s.trace) :: evs = [.fstat s.drm.fd none] ∧
        (armada_drm_udev_init h s).2.drm = s.drm) ∨
      (∃ st, st.is_chr = false ∧ (armada_drm_udev_init h s).1 = false ∧
        .fstat s.drm.fd (h.fstat s.trace) :: evs = [.fstat s.drm.fd (some st)] ∧
        (armada_drm_udev_init h s).2.drm = s.drm) ∨
      (∃ st, st.is_chr = true ∧ (armada_drm_udev_init h s).1 = false ∧
        .fstat s.drm.fd (h.fstat s.trace) :: evs
          = [.fstat s.drm.fd (some st), .udev_new none] ∧
        (armada_drm_udev_init h s).2.drm = { s.drm with udev_drm_dev := st.st_rdev }) ∨
      (∃ st u, st.is_chr = true ∧ (armada_drm_udev_init h s).1 = false ∧
        .fstat s.drm.fd (h.fstat s.trace) :: evs
          = [.fstat s.drm.fd (some st), .udev_new (some u),
              .udev_monitor_new_from_netlink u none, .udev_unref u] ∧
        (armada_drm_udev_init h s).2.drm = { s.drm with udev_drm_dev := st.st_rdev }) ∨
      (∃ st u m r1, st.is_chr = true ∧ r1 ≠ 0 ∧ (armada_drm_udev_init h s).1 = false ∧
        .fstat s.drm.fd (h.fstat s.trace) :: evs
          = [.fstat s.drm.fd (some st), .udev_new (some u),
              .udev_monitor_new_from_netlink u (some m),
              .udev_monitor_filter_add_match_subsystem_devtype m r1, .udev_monitor_unref m,
              .udev_unref u] ∧
        (armada_drm_udev_init h s).2.drm = { s.drm with udev_drm_dev := st.st_rdev }) ∨
      (∃ st u m r2, st.is_chr = true ∧ r2 ≠ 0 ∧ (armada_drm_udev_init h s).1 = false ∧
        .fstat s.drm.fd (h.fstat s.trace) :: evs
          = [.fstat s.drm.fd (some st), .udev_new (some u),
              .udev_monitor_new_from_netlink u (some m),
              .udev_monitor_filter_add_match_subsystem_devtype m 0,
              .udev_monitor_enable_receiving m r2, .udev_monitor_unref m, .udev_unref u] ∧
        (armada_drm_udev_init h s).2.drm = { s.drm with udev_drm_dev := st.st_rdev }) ∨
      (∃ st u m mfd hd, st.is_chr = true ∧ (armada_drm_udev_init h s).1 = true ∧
        .fstat s.drm.fd (h.fstat s.trace) :: evs
          = udev_init_calls s.drm.fd st u m mfd hd ∧
        (armada_drm_udev_init h s).2.drm
          = { s.drm with udev_drm_dev := st.st_rdev, udev_monitor := some m,
                         udev_handler := hd })) := by
    unfold armada_drm_udev_init
    lift_lets
    extract_lets opt src hotplug s1
    have hh : (!hotplug) = false := by
      show (!(match xf86GetOptValBool s.drm.Options .OPTION_HOTPLUG with
        | some v => v
        | none => true)) = false
      rw [hhot]; rfl
    simp only [hh, Bool.false_eq_true, if_false]
    have ht1 : s1.trace = s.trace := rfl
    have hd1 : s1.drm = s.drm := rfl
    have hl1 : s1.log = s.log ++ [⟨src, "hotplug detection %sabled\n"⟩] := rfl
    rw [ht1, hd1]
    cases hfs : h.fstat s.trace with
    | none => exact ⟨hl1, [], rfl, Or.inl ⟨rfl, rfl, rfl⟩⟩
    | some st =>
      dsimp only
      by_cases hchr : (!st.is_chr) = true
      · rw [if_pos hchr]
        exact ⟨hl1, [], rfl, Or.inr (Or.inl ⟨st, by simpa using hchr, rfl, rfl, rfl⟩)⟩
      · rw [if_neg hchr]
        have hc : st.is_chr = true := by simpa using hchr
        have hpre : ({ s1.call (.fstat s.drm.fd (some st)) with
            drm := { s.drm with udev_drm_dev := st.st_rdev } } : State).trace
            = s.trace ++ [.fstat s.drm.fd (some st)] := rfl
        rcases udev_init_connect_cases h
            { s1.call (.fstat s.drm.fd (some st)) with
              drm := { s.drm with udev_drm_dev := st.st_rdev } } with
          ⟨hb, ht, hd, hl⟩ | ⟨u, hb, ht, hd, hl⟩ | ⟨u, m, r1, hr, hb, ht, hd, hl⟩ |
          ⟨u, m, r2, hr, hb, ht, hd, hl⟩ | ⟨u, m, mfd, hdl, hb, ht, hd, hl⟩
        · exact ⟨hl.trans hl1, _, by rw [ht, hpre]; simp,
            Or.inr (Or.inr (Or.inl ⟨st, hc, hb, rfl, hd⟩))⟩
        · exact ⟨hl.trans hl1, _, by rw [ht, hpre]; simp,
            Or.inr (Or.inr (Or.inr (Or.inl ⟨st, u, hc, hb, rfl, hd⟩)))⟩
        · exact ⟨hl.trans hl1, _, by rw [ht, hpre]; simp,
            Or.inr (Or.inr (Or.inr (Or.inr (Or.inl ⟨st, u, m, r1, hc, hr, hb, rfl, hd⟩))))⟩
        · exact ⟨hl.trans hl1, _, by rw [ht, hpre]; simp,
            Or.inr (Or.inr (Or.inr (Or.inr (Or.inr (Or.inl
              ⟨st, u, m, r2, hc, hr, hb, rfl, hd⟩)))))⟩
        · exact ⟨hl.trans hl1, _, by rw [ht, hpre]; simp,
            Or.inr (Or.inr (Or.inr (Or.inr (Or.inr (Or.inr
              ⟨st, u, m, mfd, hdl, hc, hb, rfl, hd⟩)))))⟩
  obtain ⟨hlog, evs, ht, hcase⟩ := key
  have hiss := issued_append s.toServer (armada_drm_udev_init h s).2.toServer _ ht
  rw [hiss]
  exact ⟨hlog, ⟨evs, rfl⟩, hcase⟩

end Helpers

/-! ## Theorems -/

/-- The `V_DBLSCAN` test of `armada_drm_ValidMode` reads bit 5 of the flags. -/
theorem land_V_DBLSCAN (m : Int) : Int.land m V_DBLSCAN ≠ 0 ↔ m.testBit 5 = true := by
  cases m with
  | ofNat n =>
    show ((n &&& 32 : Nat) : Int) ≠ 0 ↔ n.testBit 5 = true
    rw [show (32 : Nat) = 2 ^ 5 by rfl, Nat.and_two_pow]
    cases n.testBit 5 <;> simp
  | negSucc n =>
    show ((Nat.ldiff 32 n : Nat) : Int) ≠ 0 ↔ (!n.testBit 5) = true
    have h32 : ∀ i, Nat.testBit 32 i = decide (5 = i) := fun i => by
      rw [show (32 : Nat) = 2 ^ 5 by rfl, Nat.testBit_two_pow]
    have key : Nat.ldiff 32 n = if n.testBit 5 then 0 else 32 := by
      apply Nat.eq_of_testBit_eq
      intro i
      rw [Nat.testBit_ldiff, h32]
      by_cases hi : 5 = i
      · subst hi
        cases hb : n.testBit 5 <;> simp [h32]
      · cases hb : n.testBit 5 <;> simp [h32, hi]
    rw [key]
    cases n.testBit 5 <;> simp

/-- C10: `armada_drm_ValidMode` answers `MODE_BAD` exactly for the modes whose
`V_DBLSCAN` flag (bit 5 of `mode->Flags`) is set and `MODE_OK` for all others;
the screen state, `verbose`, the `flags` argument and every other field of the
mode have no influence on the answer. -/
theorem armada_drm_ValidMode_dblscan (s : State) (mode : DisplayModeRec) (verbose : Bool)
    (flags : Int) :
    (armada_drm_ValidMode s mode verbose flags).1 =
      if mode.Flags.testBit 5 = true then ModeStatus.MODE_BAD else ModeStatus.MODE_OK := by
  unfold armada_drm_ValidMode
  by_cases hb : mode.Flags.testBit 5 = true
  · have := (land_V_DBLSCAN mode.Flags).2 hb
    simp [hb, this]
  · have : ¬ Int.land mode.Flags V_DBLSCAN ≠ 0 := fun hne => hb ((land_V_DBLSCAN mode.Flags).1 hne)
    simp [hb, this]

/-- C4: `armada_drm_PreInit` rejects unsupported configurations.  It returns
FALSE with the screen untouched (so without opening the DRM device) when
`numEntities` is not 1 or when the `PROBE_DETECT` bit of `flags` is set; it
always returns, and its result is FALSE whenever the depth negotiated by
`xf86SetDepthBpp` is not 8, 15, 16 or 24, or that depth is above 8 and the
visual left by `xf86SetDefaultVisual` is not TrueColor.  Hence a TRUE result
implies `numEntities = 1`, `PROBE_DETECT` clear, a depth of 8, 15, 16 or 24,
and depth at most 8 or a TrueColor default visual. -/
theorem armada_drm_PreInit_rejects (h : Host) (s : Scrn) (flags : Int) :
    (s.pScrn.numEntities ≠ 1 → armada_drm_PreInit h s flags = some (false, s)) ∧
    (flags.testBit 0 = true → armada_drm_PreInit h s flags = some (false, s)) ∧
    ∃ r, armada_drm_PreInit h s flags = some r ∧
      (∀ ok d b, Event.xf86SetDepthBpp ok d b ∈ issued s.toServer r.2.toServer →
        ¬ supported_depth d → r.1 = false) ∧
      (∀ ok1 d b ok2 v, Event.xf86SetDepthBpp ok1 d b ∈ issued s.toServer r.2.toServer →
        Event.xf86SetDefaultVisual ok2 v ∈ issued s.toServer r.2.toServer →
        8 < d → v ≠ TrueColor → r.1 = false) ∧
      (r.1 = true → s.pScrn.numEntities = 1 ∧ flags.testBit 0 = false ∧
        supported_depth r.2.pScrn.depth ∧
        (r.2.pScrn.depth ≤ 8 ∨ r.2.pScrn.defaultVisual = TrueColor)) := by
  refine ⟨?_, ?_, ?_⟩
  · intro hn
    unfold armada_drm_PreInit
    rw [if_pos hn]
  · intro hf
    have hl := (land_PROBE_DETECT flags).2 hf
    unfold armada_drm_PreInit
    by_cases hn : s.pScrn.numEntities ≠ 1
    · rw [if_pos hn]
    · rw [if_neg hn, if_pos hl]
  · obtain ⟨r, hr, ho⟩ := PreInit_outcome h s flags
    refine ⟨r, hr, ?_, ?_, ?_⟩
    · intro ok d b hmem hns
      rcases ho with ⟨hf, _⟩ | ⟨_, _, _, busid, fd, d1, b1, v1, drm1, _, hsup, _, _, _, _, _, hl⟩
      · exact hf
      · have := hl.mem _ hmem rfl
        simp only [List.mem_cons, List.mem_singleton, List.not_mem_nil, or_false] at this
        rcases this with h1 | h1 | h1
        · exact absurd h1 (by simp)
        · injection h1 with _ hd _
          exact absurd (hd ▸ hsup) hns
        · exact absurd h1 (by simp)
    · intro ok1 d b ok2 v hmem1 hmem2 hgt hne
      rcases ho with ⟨hf, _⟩ | ⟨_, _, _, busid, fd, d1, b1, v1, drm1, _, _, hvis, _, _, _, _, hl⟩
      · exact hf
      · have m1 := hl.mem _ hmem1 rfl
        have m2 := hl.mem _ hmem2 rfl
        simp only [List.mem_cons, List.mem_singleton, List.not_mem_nil, or_false] at m1 m2
        rcases m1 with h1 | h1 | h1
        · exact absurd h1 (by simp)
        · injection h1 with _ hd _
          rcases m2 with h2 | h2 | h2
          · exact absurd h2 (by simp)
          · exact absurd h2 (by simp)
          · injection h2 with _ hv
            subst hd hv
            rcases hvis with hle | hv
            · exact absurd hgt (not_lt.2 hle)
            · exact absurd hv hne
        · exact absurd h1 (by simp)
    · intro ht
      rcases ho with ⟨hf, _⟩ | ⟨_, hn, hfl, busid, fd, d1, b1, v1, drm1, _, hsup, hvis, hd, hv, _, _, _⟩
      · rw [hf] at ht; exact absurd ht (by simp)
      · refine ⟨hn, ?_, hd ▸ hsup, ?_⟩
        · cases hb : flags.testBit 0
          · rfl
          · exact absurd hfl ((land_PROBE_DETECT flags).2 hb)
        · rw [hd, hv]; exact hvis


/-- C4 at concrete screens: a screen with two entities and a probe-only call
are rejected with the screen untouched, and the accepted sample screen has a
supported depth. -/
theorem armada_drm_PreInit_rejects_witness :
    ((2 : Int) ≠ 1) ∧
    armada_drm_PreInit okHost { sampleScrn with pScrn := { sampleScrn.pScrn with numEntities := 2 } } 0
      = some (false, { sampleScrn with pScrn := { sampleScrn.pScrn with numEntities := 2 } }) ∧
    ((1 : Int).testBit 0 = true) ∧
    armada_drm_PreInit okHost sampleScrn 1 = some (false, sampleScrn) ∧
    ∃ r, armada_drm_PreInit okHost sampleScrn 0 = some r ∧ r.1 = true ∧
      supported_depth r.2.pScrn.depth :=
  ⟨by decide,
    (armada_drm_PreInit_rejects okHost
      { sampleScrn with pScrn := { sampleScrn.pScrn with numEntities := 2 } } 0).1 (by decide),
    by decide,
    (armada_drm_PreInit_rejects okHost sampleScrn 1).2.1 (by decide),
    match (armada_drm_PreInit_rejects okHost sampleScrn 0).2.2 with
    | ⟨r, hr, _, _, himp⟩ =>
      have ht : r.1 = true := by
        have hm : (armada_drm_PreInit okHost sampleScrn 0).map (fun r => r.1) = some true := by
          decide
        rw [hr] at hm
        simpa using hm
      ⟨r, hr, ht, (himp ht).2.2.1⟩⟩

/-- C5: the DRM master lifecycle is balanced on failure.  `armada_drm_PreInit`
always returns, and when it returns FALSE the private pointer is NULL or is
what it was on entry (so NULL when `PreInit` is entered, as the server does,
with no private record), and the descriptors closed during the call are
exactly those `drmOpen` handed out, each closed once.  In particular a failing
`armada_drm_open_master` leaves the private pointer as it found it and has
closed the descriptor if it had opened one; once `armada_drm_open_master` has
succeeded `armada_drm_PreInit` continues as `PreInit_master`, and every
failure of that part has cleared the private pointer after exactly one
`drm_armada_fini` on the record's buffer manager followed by exactly one
`drmClose` on its descriptor. -/
theorem armada_drm_PreInit_master_balanced (h : Host) (s : Scrn) (flags : Int) :
    (∃ r, armada_drm_PreInit h s flags = some r ∧
      (r.1 = false →
        (r.2.driverPrivate = none ∨ r.2.driverPrivate = s.driverPrivate) ∧
        (s.driverPrivate = none → r.2.driverPrivate = none) ∧
        closed_fds (issued s.toServer r.2.toServer)
          = opened_fds (issued s.toServer r.2.toServer))) ∧
    ((armada_drm_open_master h s).1 = false →
      (armada_drm_open_master h s).2.driverPrivate = s.driverPrivate ∧
      closed_fds (issued s.toServer (armada_drm_open_master h s).2.toServer)
        = opened_fds (issued s.toServer (armada_drm_open_master h s).2.toServer)) ∧
    (s.pScrn.numEntities = 1 → Int.land flags PROBE_DETECT = 0 →
      (armada_drm_open_master h s).1 = true →
      armada_drm_PreInit h s flags = PreInit_master h (armada_drm_open_master h s).2) ∧
    (∀ drm, s.driverPrivate = some drm →
      ∃ r, PreInit_master h s = some r ∧
        (r.1 = false → r.2.driverPrivate = none ∧
          (issued s.toServer r.2.toServer).filter Event.isRelease
            = [.drm_armada_fini drm.bufmgr, .drmClose drm.fd])) := by
  refine ⟨?_, ?_, ?_, ?_⟩
  · obtain ⟨r, hr, ho⟩ := PreInit_outcome h s flags
    refine ⟨r, hr, fun hf => ?_⟩
    rcases ho with ⟨_, hcase⟩ | ⟨ht, _⟩
    · rcases hcase with ⟨hdp, hl⟩ | ⟨hnone, busid, fd, bm, L, hfd, hL, hl⟩
      · refine ⟨Or.inr hdp, fun hn => hdp.trans hn, ?_⟩
        rcases hl with hl | ⟨b, fd, hfd, hl⟩ | ⟨b, fd, hfd, hl⟩
        · rw [hl.closed, hl.opened]; rfl
        · rw [hl.closed, hl.opened]
          simp [closed_fds, opened_fds, not_le.2 hfd]
        · rw [hl.closed, hl.opened]
          simp [closed_fds, opened_fds, hfd]
      · refine ⟨Or.inl hnone, fun _ => hnone, ?_⟩
        obtain ⟨n1, n2, _⟩ := negotiation_fds L hL
        rw [hl.closed, hl.opened]
        rw [show (Event.drmOpen busid fd :: (L ++ [.drm_armada_fini bm, .drmClose fd]))
          = [Event.drmOpen busid fd] ++ L ++ [.drm_armada_fini bm, .drmClose fd] by simp]
        rw [closed_append, closed_append, opened_append, opened_append, n1, n2]
        simp [closed_fds, opened_fds, hfd]
    · rw [ht] at hf; exact absurd hf (by simp)
  · intro hf
    obtain ⟨_, hcase⟩ := open_master_outcome h s
    rcases hcase with ⟨_, hdp, hl⟩ | ⟨ht, _⟩
    · refine ⟨hdp, ?_⟩
      rcases hl with hl | ⟨b, fd, hfd, hl⟩ | ⟨b, fd, hfd, hl⟩
      · rw [hl.closed, hl.opened]; rfl
      · rw [hl.closed, hl.opened]
        simp [closed_fds, opened_fds, not_le.2 hfd]
      · rw [hl.closed, hl.opened]
        simp [closed_fds, opened_fds, hfd]
    · rw [ht] at hf; exact absurd hf (by simp)
  · intro hn hfl ht
    unfold armada_drm_PreInit
    rw [if_neg (not_not.2 hn), if_neg (not_not.2 hfl)]
    simp [ht]
  · intro drm hd
    obtain ⟨r, hr, hm⟩ := PreInit_master_outcome h s drm hd
    refine ⟨r, hr, fun hf => ?_⟩
    rcases hm with ⟨_, hnone, L, hL, hl⟩ | ⟨ht, _⟩
    · refine ⟨hnone, ?_⟩
      rw [hl.release, List.filter_append, (negotiation_fds L hL).2.2]
      simp [Event.isRelease]
    · rw [ht] at hf; exact absurd hf (by simp)

/-- C5 at a concrete screen: when `xf86SetDepthBpp` fails on the sample screen,
`armada_drm_PreInit` returns FALSE with the private pointer NULL and the
opened descriptor closed. -/
theorem armada_drm_PreInit_master_balanced_witness :
    (sampleScrn.driverPrivate = none) ∧
    ∃ r, armada_drm_PreInit { okHost with xf86SetDepthBpp := fun _ => (false, 0, 0) } sampleScrn 0
        = some r ∧ r.1 = false ∧ r.2.driverPrivate = none ∧
      closed_fds (issued sampleScrn.toServer r.2.toServer)
        = opened_fds (issued sampleScrn.toServer r.2.toServer) :=
  ⟨rfl,
    match (armada_drm_PreInit_master_balanced { okHost with xf86SetDepthBpp := fun _ => (false, 0, 0) } sampleScrn 0).1 with
    | ⟨r, hr, himp⟩ =>
      have hf : r.1 = false := by
        have hm : (armada_drm_PreInit { okHost with xf86SetDepthBpp := fun _ => (false, 0, 0) }
            sampleScrn 0).map (fun r => r.1) = some false := by decide
        rw [hr] at hm
        simpa using hm
      ⟨r, hr, hf, (himp hf).2.1 rfl, (himp hf).2.2⟩⟩

/-- C9: `armada_drm_CloseScreen` ends the screen framebuffer lifecycle exactly
once.  Among the calls it issues, `drmModeRmFB` occurs iff `drm->fb_id` was
non-zero (then once, for that id on `drm->fd`) and `drm_armada_bo_put` iff
`drm->front_bo` was non-NULL (then once, for that buffer); afterwards
`drm->fb_id = 0`, `drm->front_bo = NULL` and `pScrn->vtSema = FALSE`.  The
procedure saved by the wrapping step of `armada_drm_ScreenInit` is the
screen's `CloseScreen` of that moment; `armada_drm_CloseScreen` stores the
saved procedure back into `pScreen->CloseScreen`, calls it exactly once, and
returns its result.  The calls of `armada_drm_LeaveVT` follow that call iff
the wrapped procedure left `pScrn->vtSema` set, and none of them is issued
before it. -/
theorem armada_drm_CloseScreen_lifecycle (h : Host) (s : State) :
    (issued s.toServer (armada_drm_CloseScreen h s).2.toServer).filter Event.isRmFB
      = (if s.drm.fb_id ≠ 0 then [.drmModeRmFB s.drm.fd s.drm.fb_id] else []) ∧
    (issued s.toServer (armada_drm_CloseScreen h s).2.toServer).filter Event.isBoPut
      = s.drm.front_bo.toList.map (fun bo => Event.drm_armada_bo_put (some bo)) ∧
    (armada_drm_CloseScreen h s).2.drm.fb_id = 0 ∧
    (armada_drm_CloseScreen h s).2.drm.front_bo = none ∧
    (armada_drm_CloseScreen h s).2.pScrn.vtSema = false ∧
    (ScreenInit_wrap s).drm.CloseScreen = s.screen.CloseScreen ∧
    (ScreenInit_wrap s).screen.CloseScreen = .armada_drm_CloseScreen ∧
    (armada_drm_CloseScreen h s).2.screen
      = h.pScreen (CloseScreen_release h s).trace
          { (CloseScreen_release h s).screen with CloseScreen := s.drm.CloseScreen } ∧
    (issued s.toServer (armada_drm_CloseScreen h s).2.toServer).filter Event.isCloseScreen
      = [.CloseScreen s.drm.CloseScreen (armada_drm_CloseScreen h s).1] ∧
    (armada_drm_CloseScreen h s).1 = (wrapped_CloseScreen h s).1 ∧
    issued s.toServer (armada_drm_LeaveVT h s).toServer = LeaveVT_calls s.drm.fd ∧
    (issued s.toServer (armada_drm_CloseScreen h s).2.toServer).filter Event.isLeaveVT
      = (if (wrapped_CloseScreen h s).2 then LeaveVT_calls s.drm.fd else []) ∧
    issued s.toServer (armada_drm_CloseScreen h s).2.toServer
      = issued s.toServer (CloseScreen_release h s).toServer ++
        .CloseScreen s.drm.CloseScreen (armada_drm_CloseScreen h s).1 ::
          (if (wrapped_CloseScreen h s).2 then LeaveVT_calls s.drm.fd else []) := by
  obtain ⟨⟨_, hfd, hcs, _, _, evs, htr, f1, f2, f3, f4⟩, hfb, hbo⟩ := CloseScreen_release_spec h s
  obtain ⟨hret, htrace, hdrm, hvt, hscr⟩ := CloseScreen_spec h s
  have wrap := ScreenInit_wrap_spec s
  have hrel : issued s.toServer (CloseScreen_release h s).toServer = evs := by
    unfold issued
    rw [show (CloseScreen_release h s).toServer.trace = (CloseScreen_release h s).trace from rfl,
      htr]
    simp
  have hall : issued s.toServer (armada_drm_CloseScreen h s).2.toServer
      = evs ++ .CloseScreen s.drm.CloseScreen (armada_drm_CloseScreen h s).1 ::
          (if (wrapped_CloseScreen h s).2 then LeaveVT_calls s.drm.fd else []) := by
    unfold issued
    rw [show (armada_drm_CloseScreen h s).2.toServer.trace = (armada_drm_CloseScreen h s).2.trace
      from rfl, htrace, htr, hcs, hfd, hret, List.append_assoc]
    simp
  have tail1 : ∀ (b : Bool) (fd : Int),
      (if b then LeaveVT_calls fd else []).filter Event.isRmFB = [] ∧
      (if b then LeaveVT_calls fd else []).filter Event.isBoPut = [] ∧
      (if b then LeaveVT_calls fd else []).filter Event.isCloseScreen = [] ∧
      (if b then LeaveVT_calls fd else []).filter Event.isLeaveVT
        = (if b then LeaveVT_calls fd else []) := by
    intro b fd
    cases b <;> exact ⟨rfl, rfl, rfl, rfl⟩
  obtain ⟨t1, t2, t3, t4⟩ := tail1 (wrapped_CloseScreen h s).2 s.drm.fd
  refine ⟨?_, ?_, ?_, ?_, hvt, wrap.1, wrap.2, ?_, ?_, hret, ?_, ?_, ?_⟩
  · rw [hall, List.filter_append, f1, List.filter_cons_of_neg (by simp [Event.isRmFB]), t1]
    simp
  · rw [hall, List.filter_append, f2, List.filter_cons_of_neg (by simp [Event.isBoPut]), t2]
    simp
  · rw [hdrm]; exact hfb
  · rw [hdrm]; exact hbo
  · rw [hscr, hcs]
  · rw [hall, List.filter_append, f3, List.filter_cons_of_pos (by simp [Event.isCloseScreen]), t3]
    rfl
  · unfold issued
    rw [show (armada_drm_LeaveVT h s).toServer.trace = (armada_drm_LeaveVT h s).trace from rfl,
      (LeaveVT_spec h s).1]
    simp
  · rw [hall, List.filter_append, f4, List.filter_cons_of_neg (by simp [Event.isLeaveVT]), t4]
    rfl
  · rw [hall, hrel]

/-- C9 at the sample screen (framebuffer 41 on descriptor 3, front buffer of
handle 6, saved procedure `server 1`, `vtSema` left set by the wrapped call):
one `drmModeRmFB`, one release, one wrapped call, then the three calls of
`armada_drm_LeaveVT`. -/
theorem armada_drm_CloseScreen_lifecycle_witness :
    (issued sampleState.toServer (armada_drm_CloseScreen okHost sampleState).2.toServer).filter
        Event.isRmFB = [.drmModeRmFB 3 41] ∧
    (issued sampleState.toServer (armada_drm_CloseScreen okHost sampleState).2.toServer).filter
        Event.isBoPut = [.drm_armada_bo_put (some ⟨6, 4096⟩)] ∧
    (issued sampleState.toServer (armada_drm_CloseScreen okHost sampleState).2.toServer).filter
        Event.isCloseScreen = [.CloseScreen (.server 1) true] ∧
    (issued sampleState.toServer (armada_drm_CloseScreen okHost sampleState).2.toServer).filter
        Event.isLeaveVT = [.xf86RotateFreeShadow, .xf86_hide_cursors, .drmDropMaster 3] :=
  ⟨(armada_drm_CloseScreen_lifecycle okHost sampleState).1, (armada_drm_CloseScreen_lifecycle okHost sampleState).2.1,
    (armada_drm_CloseScreen_lifecycle okHost sampleState).2.2.2.2.2.2.2.2.1,
    (armada_drm_CloseScreen_lifecycle okHost sampleState).2.2.2.2.2.2.2.2.2.2.2.1⟩

/-- C11: `armada_drm_crtc_apply` passes failure through after a single attempt.
The result is TRUE iff the output-id array was allocated, `xf86CrtcRotate`
succeeded and the `drmModeSetCrtc` call returned 0.  At most one
`drmModeSetCrtc` is issued, none when the allocation or the rotation failed,
and any that is issued is for this CRTC with the ids of its outputs and the
mode `kmode`, or the stored `drmc->kmode` when `kmode` is NULL.  When the
result is TRUE the DPMS-on calls issued are those for the outputs whose `crtc`
is this CRTC, one each in order; when it is FALSE no DPMS-on call is issued. -/
theorem armada_drm_crtc_apply_single_attempt (h : Host) (s : State) (c : Nat)
    (k : Option drmModeModeInfo) :
    ((armada_drm_crtc_apply h s c k).1 = true ↔
      Event.calloc s.output.length true
          ∈ issued s.toServer (armada_drm_crtc_apply h s c k).2.toServer ∧
      Event.xf86CrtcRotate c true
          ∈ issued s.toServer (armada_drm_crtc_apply h s c k).2.toServer ∧
      ∃ fb x y, Event.drmModeSetCrtc (s.crtcAt c).driver_private.drm_fd
          (s.crtcAt c).driver_private.mode_crtc fb x y
          ((s.output.filter (fun o => o.crtc = some c)).map (fun o => o.connector_id))
          (some (k.getD (s.crtcAt c).driver_private.kmode)) 0
          ∈ issued s.toServer (armada_drm_crtc_apply h s c k).2.toServer) ∧
    ((issued s.toServer (armada_drm_crtc_apply h s c k).2.toServer).filter
        Event.isSetCrtc).length ≤ 1 ∧
    ((Event.calloc s.output.length false
          ∈ issued s.toServer (armada_drm_crtc_apply h s c k).2.toServer ∨
      Event.xf86CrtcRotate c false
          ∈ issued s.toServer (armada_drm_crtc_apply h s c k).2.toServer) →
      (issued s.toServer (armada_drm_crtc_apply h s c k).2.toServer).filter
        Event.isSetCrtc = []) ∧
    (∀ e ∈ issued s.toServer (armada_drm_crtc_apply h s c k).2.toServer,
      e.isSetCrtc = true →
      ∃ fb x y ret, e = Event.drmModeSetCrtc (s.crtcAt c).driver_private.drm_fd
          (s.crtcAt c).driver_private.mode_crtc fb x y
          ((s.output.filter (fun o => o.crtc = some c)).map (fun o => o.connector_id))
          (some (k.getD (s.crtcAt c).driver_private.kmode)) ret) ∧
    (k = none →
      ∀ fd id fb x y ids m ret, Event.drmModeSetCrtc fd id fb x y ids m ret
          ∈ issued s.toServer (armada_drm_crtc_apply h s c k).2.toServer →
        m = some (s.crtcAt c).driver_private.kmode) ∧
    ((armada_drm_crtc_apply h s c k).1 = true →
      (issued s.toServer (armada_drm_crtc_apply h s c k).2.toServer).filter Event.isDpmsOn
        = dpms_on_events s.output c) ∧
    ((armada_drm_crtc_apply h s c k).1 = false →
      (issued s.toServer (armada_drm_crtc_apply h s c k).2.toServer).filter Event.isDpmsOn
        = []) ∧
    (∀ e, e ∈ dpms_on_events s.output c ↔
      ∃ i o, s.output[i]? = some o ∧ o.crtc = some c ∧ e = .output_dpms i DPMSModeOn) := by
  have d := dpms_on_events_filters s.output c
  refine ⟨?_, ?_, ?_, ?_, ?_, ?_, ?_, mem_dpms_on_events s.output c⟩
  all_goals
    rcases crtc_apply_cases h s c k with ⟨h1, ht⟩ | ⟨h1, ht⟩ | ⟨ret, fb, x, y, h1, ht, -, -⟩
  all_goals rw [issued_append _ _ _ ht]
  all_goals try rw [h1]
  all_goals try (simp [Event.isSetCrtc, Event.isDpmsOn]; done)
  all_goals
    have hf : ∀ l1 l2 : List Event, l1.filter Event.isSetCrtc = [] →
        l2.filter Event.isSetCrtc = [] →
        ([Event.calloc s.output.length true, Event.xf86CrtcRotate c true,
          Event.drmModeCrtcSetGamma (s.crtcAt c).driver_private.drm_fd
            (s.crtcAt c).driver_private.mode_crtc (s.crtcAt c).gamma_size,
          Event.drmModeSetCrtc (s.crtcAt c).driver_private.drm_fd
            (s.crtcAt c).driver_private.mode_crtc fb x y
            ((s.output.filter (fun o => o.crtc = some c)).map (fun o => o.connector_id))
            (some (k.getD (s.crtcAt c).driver_private.kmode)) ret] ++ l1 ++ l2).filter
          Event.isSetCrtc
        = [Event.drmModeSetCrtc (s.crtcAt c).driver_private.drm_fd
            (s.crtcAt c).driver_private.mode_crtc fb x y
            ((s.output.filter (fun o => o.crtc = some c)).map (fun o => o.connector_id))
            (some (k.getD (s.crtcAt c).driver_private.kmode)) ret] := by
      intro l1 l2 e1 e2
      rw [List.filter_append, List.filter_append, e1, e2]
      rfl
    have hd : ∀ l1 l2 : List Event, l2.filter Event.isDpmsOn = [] →
        ([Event.calloc s.output.length true, Event.xf86CrtcRotate c true,
          Event.drmModeCrtcSetGamma (s.crtcAt c).driver_private.drm_fd
            (s.crtcAt c).driver_private.mode_crtc (s.crtcAt c).gamma_size,
          Event.drmModeSetCrtc (s.crtcAt c).driver_private.drm_fd
            (s.crtcAt c).driver_private.mode_crtc fb x y
            ((s.output.filter (fun o => o.crtc = some c)).map (fun o => o.connector_id))
            (some (k.getD (s.crtcAt c).driver_private.kmode)) ret] ++ l1 ++ l2).filter
          Event.isDpmsOn
        = l1.filter Event.isDpmsOn := by
      intro l1 l2 e2
      rw [List.filter_append, List.filter_append, e2]
      simp [Event.isDpmsOn]
    have e1 : (if ret = 0 then dpms_on_events s.output c else []).filter Event.isSetCrtc
        = [] := by
      split_ifs
      · exact d.1
      · rfl
    have e2 : (if (s.pScrn.pScreen && s.drm.hw_cursor) = true
        then [Event.xf86_reload_cursors] else []).filter Event.isSetCrtc = [] := by
      split_ifs <;> rfl
    have e3 : (if (s.pScrn.pScreen && s.drm.hw_cursor) = true
        then [Event.xf86_reload_cursors] else []).filter Event.isDpmsOn = [] := by
      split_ifs <;> rfl
  · constructor
    · intro hr
      have hr0 : ret = 0 := by simpa using hr
      subst hr0
      exact ⟨by simp, by simp, fb, x, y, by simp⟩
    · rintro ⟨-, -, fb1, x1, y1, hm⟩
      have hm2 := List.mem_filter.mpr ⟨hm, (by rfl : Event.isSetCrtc _ = true)⟩
      rw [hf _ _ e1 e2] at hm2
      simp only [List.mem_singleton, Event.drmModeSetCrtc.injEq] at hm2
      simp [← hm2.2.2.2.2.2.2.2]
  · rw [hf _ _ e1 e2]; simp
  · rintro (hm | hm) <;> split_ifs at hm <;> simp [mem_dpms_on_events] at hm
  · intro e he hs
    have hm2 := List.mem_filter.mpr ⟨he, hs⟩
    rw [hf _ _ e1 e2] at hm2
    exact ⟨fb, x, y, ret, List.mem_singleton.mp hm2⟩
  · intro hk fd1 id1 fb1 x1 y1 ids1 m ret1 hm
    have hm2 := List.mem_filter.mpr ⟨hm, (by rfl : Event.isSetCrtc _ = true)⟩
    rw [hf _ _ e1 e2] at hm2
    simp only [List.mem_singleton, Event.drmModeSetCrtc.injEq] at hm2
    rw [hm2.2.2.2.2.2.2.1, hk]
    rfl
  · intro hr
    have hr0 : ret = 0 := by simpa using hr
    rw [hd _ _ e3, if_pos hr0, d.2]
  · intro hr
    have hr0 : ¬ ret = 0 := by simpa using hr
    rw [hd _ _ e3, if_neg hr0]
    rfl

/-- C11 at the sample screen, whose one output is driven by CRTC 0: on the host
where everything succeeds the result is TRUE and output 0 gets DPMS-on; when
`drmModeSetCrtc` returns -1 the result is FALSE and no DPMS call is made. -/
theorem armada_drm_crtc_apply_single_attempt_witness :
    (armada_drm_crtc_apply okHost sampleState 0 none).1 = true ∧
    (issued sampleState.toServer
        (armada_drm_crtc_apply okHost sampleState 0 none).2.toServer).filter Event.isDpmsOn
      = [.output_dpms 0 DPMSModeOn] ∧
    (armada_drm_crtc_apply { okHost with drmModeSetCrtc := fun _ => -1 } sampleState 0
      none).1 = false ∧
    (issued sampleState.toServer (armada_drm_crtc_apply
        { okHost with drmModeSetCrtc := fun _ => -1 } sampleState 0 none).2.toServer).filter
      Event.isDpmsOn = [] :=
  ⟨rfl, (armada_drm_crtc_apply_single_attempt okHost sampleState 0 none).2.2.2.2.2.1 rfl, rfl,
    (armada_drm_crtc_apply_single_attempt { okHost with drmModeSetCrtc := fun _ => -1 } sampleState 0 none).2.2.2.2.2.2.1 rfl⟩

/-- C13 at a failing input: `armada_drm_crtc_shadow_create` called for CRTC 0
of the sample screen with NULL data, on a host where the buffer allocation
and `drmModeAddFB` succeed and `GetScratchPixmapHeader` returns NULL.  The
call returns NULL, the calls issued are the buffer creation, its mapping, the
`drmModeAddFB` that stored framebuffer 42 and the failed
`GetScratchPixmapHeader`; the buffer is not released and the framebuffer not
removed, and `rotate_fb_id` went from 0 to 42. -/
theorem armada_drm_crtc_shadow_create_leak :
    (armada_drm_crtc_shadow_create noPixmapHost sampleState 0 none 800 600).1 = none ∧
    issued sampleState.toServer
        (armada_drm_crtc_shadow_create noPixmapHost sampleState 0 none 800 600).2.toServer
      = [.drm_armada_bo_dumb_create 800 600 32 (some ⟨7, 4096⟩),
          .drm_armada_bo_map ⟨7, 4096⟩ 0,
          .drmModeAddFB 3 800 600 24 32 4096 7 0 (some 42),
          .GetScratchPixmapHeader 800 600 24 32 4096 none] ∧
    (issued sampleState.toServer
        (armada_drm_crtc_shadow_create noPixmapHost sampleState 0 none 800 600).2.toServer).filter
      Event.isBoPut = [] ∧
    (issued sampleState.toServer
        (armada_drm_crtc_shadow_create noPixmapHost sampleState 0 none 800 600).2.toServer).filter
      Event.isRmFB = [] ∧
    (sampleState.crtcAt 0).driver_private.rotate_fb_id = 0 ∧
    ((armada_drm_crtc_shadow_create noPixmapHost sampleState 0 none 800 600).2.crtcAt
      0).driver_private.rotate_fb_id = 42 :=
  ⟨rfl, rfl, rfl, rfl, rfl, rfl⟩

/-- C1: `armada_drm_crtc_set_mode_major` keeps the CRTC record in step with
what was applied, for a CRTC of the configuration and any requested mode,
rotation and position.  The call returns unless it has to add the screen
framebuffer (`drm->fb_id` is 0) with `drm->front_bo` NULL.  When it returns
FALSE, `crtc->mode`, `crtc->x`, `crtc->y`, `crtc->rotation` and `drmc->kmode`
are what they were before the call; when it returns TRUE they are the
requested values and `drmc->kmode` is `drmmode_ConvertToKMode` of the
requested mode.  The result follows what was applied: it is TRUE exactly when
a `drmModeSetCrtc` for this CRTC, with its outputs and the converted requested
mode, was issued and returned 0; it is FALSE exactly when `drmModeAddFB`
returned a negative value or `armada_drm_crtc_apply` failed (its allocation,
`xf86CrtcRotate` or its `drmModeSetCrtc` is recorded as failed).  At most one
`drmModeSetCrtc` is issued, none after a failed `drmModeAddFB`, and it is given
the rotation shadow at (0, 0) or else `drm->fb_id` at the requested position
(converted to `uint32_t`). -/
theorem armada_drm_crtc_set_mode_major_record (h : Host) (s : State) (c : Nat)
    (mode : DisplayModeRec) (rotation : Nat) (x y : Int) (hc : c < s.crtc.length) :
    (armada_drm_crtc_set_mode_major h s c mode rotation x y = none ↔
      s.drm.fb_id = 0 ∧ s.drm.front_bo = none) ∧
    ∀ r, armada_drm_crtc_set_mode_major h s c mode rotation x y = some r →
    (r.1 = false →
      (r.2.crtcAt c).mode = (s.crtcAt c).mode ∧ (r.2.crtcAt c).x = (s.crtcAt c).x ∧
      (r.2.crtcAt c).y = (s.crtcAt c).y ∧ (r.2.crtcAt c).rotation = (s.crtcAt c).rotation ∧
      (r.2.crtcAt c).driver_private.kmode = (s.crtcAt c).driver_private.kmode) ∧
    (r.1 = true →
      (r.2.crtcAt c).mode = mode ∧ (r.2.crtcAt c).x = x ∧ (r.2.crtcAt c).y = y ∧
      (r.2.crtcAt c).rotation = rotation ∧
      (r.2.crtcAt c).driver_private.kmode = drmmode_ConvertToKMode mode) ∧
    (s.drm.fb_id = 0 ∧ (h.drmModeAddFB s.trace).1 < 0 →
      r.1 = false ∧ (issued s.toServer r.2.toServer).filter Event.isSetCrtc = []) ∧
    (r.1 = true ↔
      ∃ fb x1 y1, Event.drmModeSetCrtc (s.crtcAt c).driver_private.drm_fd
        (s.crtcAt c).driver_private.mode_crtc fb x1 y1
        ((s.output.filter (fun o => o.crtc = some c)).map (fun o => o.connector_id))
        (some (drmmode_ConvertToKMode mode)) 0 ∈ issued s.toServer r.2.toServer) ∧
    (r.1 = false ↔
      ((∃ fd w1 h1 d1 b1 p1 hd ret st, ret < 0 ∧
          Event.drmModeAddFB fd w1 h1 d1 b1 p1 hd ret st ∈ issued s.toServer r.2.toServer) ∨
        Event.calloc s.output.length false ∈ issued s.toServer r.2.toServer ∨
        Event.xf86CrtcRotate c false ∈ issued s.toServer r.2.toServer ∨
        ∃ fb x1 y1 ret, ret ≠ 0 ∧ Event.drmModeSetCrtc (s.crtcAt c).driver_private.drm_fd
          (s.crtcAt c).driver_private.mode_crtc fb x1 y1
          ((s.output.filter (fun o => o.crtc = some c)).map (fun o => o.connector_id))
          (some (drmmode_ConvertToKMode mode)) ret ∈ issued s.toServer r.2.toServer)) ∧
    ((issued s.toServer r.2.toServer).filter Event.isSetCrtc).length ≤ 1 ∧
    (∀ fd id fb x1 y1 ids m ret,
      Event.drmModeSetCrtc fd id fb x1 y1 ids m ret ∈ issued s.toServer r.2.toServer →
      fd = (s.crtcAt c).driver_private.drm_fd ∧ id = (s.crtcAt c).driver_private.mode_crtc ∧
      ids = (s.output.filter (fun o => o.crtc = some c)).map (fun o => o.connector_id) ∧
      m = some (drmmode_ConvertToKMode mode) ∧
      ((r.2.crtcAt c).driver_private.rotate_fb_id ≠ 0 →
        fb = (r.2.crtcAt c).driver_private.rotate_fb_id ∧ x1 = 0 ∧ y1 = 0) ∧
      ((r.2.crtcAt c).driver_private.rotate_fb_id = 0 →
        fb = r.2.drm.fb_id ∧ x1 = u32 x ∧ y1 = u32 y)) := by
  unfold armada_drm_crtc_set_mode_major
  by_cases hfb : s.drm.fb_id = 0
  · rw [if_pos hfb]
    cases hbo : s.drm.front_bo with
    | none =>
      refine ⟨by simp [hfb], ?_⟩
      intro r hr
      exact absurd hr (by simp)
    | some bo =>
      refine ⟨by simp, ?_⟩
      intro r hr
      have hr2 : set_mode_major_add_fb h s c bo mode rotation x y = r := Option.some.inj hr
      rw [← hr2]
      exact set_mode_major_add_fb_spec h s c bo mode rotation x y hc
  · rw [if_neg hfb]
    refine ⟨by simp [hfb], ?_⟩
    intro r hr
    have hr2 : set_mode_major_apply h s c mode rotation x y = r := Option.some.inj hr
    rw [← hr2]
    exact set_mode_major_apply_spec h s s c mode rotation x y [] hc rfl rfl (by simp)
      (by simp) (fun ha => hfb ha.1)

/-- C1 at the sample screen, CRTC 0, mode "m" requested at (5, 6): the host on
which every call succeeds gives TRUE, the position (5, 6) in the record and
one `drmModeSetCrtc` of framebuffer 41 at (5, 6) with the converted mode; a
host whose `drmModeSetCrtc` fails gives FALSE and the old position; and with
`drm->fb_id` 0 and a failing `drmModeAddFB` the result is FALSE and no
`drmModeSetCrtc` is issued. -/
theorem armada_drm_crtc_set_mode_major_record_witness :
    0 < sampleState.crtc.length ∧
    armada_drm_crtc_set_mode_major okHost sampleState 0 sampleMode 1 5 6
      = some (set_mode_major_apply okHost sampleState 0 sampleMode 1 5 6) ∧
    (set_mode_major_apply okHost sampleState 0 sampleMode 1 5 6).1 = true ∧
    ((set_mode_major_apply okHost sampleState 0 sampleMode 1 5 6).2.crtcAt 0).x = 5 ∧
    (issued sampleState.toServer
        (set_mode_major_apply okHost sampleState 0 sampleMode 1 5 6).2.toServer).filter
      Event.isSetCrtc
      = [.drmModeSetCrtc 3 10 41 5 6 [20] (some (drmmode_ConvertToKMode sampleMode)) 0] ∧
    (set_mode_major_apply { okHost with drmModeSetCrtc := fun _ => -1 }
      sampleState 0 sampleMode 1 5 6).1 = false ∧
    ((set_mode_major_apply { okHost with drmModeSetCrtc := fun _ => -1 }
      sampleState 0 sampleMode 1 5 6).2.crtcAt 0).x = (sampleState.crtcAt 0).x ∧
    (set_mode_major_add_fb { okHost with drmModeAddFB := fun _ => (-1, none) }
      noFbState 0 ⟨6, 4096⟩ sampleMode 1 5 6).1 = false ∧
    (issued noFbState.toServer
        (set_mode_major_add_fb { okHost with drmModeAddFB := fun _ => (-1, none) }
          noFbState 0 ⟨6, 4096⟩ sampleMode 1 5 6).2.toServer).filter Event.isSetCrtc = [] :=
  ⟨by decide, rfl, rfl,
    (((armada_drm_crtc_set_mode_major_record okHost sampleState 0 sampleMode 1 5 6 (by decide)).2 _ rfl).2.1 rfl).2.1,
    rfl, rfl,
    (((armada_drm_crtc_set_mode_major_record { okHost with drmModeSetCrtc := fun _ => -1 } sampleState 0 sampleMode 1 5 6
      (by decide)).2 _ rfl).1 rfl).2.1,
    (((armada_drm_crtc_set_mode_major_record { okHost with drmModeAddFB := fun _ => (-1, none) } noFbState 0 sampleMode 1 5 6
      (by decide)).2 _ rfl).2.2.1 ⟨rfl, by decide⟩).1,
    (((armada_drm_crtc_set_mode_major_record { okHost with drmModeAddFB := fun _ => (-1, none) } noFbState 0 sampleMode 1 5 6
      (by decide)).2 _ rfl).2.2.1 ⟨rfl, by decide⟩).2⟩

/-- C3: `armada_drm_xf86crtc_resize` changes nothing when it does not switch.
(a) Called with the current virtual size it returns TRUE and the whole state,
trace included, is as before: no buffer is allocated and no kernel call made.
(b) When it returns FALSE the virtual size, `displayWidth` and `front_bo` are
unchanged, no `drmModeRmFB` was issued, every buffer that
`drm_armada_bo_dumb_create` handed out during the call was passed to
`drm_armada_bo_put`, and `fb_id` is unchanged provided no `drmModeAddFB` call
stored an id. -/
theorem armada_drm_xf86crtc_resize_no_switch (h : Host) (s : State) (width height : Int) :
    armada_drm_xf86crtc_resize h s s.pScrn.virtualX s.pScrn.virtualY = some (true, s) ∧
    (∀ r, armada_drm_xf86crtc_resize h s width height = some r → r.1 = false →
      r.2.pScrn.virtualX = s.pScrn.virtualX ∧
      r.2.pScrn.virtualY = s.pScrn.virtualY ∧
      r.2.pScrn.displayWidth = s.pScrn.displayWidth ∧
      r.2.drm.front_bo = s.drm.front_bo ∧
      (issued s.toServer r.2.toServer).filter Event.isRmFB = [] ∧
      (∀ w1 h1 b1 bo, Event.drm_armada_bo_dumb_create w1 h1 b1 (some bo) ∈
          issued s.toServer r.2.toServer →
        Event.drm_armada_bo_put (some bo) ∈ issued s.toServer r.2.toServer) ∧
      ((∀ e ∈ issued s.toServer r.2.toServer, e.storesFbId = false) →
        r.2.drm.fb_id = s.drm.fb_id)) := by
  refine ⟨by simp [armada_drm_xf86crtc_resize], ?_⟩
  unfold armada_drm_xf86crtc_resize
  by_cases hsize : s.pScrn.virtualX = width ∧ s.pScrn.virtualY = height
  · rw [if_pos hsize]
    intro r hr hf
    rw [← Option.some.inj hr] at hf
    exact absurd hf (by simp)
  rw [if_neg hsize]
  rcases alloc_cases h s width height s.pScrn.bitsPerPixel with ⟨_, he⟩ | ⟨bo, ret, _, _, he⟩ |
    ⟨bo, _, he⟩
  · rw [he]
    intro r hr _
    rw [← Option.some.inj hr]
    have hiss : issued s.toServer ((s.call (.drm_armada_bo_dumb_create width height
        s.pScrn.bitsPerPixel none)).xf86DrvMsg .X_ERROR
          "[drm] failed to allocate new bo: %s\n").toServer =
        [.drm_armada_bo_dumb_create width height s.pScrn.bitsPerPixel none] :=
      issued_append _ _ _ rfl
    dsimp only
    rw [hiss]
    refine ⟨rfl, rfl, rfl, rfl, by simp [Event.isRmFB], by simp, fun _ => rfl⟩
  · rw [he]
    intro r hr _
    rw [← Option.some.inj hr]
    have hiss : issued s.toServer ((((s.call (.drm_armada_bo_dumb_create width height
        s.pScrn.bitsPerPixel (some bo))).call (.drm_armada_bo_map bo ret)).xf86DrvMsg .X_ERROR
            "[drm] failed to map fb bo: %s\n").call (.drm_armada_bo_put (some bo))).toServer =
        [.drm_armada_bo_dumb_create width height s.pScrn.bitsPerPixel (some bo),
          .drm_armada_bo_map bo ret, .drm_armada_bo_put (some bo)] :=
      issued_append _ _ _ (by simp)
    dsimp only
    rw [hiss]
    refine ⟨rfl, rfl, rfl, rfl, by simp [Event.isRmFB], by simp, fun _ => rfl⟩
  · rw [he]
    dsimp only
    generalize hsa : (s.call (.drm_armada_bo_dumb_create width height s.pScrn.bitsPerPixel
        (some bo))).call (.drm_armada_bo_map bo 0) = sa
    have hsad : sa.drm = s.drm := by rw [← hsa]; rfl
    have hsap : sa.pScrn = s.pScrn := by rw [← hsa]; rfl
    have hsat : sa.trace = s.trace ++ [.drm_armada_bo_dumb_create width height
        s.pScrn.bitsPerPixel (some bo), .drm_armada_bo_map bo 0] := by rw [← hsa]; simp
    by_cases hadd : (h.drmModeAddFB sa.trace).1 = 0
    · intro r hr hf
      rw [resize_with_bo_true h sa width height bo hadd r hr] at hf
      exact absurd hf (by simp)
    · rw [resize_with_bo_fail h sa width height bo hadd]
      intro r hr _
      rw [← Option.some.inj hr]
      dsimp only
      have hiss : issued s.toServer ((((sa.call (.drmModeAddFB sa.drm.fd width height
          sa.pScrn.depth sa.pScrn.bitsPerPixel bo.pitch bo.handle (h.drmModeAddFB sa.trace).1
          (h.drmModeAddFB sa.trace).2)).store_fb_id (h.drmModeAddFB sa.trace).2).xf86DrvMsg
            .X_ERROR "[drm] failed to add fb: %s\n").call
              (.drm_armada_bo_put (some bo))).toServer =
          [.drm_armada_bo_dumb_create width height s.pScrn.bitsPerPixel (some bo),
            .drm_armada_bo_map bo 0,
            .drmModeAddFB sa.drm.fd width height sa.pScrn.depth sa.pScrn.bitsPerPixel bo.pitch
              bo.handle (h.drmModeAddFB sa.trace).1 (h.drmModeAddFB sa.trace).2,
            .drm_armada_bo_put (some bo)] :=
        issued_append _ _ _ (by simp [hsat])
      rw [hiss]
      refine ⟨?_, ?_, ?_, ?_, by simp [Event.isRmFB], by simp, ?_⟩
      · simp [hsap]
      · simp [hsap]
      · simp [hsap]
      · cases h2 : (h.drmModeAddFB sa.trace).2 <;> simp [State.store_fb_id, hsad]
      · intro hst
        cases h2 : (h.drmModeAddFB sa.trace).2 with
        | none => simp [State.store_fb_id, hsad]
        | some id =>
          have := hst (.drmModeAddFB sa.drm.fd width height sa.pScrn.depth sa.pScrn.bitsPerPixel
            bo.pitch bo.handle (h.drmModeAddFB sa.trace).1 (h.drmModeAddFB sa.trace).2)
            (by simp)
          rw [h2] at this
          simp [Event.storesFbId] at this

/-- C3 at a concrete screen: when `drmModeAddFB` fails without storing an id,
resizing the sample screen returns FALSE, the virtual width and `fb_id` stay
as they were and the new buffer is released. -/
theorem armada_drm_xf86crtc_resize_no_switch_witness :
    (armada_drm_xf86crtc_resize { okHost with drmModeAddFB := fun _ => (-1, none) }
      sampleState 800 600).map Prod.fst = some false ∧
    (armada_drm_xf86crtc_resize { okHost with drmModeAddFB := fun _ => (-1, none) }
      sampleState 800 600).map (fun r => r.2.pScrn.virtualX)
        = some sampleState.pScrn.virtualX ∧
    (armada_drm_xf86crtc_resize { okHost with drmModeAddFB := fun _ => (-1, none) }
      sampleState 800 600).map (fun r => r.2.drm.fb_id) = some sampleState.drm.fb_id :=
  ⟨rfl,
    congrArg some ((armada_drm_xf86crtc_resize_no_switch { okHost with drmModeAddFB := fun _ => (-1, none) }
      sampleState 800 600).2 _ rfl rfl).1,
    congrArg some (((armada_drm_xf86crtc_resize_no_switch { okHost with drmModeAddFB := fun _ => (-1, none) }
      sampleState 800 600).2 _ rfl rfl).2.2.2.2.2.2 (by decide))⟩

/-- C7: hot-plug notification.  `armada_drm_handle_uevent` issues
`RRGetInfo` with force TRUE if and only if the received uevent is a hot-plug
event of the DRM device (a device was received, its device number equals
`drm->udev.drm_dev`, and its `HOTPLUG` property parses in base 10 to 1); it
then issues it exactly once, and for every other event it issues no
`RRGetInfo` at all.  When the `HotPlug` option is given as false,
`armada_drm_udev_init` returns TRUE having only logged: no call is made, so no
monitor is created and no handler registered.  When the option is absent,
detection is enabled by default: the message is logged as `X_DEFAULT`, and the
first call is `fstat` on the DRM descriptor.  The result is then TRUE exactly
when the whole sequence was carried out (the descriptor is a character device,
the udev context and its monitor were created, the monitor filtered and
enabled, its descriptor read and the handler registered on it), and then the
record holds the device number, the monitor and the handler that
`xf86AddGeneralHandler` returned.  The result is FALSE exactly when one of
these steps is recorded as failed; then no handler was registered, the
recorded monitor and handler are as before, and every udev context and
monitor that was created has been released. -/
theorem armada_drm_hotplug_notification (h : Host) (s : State) :
    (Event.RRGetInfo true ∈ issued s.toServer (armada_drm_handle_uevent h s).toServer ↔
      uevent_is_hotplug s.drm (h.udev_monitor_receive_device s.trace)) ∧
    (uevent_is_hotplug s.drm (h.udev_monitor_receive_device s.trace) →
      (issued s.toServer (armada_drm_handle_uevent h s).toServer).filter Event.isRRGetInfo
        = [.RRGetInfo true]) ∧
    (¬ uevent_is_hotplug s.drm (h.udev_monitor_receive_device s.trace) →
      (issued s.toServer (armada_drm_handle_uevent h s).toServer).filter Event.isRRGetInfo
        = []) ∧
    (xf86GetOptValBool s.drm.Options .OPTION_HOTPLUG = some false →
      armada_drm_udev_init h s
        = (true, s.xf86DrvMsg .X_CONFIG "hotplug detection %sabled\n")) ∧
    (xf86GetOptValBool s.drm.Options .OPTION_HOTPLUG = none →
      (armada_drm_udev_init h s).2.log
        = s.log ++ [⟨.X_DEFAULT, "hotplug detection %sabled\n"⟩] ∧
      (∃ evs, issued s.toServer (armada_drm_udev_init h s).2.toServer
        = .fstat s.drm.fd (h.fstat s.trace) :: evs) ∧
      ((armada_drm_udev_init h s).1 = true ↔
        ∃ st u m mfd hd, st.is_chr = true ∧
          issued s.toServer (armada_drm_udev_init h s).2.toServer
            = [.fstat s.drm.fd (some st), .udev_new (some u),
                .udev_monitor_new_from_netlink u (some m),
                .udev_monitor_filter_add_match_subsystem_devtype m 0,
                .udev_monitor_enable_receiving m 0, .udev_monitor_get_fd m mfd,
                .xf86AddGeneralHandler mfd hd]) ∧
      (∀ st u m mfd hd,
        issued s.toServer (armada_drm_udev_init h s).2.toServer
            = [.fstat s.drm.fd (some st), .udev_new (some u),
                .udev_monitor_new_from_netlink u (some m),
                .udev_monitor_filter_add_match_subsystem_devtype m 0,
                .udev_monitor_enable_receiving m 0, .udev_monitor_get_fd m mfd,
                .xf86AddGeneralHandler mfd hd] →
        (armada_drm_udev_init h s).2.drm
          = { s.drm with udev_drm_dev := st.st_rdev, udev_monitor := some m,
                         udev_handler := hd }) ∧
      ((armada_drm_udev_init h s).1 = false ↔
        ∃ e ∈ issued s.toServer (armada_drm_udev_init h s).2.toServer,
          e.isUdevFailure = true) ∧
      ((armada_drm_udev_init h s).1 = false →
        (issued s.toServer (armada_drm_udev_init h s).2.toServer).filter
          Event.isAddGeneralHandler = [] ∧
        (armada_drm_udev_init h s).2.drm.udev_monitor = s.drm.udev_monitor ∧
        (armada_drm_udev_init h s).2.drm.udev_handler = s.drm.udev_handler ∧
        (∀ u, Event.udev_new (some u) ∈
            issued s.toServer (armada_drm_udev_init h s).2.toServer →
          Event.udev_unref u ∈ issued s.toServer (armada_drm_udev_init h s).2.toServer) ∧
        (∀ u m, Event.udev_monitor_new_from_netlink u (some m) ∈
            issued s.toServer (armada_drm_udev_init h s).2.toServer →
          Event.udev_monitor_unref m ∈
            issued s.toServer (armada_drm_udev_init h s).2.toServer))) := by
  have hcases := handle_uevent_issued h s
  refine ⟨?_, ?_, ?_, udev_init_disabled h s, ?_⟩
  · rcases hcases with ⟨hc, hiss⟩ | ⟨hc, hnil⟩
    · rw [hiss]; simp [hc]
    · constructor
      · intro hmem
        have : Event.RRGetInfo true ∈
            (issued s.toServer (armada_drm_handle_uevent h s).toServer).filter
              Event.isRRGetInfo := List.mem_filter.2 ⟨hmem, rfl⟩
        rw [hnil] at this
        exact absurd this (by simp)
      · intro hp; exact absurd hp hc
  · intro hp
    rcases hcases with ⟨_, hiss⟩ | ⟨hc, _⟩
    · rw [hiss]; rfl
    · exact absurd hp hc
  · intro hp
    rcases hcases with ⟨hc, _⟩ | ⟨_, hnil⟩
    · exact absurd hc hp
    · exact hnil
  · intro hn
    obtain ⟨hlog, hfirst, hout⟩ := udev_init_enabled_cases h s (by rw [hn]; simp)
    refine ⟨by rw [hlog, hn]; rfl, hfirst, ?_⟩
    clear hlog hfirst hcases
    generalize issued s.toServer (armada_drm_udev_init h s).2.toServer = I at hout ⊢
    generalize armada_drm_udev_init h s = R at hout ⊢
    rcases hout with ⟨hb, hi, hd⟩ | ⟨st, hc, hb, hi, hd⟩ | ⟨st, hc, hb, hi, hd⟩ |
      ⟨st, u, hc, hb, hi, hd⟩ | ⟨st, u, m, r1, hc, hr, hb, hi, hd⟩ |
      ⟨st, u, m, r2, hc, hr, hb, hi, hd⟩ | ⟨st, u, m, mfd, hdl, hc, hb, hi, hd⟩
    · subst hi
      rw [hb, hd]
      simp [Event.isUdevFailure, Event.isAddGeneralHandler]
    · subst hi
      rw [hb, hd]
      simp [Event.isUdevFailure, Event.isAddGeneralHandler, hc]
    · subst hi
      rw [hb, hd]
      simp [Event.isUdevFailure, Event.isAddGeneralHandler, hc]
    · subst hi
      rw [hb, hd]
      simp [Event.isUdevFailure, Event.isAddGeneralHandler, hc]
    · subst hi
      rw [hb, hd]
      simp [Event.isUdevFailure, Event.isAddGeneralHandler, hc, hr]
    · subst hi
      rw [hb, hd]
      simp [Event.isUdevFailure, Event.isAddGeneralHandler, hc, hr]
    · subst hi
      rw [hb, hd]
      simp [udev_init_calls, Event.isUdevFailure, Event.isAddGeneralHandler, hc]
      intro st1 u1 m1 mfd1 hd1 e1 _ e3 _ e5
      exact ⟨by rw [e1], e3, e5⟩

/-- C7 at a concrete screen: the sample host delivers a device with the
recorded device number and `HOTPLUG=1`, so one forced `RRGetInfo` is issued;
with the option table as declared (`HotPlug` found with value false) the
initialisation returns TRUE after logging only; and on the sample screen,
whose option table has no `HotPlug` value, the initialisation is logged as a
default, carries out the whole sequence and returns TRUE with monitor 2 and
handler 9 stored. -/
theorem armada_drm_hotplug_notification_witness :
    uevent_is_hotplug sampleState.drm (okHost.udev_monitor_receive_device sampleState.trace) ∧
    (issued sampleState.toServer (armada_drm_handle_uevent okHost sampleState).toServer).filter
      Event.isRRGetInfo = [.RRGetInfo true] ∧
    xf86GetOptValBool rawOptionsState.drm.Options .OPTION_HOTPLUG = some false ∧
    armada_drm_udev_init okHost rawOptionsState
      = (true, rawOptionsState.xf86DrvMsg .X_CONFIG "hotplug detection %sabled\n") ∧
    xf86GetOptValBool sampleState.drm.Options .OPTION_HOTPLUG = none ∧
    (armada_drm_udev_init okHost sampleState).2.log
      = [⟨.X_DEFAULT, "hotplug detection %sabled\n"⟩] ∧
    (armada_drm_udev_init okHost sampleState).1 = true ∧
    issued sampleState.toServer (armada_drm_udev_init okHost sampleState).2.toServer
      = [.fstat 3 (some ⟨true, 57856⟩), .udev_new (some 1),
          .udev_monitor_new_from_netlink 1 (some 2),
          .udev_monitor_filter_add_match_subsystem_devtype 2 0,
          .udev_monitor_enable_receiving 2 0, .udev_monitor_get_fd 2 5,
          .xf86AddGeneralHandler 5 (some 9)] ∧
    (armada_drm_udev_init okHost sampleState).2.drm
      = { sampleState.drm with udev_drm_dev := 57856, udev_monitor := some 2,
                               udev_handler := some 9 } :=
  ⟨⟨⟨57856, some [49]⟩, [49], rfl, rfl, rfl, by decide⟩,
    (armada_drm_hotplug_notification okHost sampleState).2.1
      ⟨⟨57856, some [49]⟩, [49], rfl, rfl, rfl, by decide⟩,
    by decide,
    (armada_drm_hotplug_notification okHost rawOptionsState).2.2.2.1 (by decide),
    by decide,
    ((armada_drm_hotplug_notification okHost sampleState).2.2.2.2 (by decide)).1,
    ((armada_drm_hotplug_notification okHost sampleState).2.2.2.2 (by decide)).2.2.1.2
      ⟨⟨true, 57856⟩, 1, 2, 5, some 9, rfl, rfl⟩,
    rfl,
    ((armada_drm_hotplug_notification okHost sampleState).2.2.2.2 (by decide)).2.2.2.1
      ⟨true, 57856⟩ 1 2 5 (some 9) rfl⟩

end Armada
